import Mathlib

/-!
# SGCT cluster networking: `NetworkManager`

A shallow embedding of `src/src/sgct/networkmanager.cpp`.

* Bytes (`char`) are natural numbers; a buffer (`std::vector<char>`, or the
  memory behind a `const void*`) is a `List Nat`.
* `int` values are `Int`s; a conversion to a 32 bit `int` truncates
  (`toInt32`), a signed addition that leaves the `int` range is undefined
  behaviour.
* A computation that runs into undefined behaviour (a read or a write outside
  its buffer, signed overflow) or that leaves by an exception of the standard
  library (`std::vector::resize` with a size above `max_size()`) has the result
  `none`.
* `uLong` and `size_t` are 64 bit wide (LP64); an `int32` is stored in the
  byte order of the host, little-endian on the supported targets.
* `zlib` is an external library: its three entry points are the fields of the
  structure `Zlib`, a parameter of the embedding.
* `sgct/network.h` is not part of the sources: the values of the package ids
  are the parameter `PackageIds`, the header size is the one of the spec.
-/

namespace sgct.core

set_option autoImplicit false

/-! ## Machine integers and byte buffers -/

/-- Value of `static_cast<int>(v)`: truncation to 32 bit two's complement. -/
def toInt32 (v : Int) : Int := (v + 2147483648) % 4294967296 - 2147483648

/-- Value of `static_cast<uLong>(v)` (also `size_t`): reduction modulo `2^64`. -/
def toULong (v : Int) : Nat := (v % 18446744073709551616).toNat

/-- Signed `int` addition; `none` when the sum is not an `int` (undefined behaviour). -/
def addInt (a b : Int) : Option Int :=
  if -2147483648 ≤ a + b ∧ a + b ≤ 2147483647 then some (a + b) else none

/-- Object representation of an `int`: the four bytes `memcpy(dst, &v, sizeof(int))` copies. -/
def int32Bytes (v : Int) : List Nat :=
  let u := (v % 4294967296).toNat
  [u % 256, u / 256 % 256, u / 65536 % 256, u / 16777216 % 256]

/-- The `int` whose object representation is stored at `buf[off .. off+3]`. -/
def readInt32 (buf : List Nat) (off : Nat) : Int :=
  toInt32 (Int.ofNat (buf.getD off 0 + 256 * buf.getD (off + 1) 0
    + 65536 * buf.getD (off + 2) 0 + 16777216 * buf.getD (off + 3) 0))

/-- Effect of `buffer.resize(length)` for an `int` argument: a negative `int` converts to a
`size_t` above `max_size()` and `resize` throws; otherwise the vector is cut or filled with
value-initialised (zero) bytes. -/
def resize (buffer : List Nat) (length : Int) : Option (List Nat) :=
  if length < 0 then none
  else some (buffer.take length.toNat ++ List.replicate (length.toNat - buffer.length) 0)

/-- Store `bytes` at `buf[off ..]` (`memcpy`, `memset`, `operator[]`); `none` when the
destination range does not lie inside the buffer. -/
def writeAt (buf : List Nat) (off : Nat) (bytes : List Nat) : Option (List Nat) :=
  if off + bytes.length ≤ buf.length then
    some (buf.take off ++ bytes ++ buf.drop (off + bytes.length))
  else none

/-- Read the first `n` bytes of the memory `mem` a pointer refers to; `none` when the object
pointed to is shorter than `n` bytes. -/
def readMem (mem : List Nat) (n : Nat) : Option (List Nat) :=
  if n ≤ mem.length then some (mem.take n) else none

/-! ## External collaborators -/

/-- The part of zlib the network manager calls.
`compress2 destLen source level` is `(err, out)`: the return code and the bytes stored in the
destination (on `Z_OK` the new value of `*destLen` is `out.length`).
`uncompress destLen source` likewise. -/
structure Zlib where
  compressBound : Nat → Nat
  compress2 : Nat → List Nat → Int → Int × List Nat
  uncompress : Nat → List Nat → Int × List Nat

/-- Return code `Z_OK` of zlib. -/
def Z_OK : Int := 0

/-- Return code `Z_BUF_ERROR` of zlib. -/
def Z_BUF_ERROR : Int := -5

/-- Values of the package header ids of `Network` (`sgct/network.h` is not in the sources). -/
structure PackageIds where
  DefaultId : Nat
  DataId : Nat
  CompressedDataId : Nat
  ConnectedId : Nat
  DisconnectId : Nat
  AckId : Nat

/-- Modelled from the spec: `Network::HeaderSize`, declared in `sgct/network.h` (not in the
sources); "Header size is fixed at 13 bytes for all connection types". -/
def HeaderSize : Nat := 13

/-! ## `NetworkManager::prepareTransferData` -/

/-- What `prepareTransferData` leaves behind: its return value, the `buffer` and the `length`
it received by reference. -/
structure PrepareResult where
  success : Bool
  buffer : List Nat
  length : Int
deriving DecidableEq, Repr

/-- The compressing branch of `prepareTransferData` (lines 446-488 and 512-514), entered with
the resized buffer that already holds the type byte and the package id. -/
def prepareCompressed (z : Zlib) (mCompressionLevel : Int) (data : List Nat)
    (buffer : List Nat) (length messageLength : Int) : Option PrepareResult :=
  -- uLong compressedSize = static_cast<uLongf>(length - Network::HeaderSize);
  let compressedSize := toULong (length - HeaderSize)
  -- compress2(compDataPtr, &compressedSize, data, static_cast<uLong>(length), level)
  (readMem data (toULong length)).bind fun source =>
  let r := z.compress2 compressedSize source mCompressionLevel
  (writeAt buffer HeaderSize r.2).bind fun buffer =>
  if r.1 ≠ Z_OK then
    some ⟨false, buffer, length⟩
  else
    -- send original size: std::memcpy(buffer.data() + 9, &length, sizeof(int));
    (writeAt buffer 9 (int32Bytes length)).bind fun buffer =>
    -- length = static_cast<int>(compressedSize);
    let length := toInt32 (Int.ofNat r.2.length)
    -- length = length + static_cast<int>(Network::HeaderSize);
    (addInt length HeaderSize).bind fun length =>
    -- std::memcpy(buffer.data() + 5, &messageLength, sizeof(int));
    (writeAt buffer 5 (int32Bytes messageLength)).bind fun buffer =>
    some ⟨true, buffer, length⟩

/-- The copying branch of `prepareTransferData` (lines 489-494 and 512-514). -/
def preparePlain (ids : PackageIds) (data : List Nat)
    (buffer : List Nat) (length messageLength : Int) : Option PrepareResult :=
  -- memset(buffer.data() + 9, Network::DefaultId, sizeof(int));
  (writeAt buffer 9 (List.replicate 4 ids.DefaultId)).bind fun buffer =>
  -- memcpy(buffer.data() + Network::HeaderSize, data, length - Network::HeaderSize);
  (readMem data (toULong (length - HeaderSize))).bind fun payload =>
  (writeAt buffer HeaderSize payload).bind fun buffer =>
  -- std::memcpy(buffer.data() + 5, &messageLength, sizeof(int));
  (writeAt buffer 5 (int32Bytes messageLength)).bind fun buffer =>
  some ⟨true, buffer, length⟩

/-- `NetworkManager::prepareTransferData(data, buffer, length, packageId)` with the members
`mCompress` and `mCompressionLevel`; `data` is the memory readable through the pointer. -/
def prepareTransferData (ids : PackageIds) (z : Zlib) (mCompress : Bool)
    (mCompressionLevel : Int) (data : List Nat) (buffer : List Nat) (length : Int)
    (packageId : Int) : Option PrepareResult :=
  -- int messageLength = length;
  let messageLength := length
  -- if (mCompress) length = static_cast<int>(compressBound(static_cast<uLong>(length)));
  let length := if mCompress then toInt32 (Int.ofNat (z.compressBound (toULong length)))
    else length
  -- length += static_cast<int>(Network::HeaderSize);
  (addInt length HeaderSize).bind fun length =>
  -- buffer.resize(length);
  (resize buffer length).bind fun buffer =>
  -- buffer[0] = static_cast<char>(mCompress ? CompressedDataId : DataId);
  (writeAt buffer 0 [if mCompress then ids.CompressedDataId else ids.DataId]).bind fun buffer =>
  -- memcpy(buffer.data() + 1, &packageId, sizeof(int));
  (writeAt buffer 1 (int32Bytes packageId)).bind fun buffer =>
  if mCompress then prepareCompressed z mCompressionLevel data buffer length messageLength
  else preparePlain ids data buffer length messageLength

/-- The bytes a `sendData(buffer.data(), length)` puts on the wire. -/
def frameOf (r : PrepareResult) : List Nat := r.buffer.take r.length.toNat

/-- Modelled from the spec: the receiving side lives in `Network` (`network.cpp` is not in the
sources). "if the type byte indicates compression, decompress into a buffer sized from the
header's uncompressed-length field before handing the result to the application decode
callback"; the payload is what follows the 13 byte header. `none` when zlib reports an error. -/
def decode (ids : PackageIds) (z : Zlib) (frame : List Nat) : Option (List Nat) :=
  let payload := frame.drop HeaderSize
  if frame.getD 0 ids.DefaultId = ids.CompressedDataId then
    let r := z.uncompress (toULong (readInt32 frame 9)) payload
    if r.1 = Z_OK then some r.2 else none
  else some payload

/-! ## A small executable stand-in for zlib -/

/-- Run-length encoding: every run of at most 255 equal bytes becomes `count, byte`. -/
def rleEncode : List Nat → List Nat
  | [] => []
  | b :: bs =>
    match rleEncode bs with
    | c :: b' :: rest => if b = b' ∧ c < 255 then (c + 1) :: b' :: rest
                         else 1 :: b :: c :: b' :: rest
    | _ => [1, b]

/-- Inverse of `rleEncode`. -/
def rleDecode : List Nat → List Nat
  | c :: b :: rest => List.replicate c b ++ rleDecode rest
  | _ => []

/-- A compressor with the interface of zlib: `compressBound` is the bound zlib documents,
the stream is a run-length code, and a destination that is too small gives `Z_BUF_ERROR`. -/
def rleZlib : Zlib where
  compressBound n := n + n / 4096 + n / 16384 + n / 33554432 + 13
  compress2 destLen source _ :=
    if (rleEncode source).length ≤ destLen then (Z_OK, rleEncode source) else (Z_BUF_ERROR, [])
  uncompress destLen source :=
    if (rleDecode source).length ≤ destLen then (Z_OK, rleDecode source) else (Z_BUF_ERROR, [])

/-- Package ids used for evaluation (the numbering of section 6 of the spec, `DefaultId` 0). -/
def specIds : PackageIds where
  DefaultId := 0
  DataId := 1
  CompressedDataId := 2
  ConnectedId := 3
  DisconnectId := 4
  AckId := 5

/-! ## The connection registry -/

/-- `Network::ConnectionType`. -/
inductive ConnectionType where
  | SyncConnection
  | DataTransfer
  | ExternalASCIIConnection
  | ExternalRawConnection
deriving DecidableEq, Repr

/-- Modelled from the spec: the class `Network` (`network.h` and `network.cpp` are not in the
sources), reduced to what the manager reads and writes: "Connection: id, type, role, socket
handle, isConnected, isUpdated, frameCounter". `sent` records, oldest first, the byte
sequences handed to `sendData`. -/
structure Network where
  mId : Int
  mPort : String
  mAddress : String
  mType : ConnectionType
  mServer : Bool
  mConnected : Bool
  mUpdated : Bool
  mSendFrame : Int
  sent : List (List Nat)
deriving DecidableEq, Repr

instance : Inhabited Network :=
  ⟨⟨0, "", "", ConnectionType.SyncConnection, false, false, false, 0, []⟩⟩

/-- `Network::getType`. -/
def Network.getType (n : Network) : ConnectionType := n.mType

/-- `Network::isConnected`. -/
def Network.isConnected (n : Network) : Bool := n.mConnected

/-- `Network::isUpdated`. -/
def Network.isUpdated (n : Network) : Bool := n.mUpdated

/-- `Network::isServer`. -/
def Network.isServer (n : Network) : Bool := n.mServer

/-- Modelled from the spec: `Network::sendData(data, length)`, "writes a fully framed
message": `length` bytes read at `data` go out on the socket; `none` when `data` holds fewer
bytes. -/
def Network.sendData (n : Network) (data : List Nat) (length : Int) : Option Network :=
  (readMem data length.toNat).map fun bytes => { n with sent := n.sent ++ [bytes] }

/-- How a call of `Network::init` ends: it returns (the connection then reports the id
`mId`), or it throws one of the two kinds of exception `addConnection` catches ("we now throw
the correct type from Network", line 787). -/
inductive InitOutcome where
  | ok (mId : Int)
  | runtimeError (what : String)
  | cString (err : String)
deriving DecidableEq, Repr

/-- Modelled from the spec: the connection `std::make_unique<Network>()` followed by
`init(port, address, isServer, type)` leaves behind when `init` returns. -/
def Network.init (mId : Int) (port address : String) (isServer : Bool)
    (connectionType : ConnectionType) : Network :=
  ⟨mId, port, address, connectionType, isServer, false, false, 0, []⟩

/-- `NetworkManager::NetworkMode` (declared in `sgct/networkmanager.h`, not in the sources):
the two modes the constructor names, and the remaining one. -/
inductive NetworkMode where
  | Remote
  | LocalServer
  | LocalClient
deriving DecidableEq, Repr

/-- The members of `NetworkManager`. A `Network*` of the shortcut lists is the position of
the connection in the owning vector `mNetworkConnections` (the objects are heap allocated and
never move). -/
structure NetworkManager where
  mNetworkConnections : List Network
  mSyncConnections : List Nat
  mDataTransferConnections : List Nat
  mExternalControlConnection : Option Nat
  mNumberOfActiveConnections : Nat
  mNumberOfActiveSyncConnections : Nat
  mNumberOfActiveDataTransferConnections : Nat
  mIsServer : Bool
  mIsRunning : Bool
  mAllNodesConnected : Bool
  mCompress : Bool
  mCompressionLevel : Int
  mLocalAddresses : List String
  mMode : NetworkMode
  mHostName : String
  mDNSNames : List String
deriving DecidableEq, Repr

/-- The connection a `Network*` points to. -/
def NetworkManager.deref (m : NetworkManager) (p : Nat) : Network :=
  m.mNetworkConnections.getD p default

/-- Replace the connection a `Network*` points to. -/
def NetworkManager.store (m : NetworkManager) (p : Nat) (n : Network) : NetworkManager :=
  { m with mNetworkConnections := m.mNetworkConnections.set p n }

/-- `NetworkManager::getActiveConnectionsCount`. -/
def getActiveConnectionsCount (m : NetworkManager) : Nat := m.mNumberOfActiveConnections

/-- `NetworkManager::getActiveSyncConnectionsCount`. -/
def getActiveSyncConnectionsCount (m : NetworkManager) : Nat :=
  m.mNumberOfActiveSyncConnections

/-- `NetworkManager::getActiveDataTransferConnectionsCount`. -/
def getActiveDataTransferConnectionsCount (m : NetworkManager) : Nat :=
  m.mNumberOfActiveDataTransferConnections

/-- `NetworkManager::getConnectionsCount`: `static_cast<int>(mNetworkConnections.size())`
(a registry never holds `2^31` connections, the cast keeps the value). -/
def getConnectionsCount (m : NetworkManager) : Int := Int.ofNat m.mNetworkConnections.length

/-- `NetworkManager::getSyncConnectionsCount`. -/
def getSyncConnectionsCount (m : NetworkManager) : Int := Int.ofNat m.mSyncConnections.length

/-- `NetworkManager::getDataTransferConnectionsCount`. -/
def getDataTransferConnectionsCount (m : NetworkManager) : Int :=
  Int.ofNat m.mDataTransferConnections.length

/-- `NetworkManager::getExternalControlPtr`. -/
def getExternalControlPtr (m : NetworkManager) : Option Nat := m.mExternalControlConnection

/-- `NetworkManager::isSyncComplete`: `std::count_if` over `mSyncConnections` of
`n->isUpdated()`, compared with `getActiveSyncConnectionsCount()`. -/
def isSyncComplete (m : NetworkManager) : Bool :=
  let counter := m.mSyncConnections.countP fun n => (m.deref n).isUpdated
  counter == getActiveSyncConnectionsCount m

/-- One pass of the loop of lines 802-814 of `addConnection`: file the connection at position
`p` under its type. -/
def classify (m : NetworkManager) (p : Nat) : NetworkManager :=
  match (m.deref p).getType with
  | ConnectionType.SyncConnection => { m with mSyncConnections := m.mSyncConnections ++ [p] }
  | ConnectionType.DataTransfer =>
    { m with mDataTransferConnections := m.mDataTransferConnections ++ [p] }
  | _ => { m with mExternalControlConnection := some p }

/-- Lines 797-814 of `addConnection`: clear the three shortcuts and rebuild them from the
owning vector. -/
def updateShortcuts (m : NetworkManager) : NetworkManager :=
  (List.range m.mNetworkConnections.length).foldl classify
    { m with mSyncConnections := [], mDataTransferConnections := [],
             mExternalControlConnection := none }

/-- `NetworkManager::addConnection(port, address, connectionType)`; `init` says how the call
of `Network::init` ends. The result is the return value and the manager after the call. -/
def addConnection (m : NetworkManager) (port address : String)
    (connectionType : ConnectionType) (init : InitOutcome) : Bool × NetworkManager :=
  if port.isEmpty then (false, m)
  else if address.isEmpty then (false, m)
  else
    match init with
    | InitOutcome.runtimeError _ => (false, m)
    | InitOutcome.cString _ => (false, m)
    | InitOutcome.ok mId =>
      let netPtr := Network.init mId port address m.mIsServer connectionType
      let m := { m with mNetworkConnections := m.mNetworkConnections ++ [netPtr] }
      (true, updateShortcuts m)

/-- One call of `addConnection`, as data. -/
structure AddCall where
  port : String
  address : String
  connectionType : ConnectionType
  init : InitOutcome
deriving DecidableEq, Repr

/-- A sequence of `addConnection` calls: the return values, in order, and the final manager. -/
def addConnections (m : NetworkManager) : List AddCall → List Bool × NetworkManager
  | [] => ([], m)
  | c :: cs =>
    let r := addConnection m c.port c.address c.connectionType c.init
    let rs := addConnections r.2 cs
    (r.1 :: rs.1, rs.2)

/-- A manager that owns no connection yet (the state the constructor leaves behind). -/
def emptyManager (isServer : Bool) : NetworkManager :=
  ⟨[], [], [], none, 0, 0, 0, isServer, true, false, false, 1, [],
    NetworkMode.Remote, "", []⟩

/-! ## `NetworkManager::transferData` -/

/-- Lines 393-397: `sendData(buffer.data(), length)` on every connected connection of
`mDataTransferConnections`, in order. -/
def sendToAll (buffer : List Nat) (length : Int) :
    NetworkManager → List Nat → Option NetworkManager
  | m, [] => some m
  | m, p :: ps =>
    if (m.deref p).isConnected then
      ((m.deref p).sendData buffer length).bind fun n => sendToAll buffer length (m.store p n) ps
    else sendToAll buffer length m ps

/-- `NetworkManager::transferData(data, length, packageId)`: to every data transfer
connection. -/
def transferData (ids : PackageIds) (z : Zlib) (m : NetworkManager) (data : List Nat)
    (length : Int) (packageId : Int) : Option NetworkManager :=
  (prepareTransferData ids z m.mCompress m.mCompressionLevel data [] length packageId).bind
    fun r =>
      if r.success then sendToAll r.buffer r.length m m.mDataTransferConnections
      else some m

/-- `NetworkManager::transferData(data, length, packageId, nodeIndex)`. -/
def transferDataToNode (ids : PackageIds) (z : Zlib) (m : NetworkManager) (data : List Nat)
    (length : Int) (packageId : Int) (nodeIndex : Nat) : Option NetworkManager :=
  if nodeIndex ≥ m.mDataTransferConnections.length ∨
      ¬ (m.deref (m.mDataTransferConnections.getD nodeIndex 0)).isConnected then some m
  else
    (prepareTransferData ids z m.mCompress m.mCompressionLevel data [] length packageId).bind
      fun r =>
        if r.success then
          let p := m.mDataTransferConnections.getD nodeIndex 0
          ((m.deref p).sendData r.buffer r.length).map fun n => m.store p n
        else some m

/-- `NetworkManager::transferData(data, length, packageId, connection)`. -/
def transferDataToConnection (ids : PackageIds) (z : Zlib) (m : NetworkManager)
    (data : List Nat) (length : Int) (packageId : Int) (connection : Nat) :
    Option NetworkManager :=
  if (m.deref connection).isConnected then
    (prepareTransferData ids z m.mCompress m.mCompressionLevel data [] length packageId).bind
      fun r =>
        if r.success then
          ((m.deref connection).sendData r.buffer r.length).map fun n => m.store connection n
        else some m
  else some m

/-- The value of `length` after lines 434-437. -/
def frameCapacity (z : Zlib) (mCompress : Bool) (length : Int) : Int :=
  (if mCompress then toInt32 (Int.ofNat (z.compressBound (toULong length))) else length)
    + HeaderSize

/-- The `compress2` call of line 449, for an input announced as `length` bytes: the
destination holds `compressBound(length)` bytes and the source length is the value of
`length` at that point, the capacity of the whole frame. -/
def compress2Call (z : Zlib) (lvl : Int) (data : List Nat) (length : Int) : Int × List Nat :=
  z.compress2 (toULong (frameCapacity z true length - HeaderSize))
    (data.take (toULong (frameCapacity z true length))) lvl

/-! ## `NetworkManager::sync` -/

/-- `NetworkManager::SyncMode`. -/
inductive SyncMode where
  | SendDataToClients
  | AcknowledgeData
deriving DecidableEq, Repr

/-- Modelled from the spec: `Network::iterateFrameCounter` (`network.cpp` is not in the
sources). "frameCounter: int"; "increment this frame's counter". The counter is an `int`, so
the sum is taken modulo 2^32 (`toInt32`): from 2147483647 the counter goes to -2147483648.
"isUpdated: bool (new data arrived this frame)": the flag belongs to one frame, so stepping
to the next frame clears it. The result is the new counter, which line 337 stores in an
`int`, and the connection. -/
def Network.iterateFrameCounter (n : Network) : Int × Network :=
  (toInt32 (n.mSendFrame + 1),
    { n with mSendFrame := toInt32 (n.mSendFrame + 1), mUpdated := false })

/-- What `sync` works on: the manager, the data block of `SharedData` (its length is
`getDataSize()`), and the connections on which `pushClientMessage` was called, oldest
first. -/
structure SyncState where
  manager : NetworkManager
  dataBlock : List Nat
  pushed : List Nat
deriving DecidableEq, Repr

/-- The loop of lines 323-347 over the Sync shortcut list. The loop time statistics of lines
320-330 and 349-351 are floating point diagnostics and are left out. -/
def syncSend : SyncState → List Nat → Option SyncState
  | s, [] => some s
  | s, p :: ps =>
    let connection := s.manager.deref p
    if ¬ connection.isServer ∨ ¬ connection.isConnected then syncSend s ps
    else
      -- int currentSize = static_cast<int>(getDataSize()) - Network::HeaderSize;
      let currentSize := toInt32 (toInt32 (Int.ofNat s.dataBlock.length) - HeaderSize)
      -- int currentFrame = connection->iterateFrameCounter();
      let it := connection.iterateFrameCounter
      -- std::memcpy(dataBlock + 1, &currentFrame, sizeof(int));
      (writeAt s.dataBlock 1 (int32Bytes it.1)).bind fun dataBlock =>
      -- std::memcpy(dataBlock + 5, &currentSize, sizeof(int));
      (writeAt dataBlock 5 (int32Bytes currentSize)).bind fun dataBlock =>
      -- connection->sendData(getDataBlock(), static_cast<int>(getDataSize()));
      (it.2.sendData dataBlock (toInt32 (Int.ofNat dataBlock.length))).bind fun n =>
      syncSend { s with manager := s.manager.store p n, dataBlock := dataBlock } ps

/-- The loop of lines 354-362: `pushClientMessage` on every connected client-role connection
of the Sync shortcut list. -/
def syncAcknowledge : SyncState → List Nat → SyncState
  | s, [] => s
  | s, p :: ps =>
    if ¬ (s.manager.deref p).isServer ∧ (s.manager.deref p).isConnected then
      syncAcknowledge { s with pushed := s.pushed ++ [p] } ps
    else syncAcknowledge s ps

/-- `NetworkManager::sync(sm, stats)`. -/
def sync (sm : SyncMode) (s : SyncState) : Option SyncState :=
  match sm with
  | SyncMode.SendDataToClients => syncSend s s.manager.mSyncConnections
  | SyncMode.AcknowledgeData => some (syncAcknowledge s s.manager.mSyncConnections)

/-! ## `NetworkManager::updateConnectionStatus` -/

/-- The calls `updateConnectionStatus` makes into `Engine` (not in the sources). -/
inductive EngineCall where
  | updateCallbackForExternalControl (connected : Bool)
  | updateCallbackForDataTransfer (connected : Bool) (id : Int)
deriving DecidableEq, Repr

/-- A `sendData(data, length)` whose `length` is the whole of `data`. -/
def Network.sendBytes (n : Network) (bytes : List Nat) : Network :=
  { n with sent := n.sent ++ [bytes] }

/-- The three counters of the loop of lines 584-596: connected connections, connected
connections of type `SyncConnection`, connected connections of type `DataTransfer`. -/
def countConnections : List Network → Nat × Nat × Nat
  | [] => (0, 0, 0)
  | conn :: rest =>
    let c := countConnections rest
    if ¬ conn.isConnected then c
    else if conn.getType = ConnectionType.SyncConnection then (c.1 + 1, c.2.1 + 1, c.2.2)
    else if conn.getType = ConnectionType.DataTransfer then (c.1 + 1, c.2.1, c.2.2 + 1)
    else (c.1 + 1, c.2.1, c.2.2)

/-- The frame of lines 642-648: `HeaderSize` bytes `DefaultId`, the first one replaced by
`ConnectedId`. -/
def connectedFrame (ids : PackageIds) : List Nat :=
  (List.replicate HeaderSize ids.DefaultId).set 0 ids.ConnectedId

/-- The loops of lines 638-663: the Connected frame goes to every connected connection of a
shortcut list. -/
def sendConnected (ids : PackageIds) : NetworkManager → List Nat → NetworkManager
  | m, [] => m
  | m, p :: ps =>
    if (m.deref p).isConnected then
      sendConnected ids (m.store p ((m.deref p).sendBytes (connectedFrame ids))) ps
    else sendConnected ids m ps

/-- The text of line 669, as bytes. -/
def connectedMessage : List Nat := "Connected to SGCT!\r\n".toList.map Char.toNat

/-- Lines 638-663: the Connected frame goes to the connected Sync connections, then to the
connected DataTransfer connections. -/
def sendConnectedToAll (ids : PackageIds) (m : NetworkManager) : NetworkManager :=
  sendConnected ids (sendConnected ids m m.mSyncConnections) m.mDataTransferConnections

/-- Lines 666-681: an external control connection whose status is updated is greeted (ASCII
only) and reported to `Engine`. -/
def notifyExternal (m : NetworkManager) (connection : Nat) :
    NetworkManager × List EngineCall :=
  match (m.deref connection).getType with
  | ConnectionType.ExternalASCIIConnection =>
    (m.store connection ((m.deref connection).sendBytes connectedMessage),
      [EngineCall.updateCallbackForExternalControl (m.deref connection).isConnected])
  | ConnectionType.ExternalRawConnection =>
    (m, [EngineCall.updateCallbackForExternalControl (m.deref connection).isConnected])
  | _ => (m, [])

/-- Lines 626-686, the part of `updateConnectionStatus` that only a server runs (the
condition variable of line 685 is left out). -/
def updateServer (ids : PackageIds) (m : NetworkManager) (connection : Nat)
    (sync dataTransfer : Nat) : NetworkManager × List EngineCall :=
  let allNodesConnectedCopy :=
    (sync == m.mSyncConnections.length) && (dataTransfer == m.mDataTransferConnections.length)
  let m := { m with mAllNodesConnected := allNodesConnectedCopy }
  notifyExternal (if allNodesConnectedCopy then sendConnectedToAll ids m else m) connection

/-- `NetworkManager::updateConnectionStatus(connection)`: the manager after the call and the
calls made into `Engine`, in order. -/
def updateConnectionStatus (ids : PackageIds) (m : NetworkManager) (connection : Nat) :
    NetworkManager × List EngineCall :=
  let c := countConnections m.mNetworkConnections
  let m := { m with
    mNumberOfActiveConnections := c.1
    mNumberOfActiveSyncConnections := c.2.1
    mNumberOfActiveDataTransferConnections := c.2.2
    mIsRunning := if c.2.1 = 0 ∧ ¬ m.mIsServer then false else m.mIsRunning }
  let r := if m.mIsServer then updateServer ids m connection c.2.1 c.2.2 else (m, [])
  if (r.1.deref connection).getType = ConnectionType.DataTransfer then
    (r.1, r.2 ++ [EngineCall.updateCallbackForDataTransfer (r.1.deref connection).isConnected
      (r.1.deref connection).mId])
  else r

/-- `NetworkManager::areAllNodesConnected`. -/
def areAllNodesConnected (m : NetworkManager) : Bool := m.mAllNodesConnected

/-- `NetworkManager::isRunning`. -/
def isRunning (m : NetworkManager) : Bool := m.mIsRunning

/-- `NetworkManager::isComputerServer`. -/
def isComputerServer (m : NetworkManager) : Bool := m.mIsServer

/-! ## Construction: `getHostInfo`, `matchAddress`, the role -/

/-- What the operating system answers during construction: whether the network API starts
(`initAPI`, which can only fail where Winsock is used), the host name (`none` when
`gethostname` fails) and the address list of `getaddrinfo` (`none` when it fails), one entry
per `addrinfo` with its canonical name, if any, and the printed IPv4 address. -/
structure HostEnv where
  initAPI : Bool
  gethostname : Option String
  getaddrinfo : Option (List (Option String × String))

/-- The effect of `std::transform` with `::tolower` on a string. -/
def toLower (s : String) : String := String.mk (s.toList.map Char.toLower)

/-- One pass of the loop of lines 874-881 over the `addrinfo` list. -/
def addAddrInfo (m : NetworkManager) (p : Option String × String) : NetworkManager :=
  let m := match p.1 with
    | some canonname => { m with mDNSNames := m.mDNSNames ++ [canonname] }
    | none => m
  { m with mLocalAddresses := m.mLocalAddresses ++ [p.2] }

/-- `NetworkManager::getHostInfo`; `none` when it throws ("Failed to get host name") and when
`getaddrinfo` fails: the function logs the error (lines 864-870) and then calls
`freeaddrinfo(info)` at line 884 on a pointer that was never written, which is undefined
behaviour. -/
def getHostInfo (env : HostEnv) (m : NetworkManager) : Option NetworkManager :=
  match env.gethostname with
  | none => none
  | some tmpStr =>
    let m := { m with mHostName := toLower tmpStr
                      mLocalAddresses := m.mLocalAddresses ++ [toLower tmpStr] }
    match env.getaddrinfo with
    | none => none
    | some info =>
      let m := info.foldl addAddrInfo m
      some { m with mDNSNames := m.mDNSNames.map toLower
                    mLocalAddresses := m.mLocalAddresses ++ m.mDNSNames.map toLower
                      ++ ["127.0.0.1", "localhost"] }

/-- `NetworkManager::matchAddress`: `std::find` over `mLocalAddresses`. -/
def matchAddress (m : NetworkManager) (address : String) : Bool :=
  m.mLocalAddresses.contains address

/-- The constructor `NetworkManager::NetworkManager(nm)`; `masterAddress` is
`ClusterManager::instance()->getMasterAddress()`. `none` when `initAPI` or `getHostInfo`
throws. -/
def construct (env : HostEnv) (masterAddress : String) (nm : NetworkMode) :
    Option NetworkManager :=
  if ¬ env.initAPI then none
  else
    (getHostInfo env { emptyManager false with mMode := nm }).map fun m =>
      { m with mIsServer :=
          match nm with
          | NetworkMode.Remote => matchAddress m masterAddress
          | NetworkMode.LocalServer => true
          | _ => false }

/-! ## `NetworkManager::init` -/

/-- Modelled from the spec: a configured node of `ClusterManager` (not in the sources),
"Node: address, syncPort, dataTransferPort". -/
structure Node where
  address : String
  syncPort : String
  dataTransferPort : String
deriving DecidableEq, Repr

/-- Modelled from the spec: what `init` reads from `ClusterManager` (not in the sources): the
configured nodes, this node, the address of the master, the external control port and whether
external control is ASCII. -/
structure ClusterManager where
  nodes : List Node
  thisNode : Node
  masterAddress : String
  externalControlPort : String
  useASCIIForExternalControl : Bool
deriving DecidableEq, Repr

/-- The loop of lines 229-284 over the configured nodes. `outcome k` says how `Network::init`
ends in the `k`-th call of `addConnection` that `init` makes; the result is whether `init`
goes on, the manager, and the number of `addConnection` calls made so far. A call with two
arguments adds a `SyncConnection`. -/
def initNodes (outcome : Nat → InitOutcome) (remoteAddress : String) :
    NetworkManager → Nat → List Node → Bool × NetworkManager × Nat
  | m, k, [] => (true, m, k)
  | m, k, node :: rest =>
    if m.mIsServer ∧ ¬ matchAddress m node.address then
      let addSyncPort := addConnection m node.syncPort remoteAddress
        ConnectionType.SyncConnection (outcome k)
      if ¬ addSyncPort.1 then (false, addSyncPort.2, k + 1)
      else
        let addTransferPort := addConnection addSyncPort.2 node.dataTransferPort remoteAddress
          ConnectionType.DataTransfer (outcome (k + 1))
        initNodes outcome remoteAddress addTransferPort.2 (k + 2) rest
    else initNodes outcome remoteAddress m k rest

/-- Lines 176-226: the two connections a client opens to the master. -/
def initClient (cm : ClusterManager) (outcome : Nat → InitOutcome) (remoteAddress : String)
    (m : NetworkManager) : Bool × NetworkManager × Nat :=
  if ¬ m.mIsServer then
    let addSyncPort := addConnection m cm.thisNode.syncPort remoteAddress
      ConnectionType.SyncConnection (outcome 0)
    if addSyncPort.1 then
      let addTransferPort := addConnection addSyncPort.2 cm.thisNode.dataTransferPort
        remoteAddress ConnectionType.DataTransfer (outcome 1)
      (true, addTransferPort.2, 2)
    else (false, addSyncPort.2, 1)
  else (true, m, 0)

/-- Lines 159-285: the cluster part of `init`, run when more than one node is configured. -/
def initCluster (cm : ClusterManager) (outcome : Nat → InitOutcome) (remoteAddress : String)
    (m : NetworkManager) : Bool × NetworkManager × Nat :=
  if m.mNetworkConnections.any fun c =>
      c.mPort = cm.thisNode.syncPort ∨ c.mPort = cm.thisNode.dataTransferPort ∨
        c.mPort = cm.externalControlPort then (false, m, 0)
  else
    let c := initClient cm outcome remoteAddress m
    if ¬ c.1 then c else initNodes outcome remoteAddress c.2.1 c.2.2 cm.nodes

/-- `NetworkManager::init()`: the return value and the manager after the call. The decode and
acknowledge callbacks it installs on the new connections are not part of the model. -/
def init (cm : ClusterManager) (outcome : Nat → InitOutcome) (m : NetworkManager) :
    Bool × NetworkManager :=
  if cm.thisNode.address.isEmpty then (false, m)
  else if m.mMode = NetworkMode.Remote ∧ cm.masterAddress.isEmpty then (false, m)
  else
    let remoteAddress :=
      if m.mMode = NetworkMode.Remote then cm.masterAddress else "127.0.0.1"
    let m := if m.mMode ≠ NetworkMode.Remote then
        { m with mLocalAddresses := m.mLocalAddresses ++ [cm.thisNode.address] }
      else m
    let r := if cm.nodes.length > 1 then initCluster cm outcome remoteAddress m
      else (true, m, 0)
    if ¬ r.1 then (false, r.2.1)
    else if r.2.1.mIsServer then
      (true, (addConnection r.2.1 cm.externalControlPort "127.0.0.1"
        (if cm.useASCIIForExternalControl then ConnectionType.ExternalASCIIConnection
          else ConnectionType.ExternalRawConnection) (outcome r.2.2)).2)
    else (true, r.2.1)

/-! ## The shape of the registry -/

/-- The positions, in registration order, of the connections of type `t`. -/
def shortcutsOf (conns : List Network) (t : ConnectionType) : List Nat :=
  (List.range conns.length).filter fun p => (conns.getD p default).mType = t

/-- The Sync and DataTransfer shortcut lists are the ones the loop of `addConnection` builds
from the owning vector. -/
def ShortcutsBuilt (m : NetworkManager) : Prop :=
  m.mSyncConnections = shortcutsOf m.mNetworkConnections ConnectionType.SyncConnection ∧
  m.mDataTransferConnections
    = shortcutsOf m.mNetworkConnections ConnectionType.DataTransfer

/-- A connection without its record of `sendData` calls. -/
def Network.withoutLog (n : Network) : Network := { n with sent := [] }

/-- The manager with another owning vector: every other member is kept. -/
def NetworkManager.withConnections (m : NetworkManager) (conns : List Network) :
    NetworkManager :=
  { m with mNetworkConnections := conns }

/-- The members `updateConnectionStatus` leaves behind, the owning vector apart: the three
counters of the loop, the run flag, and on a server the all-nodes-connected flag. -/
def statusAfterUpdate (m : NetworkManager) : NetworkManager :=
  { m with
    mNumberOfActiveConnections := (countConnections m.mNetworkConnections).1
    mNumberOfActiveSyncConnections := (countConnections m.mNetworkConnections).2.1
    mNumberOfActiveDataTransferConnections := (countConnections m.mNetworkConnections).2.2
    mIsRunning :=
      if (countConnections m.mNetworkConnections).2.1 = 0 ∧ ¬ m.mIsServer then false
      else m.mIsRunning
    mAllNodesConnected :=
      if m.mIsServer then
        ((countConnections m.mNetworkConnections).2.1 == m.mSyncConnections.length)
          && ((countConnections m.mNetworkConnections).2.2
              == m.mDataTransferConnections.length)
      else m.mAllNodesConnected }

/-- A client whose all-nodes-connected flag is set and whose only Sync connection has
dropped. -/
def droppedClient : NetworkManager :=
  ⟨[⟨0, "20400", "10.0.0.1", ConnectionType.SyncConnection, false, false, false, 7, []⟩],
    [0], [], none, 1, 1, 0, false, true, true, false, 1, [], NetworkMode.Remote, "", []⟩

/-- The connection `n` after one pass of the loop of `sync(SendDataToClients)` that sent
`frame`. -/
def Network.afterBroadcast (n : Network) (frame : List Nat) : Network :=
  { n with mSendFrame := toInt32 (n.mSendFrame + 1), mUpdated := false,
           sent := n.sent ++ [frame] }

/-- The loop of `sync(SendDataToClients)` serves a connection that is server-role and
connected. -/
def Network.served (n : Network) : Bool := n.isServer && n.isConnected

/-- The frame `sync(SendDataToClients)` sends on a connection whose new frame counter is
`counter`: the data block `block` with `counter` at offset 1 and the size of the block less
the header at offset 5. -/
def BroadcastFrame (block : List Nat) (counter : Int) (frame : List Nat) : Prop :=
  frame.length = block.length ∧
  readInt32 frame 1 = toInt32 counter ∧
  readInt32 frame 5 = toInt32 (toInt32 (Int.ofNat block.length) - 13) ∧
  ∀ j, (j = 0 ∨ 9 ≤ j) → frame.getD j 0 = block.getD j 0

/-- The loop of lines 921-932 from index `i` on: the id of this node after the loop, `id`
being its value before (`setThisNodeId(static_cast<int>(i))`, then `break`). -/
def retrieveNodeIdFrom (m : NetworkManager) : List Node → Nat → Int → Int
  | [], _, id => id
  | node :: rest, i, id =>
    if matchAddress m node.address then Int.ofNat i
    else retrieveNodeIdFrom m rest (i + 1) id

/-- `NetworkManager::retrieveNodeId`: the id of this node in `ClusterManager` after the call;
`thisNodeId` is the id before the call. -/
def retrieveNodeId (m : NetworkManager) (cm : ClusterManager) (thisNodeId : Int) : Int :=
  retrieveNodeIdFrom m cm.nodes 0 thisNodeId

/-- The position of the last registered connection that is neither a Sync nor a DataTransfer
connection, if there is one. -/
def lastExternal (conns : List Network) : Option Nat :=
  ((List.range conns.length).filter fun p =>
    (conns.getD p default).mType ≠ ConnectionType.SyncConnection ∧
    (conns.getD p default).mType ≠ ConnectionType.DataTransfer).getLast?

/-! ## `NetworkManager::setAllNodesConnected` and `NetworkManager::close` -/

/-- `NetworkManager::setAllNodesConnected`. -/
def setAllNodesConnected (m : NetworkManager) : NetworkManager :=
  if ¬ m.mIsServer then
    { m with mAllNodesConnected :=
        (m.mNumberOfActiveSyncConnections == 1) &&
          (m.mNumberOfActiveDataTransferConnections == m.mDataTransferConnections.length) }
  else m

/-- The calls `close` makes on the connections it owns (`Network` is not in the sources);
`p` is the position of the connection in the owning vector. -/
inductive CloseCall where
  | initShutdown (p : Nat)
  | closeNetwork (p : Nat) (force : Bool)
deriving DecidableEq, Repr

/-- `NetworkManager::close`: the manager after the call and the calls made on the
connections, in order (the pause of 250 ms between the two loops is left out, and so is
whatever the connections do in their own threads while they shut down, their update callbacks
included). -/
def close (m : NetworkManager) : NetworkManager × List CloseCall :=
  ({ m with mIsRunning := false, mNetworkConnections := [], mSyncConnections := [],
            mDataTransferConnections := [] },
    (List.range m.mNetworkConnections.length).map CloseCall.initShutdown
      ++ (List.range m.mNetworkConnections.length).map fun p => CloseCall.closeNetwork p false)

/-- The three counters agree with the connections: each is the number of registered
connections of its kind that are connected. -/
def CountersAgree (m : NetworkManager) : Prop :=
  getActiveConnectionsCount m = (m.mNetworkConnections.filter fun n => n.isConnected).length ∧
  getActiveSyncConnectionsCount m
    = (m.mNetworkConnections.filter fun n =>
        n.isConnected && decide (n.getType = ConnectionType.SyncConnection)).length ∧
  getActiveDataTransferConnectionsCount m
    = (m.mNetworkConnections.filter fun n =>
        n.isConnected && decide (n.getType = ConnectionType.DataTransfer)).length

/-- The manager with another registry (owning vector and the three shortcuts): every other
member is kept. -/
def NetworkManager.withRegistry (m r : NetworkManager) : NetworkManager :=
  { m with mNetworkConnections := r.mNetworkConnections
           mSyncConnections := r.mSyncConnections
           mDataTransferConnections := r.mDataTransferConnections
           mExternalControlConnection := r.mExternalControlConnection }

/-! ## Sequences of operations -/

/-- One step in the life of a manager: a call of one of its operations, or a change of the
state of its connections made by their receive threads (`connectionChange`, for example a
connection that reconnects). -/
inductive RegistryOp where
  | doInit (cm : ClusterManager) (outcome : Nat → InitOutcome)
  | doAddConnection (port address : String) (connectionType : ConnectionType)
      (outcome : InitOutcome)
  | doUpdateConnectionStatus (connection : Nat)
  | doSetAllNodesConnected
  | doSync (sm : SyncMode) (dataBlock : List Nat)
  | doTransferData (data : List Nat) (length packageId : Int)
  | doTransferDataToNode (data : List Nat) (length packageId : Int) (nodeIndex : Nat)
  | doTransferDataToConnection (data : List Nat) (length packageId : Int) (connection : Nat)
  | doClose
  | connectionChange (conns : List Network)

/-- The manager after one step; `none` when the call runs into undefined behaviour. -/
def applyOp (ids : PackageIds) (z : Zlib) (m : NetworkManager) :
    RegistryOp → Option NetworkManager
  | RegistryOp.doInit cm outcome => some (init cm outcome m).2
  | RegistryOp.doAddConnection port address connectionType outcome =>
    some (addConnection m port address connectionType outcome).2
  | RegistryOp.doUpdateConnectionStatus connection =>
    some (updateConnectionStatus ids m connection).1
  | RegistryOp.doSetAllNodesConnected => some (setAllNodesConnected m)
  | RegistryOp.doSync sm dataBlock => (sync sm ⟨m, dataBlock, []⟩).map fun s => s.manager
  | RegistryOp.doTransferData data length packageId =>
    transferData ids z m data length packageId
  | RegistryOp.doTransferDataToNode data length packageId nodeIndex =>
    transferDataToNode ids z m data length packageId nodeIndex
  | RegistryOp.doTransferDataToConnection data length packageId connection =>
    transferDataToConnection ids z m data length packageId connection
  | RegistryOp.doClose => some (close m).1
  | RegistryOp.connectionChange conns => some { m with mNetworkConnections := conns }

/-- The manager after a sequence of steps. -/
def runOps (ids : PackageIds) (z : Zlib) : List RegistryOp → NetworkManager →
    Option NetworkManager
  | [], m => some m
  | op :: rest, m => (applyOp ids z m op).bind (runOps ids z rest)

/-! ## What `init` leaves in the registry -/

/-- The ports of the connections of type `t`, in registration order. -/
def portsOf (conns : List Network) (t : ConnectionType) : List String :=
  (conns.filter fun n => n.getType = t).map fun n => n.mPort

/-- The connections that are neither Sync nor DataTransfer connections: the external control
connections. -/
def externalConnections (conns : List Network) : List Network :=
  conns.filter fun n =>
    n.getType ≠ ConnectionType.SyncConnection ∧ n.getType ≠ ConnectionType.DataTransfer

/-- The configured nodes whose address does not match a local address (line 231). -/
def remoteNodes (m : NetworkManager) (cm : ClusterManager) : List Node :=
  cm.nodes.filter fun n => ¬ matchAddress m n.address

/-! ## The data-sync mutex -/

/-- The members the accessors of lines 522-535 and 910-918 return: the three counters of
connected connections, `mAllNodesConnected` and `mIsRunning`. -/
inductive Aggregate where
  | mNumberOfActiveConnections
  | mNumberOfActiveSyncConnections
  | mNumberOfActiveDataTransferConnections
  | mAllNodesConnected
  | mIsRunning
deriving DecidableEq, Repr

/-- What a call does, in program order, to `MutexManager::instance()->mDataSyncMutex` and to
the members of `Aggregate`. -/
inductive Access where
  | lock
  | unlock
  | read (a : Aggregate)
  | write (a : Aggregate)
deriving DecidableEq, Repr

/-- Whether every read and every write of a sequence of accesses happens while the mutex is
held; `held` says whether the calling thread holds it at the start. -/
def guardedFrom : Bool → List Access → Bool
  | _, [] => true
  | _, Access.lock :: rest => guardedFrom true rest
  | _, Access.unlock :: rest => guardedFrom false rest
  | held, Access.read _ :: rest => held && guardedFrom held rest
  | held, Access.write _ :: rest => held && guardedFrom held rest

/-- Whether every read and every write of a call happens while the mutex is held. -/
def guarded (accesses : List Access) : Bool := guardedFrom false accesses

/-- The accessors `getActiveConnectionsCount`, `getActiveSyncConnectionsCount`,
`getActiveDataTransferConnectionsCount` (lines 522-535), `isRunning` and
`areAllNodesConnected` (lines 910-918): a `std::unique_lock` on the mutex, the read of the
member, and the release of the lock on return. -/
def getterAccesses (a : Aggregate) : List Access :=
  [Access.lock, Access.read a, Access.unlock]

/-- The accesses of `updateConnectionStatus`: lines 574-581 lock the mutex around the reads
of the three vector sizes, lines 614-624 lock it around the writes of the three counters, the
read of `mNumberOfActiveSyncConnections` and the write of `mIsRunning`, and on a server lines
627-634 lock it again around the write of `mAllNodesConnected`. -/
def updateConnectionStatusAccesses (m : NetworkManager) : List Access :=
  [Access.lock, Access.unlock,
    Access.lock,
    Access.write Aggregate.mNumberOfActiveConnections,
    Access.write Aggregate.mNumberOfActiveSyncConnections,
    Access.write Aggregate.mNumberOfActiveDataTransferConnections,
    Access.read Aggregate.mNumberOfActiveSyncConnections]
  ++ (if (countConnections m.mNetworkConnections).2.1 = 0 ∧ ¬ m.mIsServer then
        [Access.write Aggregate.mIsRunning] else [])
  ++ [Access.unlock]
  ++ (if m.mIsServer then
        [Access.lock, Access.write Aggregate.mAllNodesConnected, Access.unlock] else [])

/-- The accesses of `setAllNodesConnected` (lines 701-710): a `std::unique_lock` for the whole
body; on a client the two counters are read (the second one only when the first comparison
holds) and `mAllNodesConnected` is written. -/
def setAllNodesConnectedAccesses (m : NetworkManager) : List Access :=
  [Access.lock]
  ++ (if ¬ m.mIsServer then
        [Access.read Aggregate.mNumberOfActiveSyncConnections]
        ++ (if m.mNumberOfActiveSyncConnections == 1 then
              [Access.read Aggregate.mNumberOfActiveDataTransferConnections] else [])
        ++ [Access.write Aggregate.mAllNodesConnected]
      else [])
  ++ [Access.unlock]

/-- The accesses of `close` (lines 712-742): line 713 writes `mIsRunning`; the function never
touches the mutex. -/
def closeAccesses : List Access := [Access.write Aggregate.mIsRunning]

/-! ## Inputs used for evaluation -/

/-- Memory behind a `data` pointer: the four input bytes 1, 2, 3, 4, followed by sixty further
readable bytes of value 9 that are not part of the input. -/
def overreadMemory : List Nat := [1, 2, 3, 4] ++ List.replicate 60 9

/-- Memory of forty pairwise different bytes, which the run-length code cannot shorten. -/
def incompressibleMemory : List Nat := List.range 40

/-- A server with compression switched on that owns one connected data transfer
connection. -/
def compressingManager : NetworkManager :=
  ⟨[⟨0, "20500", "127.0.0.1", ConnectionType.DataTransfer, true, true, false, 0, []⟩],
    [], [0], none, 1, 0, 1, true, true, true, true, 1, [], NetworkMode.Remote, "", []⟩

/-- A server that owns one Sync connection, connected and updated, and one DataTransfer
connection; the stored number of active Sync connections is 1. -/
def syncedManager : NetworkManager :=
  ⟨[⟨0, "20400", "127.0.0.1", ConnectionType.SyncConnection, true, true, true, 3, []⟩,
    ⟨1, "20500", "127.0.0.1", ConnectionType.DataTransfer, true, true, false, 0, []⟩],
    [0], [1], none, 2, 1, 1, true, true, true, false, 1, [], NetworkMode.Remote, "", []⟩

/-- The result of `prepareTransferData` on the four input bytes of `overreadMemory` with
compression on and package id 7 (see `prepareTransferData_overread`). -/
def overreadResult : PrepareResult :=
  ⟨true, [2, 7, 0, 0, 0, 4, 0, 0, 0, 30, 0, 0, 0, 1, 1, 1, 2, 1, 3, 1, 4, 26, 9,
    0, 0, 0, 0, 0, 0, 0], 23⟩

/-- The result of `prepareTransferData` on four bytes of `incompressibleMemory` with
compression on and package id 7: zlib's stand-in reports `Z_BUF_ERROR`. -/
def incompressibleResult : PrepareResult :=
  ⟨false, [2, 7, 0, 0, 0] ++ List.replicate 25 0, 30⟩

/-- The result of `prepareTransferData` on the four input bytes of `overreadMemory` without
compression and with package id 7. -/
def plainResult : PrepareResult :=
  ⟨true, [1, 7, 0, 0, 0, 4, 0, 0, 0, 0, 0, 0, 0, 1, 2, 3, 4], 17⟩

/-- The server of `syncedManager` about to broadcast a data block of 20 bytes. -/
def syncedState : SyncState := ⟨syncedManager, List.replicate 20 0, []⟩

/-- A client with one connected Sync connection, after it has consumed a frame. -/
def clientState : SyncState :=
  ⟨⟨[⟨0, "20400", "10.0.0.1", ConnectionType.SyncConnection, false, true, true, 7, []⟩],
    [0], [], none, 1, 1, 0, false, true, true, false, 1, [], NetworkMode.Remote, "", []⟩,
    List.replicate 20 0, []⟩

/-- A host called `Render1` with one address and one canonical name. -/
def render1Env : HostEnv :=
  ⟨true, some "Render1", some [(some "Render1.Lab.example", "192.168.0.11")]⟩

/-- A cluster of two nodes, the master at 192.168.0.11 and a second node at 192.168.0.12 that
has a sync port but neither a data transfer port nor, cluster-wide, an external control
port. -/
def twoNodeCluster : ClusterManager :=
  ⟨[⟨"192.168.0.11", "20401", "20501"⟩, ⟨"192.168.0.12", "20402", ""⟩],
    ⟨"192.168.0.11", "20401", "20501"⟩, "192.168.0.11", "", false⟩

/-- The Sync connection of `droppedClient`, connected again. -/
def reconnectedSync : Network :=
  ⟨0, "20400", "10.0.0.1", ConnectionType.SyncConnection, false, true, true, 7, []⟩

/-- The life of `droppedClient` after the first status update stopped it: its Sync connection
reconnects, the status is updated again, and the other operations are called. -/
def reconnectOps : List RegistryOp :=
  [RegistryOp.connectionChange [reconnectedSync],
    RegistryOp.doUpdateConnectionStatus 0,
    RegistryOp.doSetAllNodesConnected,
    RegistryOp.doSync SyncMode.AcknowledgeData (List.replicate 20 0),
    RegistryOp.doAddConnection "20500" "10.0.0.1" ConnectionType.DataTransfer
      (InitOutcome.ok 1),
    RegistryOp.doTransferData [1, 2, 3, 4] 4 7,
    RegistryOp.doUpdateConnectionStatus 0]

/-- A server without connections whose local addresses are those of the master of
`twoNodeCluster`. -/
def masterManager : NetworkManager :=
  ⟨[], [], [], none, 0, 0, 0, true, true, false, false, 1,
    ["192.168.0.11", "127.0.0.1", "localhost"], NetworkMode.Remote, "render1", []⟩

/-- A cluster like `twoNodeCluster` in which every port is configured. -/
def fullCluster : ClusterManager :=
  ⟨[⟨"192.168.0.11", "20401", "20501"⟩, ⟨"192.168.0.12", "20402", "20502"⟩],
    ⟨"192.168.0.11", "20401", "20501"⟩, "192.168.0.11", "20600", false⟩

/-- Every `Network::init` returns except the second one, which throws. -/
def secondInitThrows (k : Nat) : InitOutcome :=
  if k = 1 then InitOutcome.runtimeError "bind failed" else InitOutcome.ok (Int.ofNat k)

theorem writeAt_eq_some {buf bytes b : List Nat} {off : Nat}
    (h : writeAt buf off bytes = some b) :
    off + bytes.length ≤ buf.length ∧
      b = buf.take off ++ bytes ++ buf.drop (off + bytes.length) := by
  unfold writeAt at h
  split at h
  · exact ⟨by assumption, (Option.some.inj h).symm⟩
  · exact absurd h (by simp)

theorem writeAt_length {buf bytes b : List Nat} {off : Nat}
    (h : writeAt buf off bytes = some b) : b.length = buf.length := by
  obtain ⟨hle, rfl⟩ := writeAt_eq_some h
  simp only [List.length_append, List.length_take, List.length_drop]
  omega

theorem writeAt_getD_lt {buf bytes b : List Nat} {off : Nat}
    (h : writeAt buf off bytes = some b) (j d : Nat) (hj : j < off) :
    b.getD j d = buf.getD j d := by
  obtain ⟨hle, rfl⟩ := writeAt_eq_some h
  have h1 : j < (buf.take off).length := by simp only [List.length_take]; omega
  simp only [List.getD_eq_getElem?_getD, List.append_assoc]
  rw [List.getElem?_append_left h1, List.getElem?_take_of_lt hj]

theorem writeAt_getD_ge {buf bytes b : List Nat} {off : Nat}
    (h : writeAt buf off bytes = some b) (j d : Nat) (hj : off + bytes.length ≤ j) :
    b.getD j d = buf.getD j d := by
  obtain ⟨hle, rfl⟩ := writeAt_eq_some h
  have h1 : (buf.take off ++ bytes).length = off + bytes.length := by
    simp only [List.length_append, List.length_take]; omega
  simp only [List.getD_eq_getElem?_getD]
  rw [List.getElem?_append_right (by omega), h1, List.getElem?_drop]
  congr 2
  omega

theorem writeAt_getD_in {buf bytes b : List Nat} {off : Nat}
    (h : writeAt buf off bytes = some b) (i d : Nat) (hi : i < bytes.length) :
    b.getD (off + i) d = bytes.getD i d := by
  obtain ⟨hle, rfl⟩ := writeAt_eq_some h
  have h1 : (buf.take off).length = off := by simp only [List.length_take]; omega
  simp only [List.getD_eq_getElem?_getD, List.append_assoc]
  rw [List.getElem?_append_right (by omega), h1, List.getElem?_append_left (by omega)]
  congr 2
  omega

theorem toInt32_of_range (v : Int) (h1 : -2147483648 ≤ v) (h2 : v ≤ 2147483647) :
    toInt32 v = v := by
  unfold toInt32
  omega

theorem int32Bytes_length (v : Int) : (int32Bytes v).length = 4 := rfl

theorem readInt32_of_bytes {b : List Nat} {off : Nat} {v : Int}
    (h : ∀ i, i < 4 → b.getD (off + i) 0 = (int32Bytes v).getD i 0) :
    readInt32 b off = toInt32 v := by
  have h0 := h 0 (by omega)
  have h1 := h 1 (by omega)
  have h2 := h 2 (by omega)
  have h3 := h 3 (by omega)
  simp only [int32Bytes, List.getD_cons_zero, List.getD_cons_succ, Nat.add_zero] at h0 h1 h2 h3
  unfold readInt32
  rw [h0, h1, h2, h3]
  unfold toInt32
  simp only [Int.ofNat_eq_coe]
  omega

theorem readInt32_congr {b c : List Nat} {off : Nat}
    (h : ∀ i, i < 4 → b.getD (off + i) 0 = c.getD (off + i) 0) :
    readInt32 b off = readInt32 c off := by
  have h0 := h 0 (by omega)
  rw [Nat.add_zero] at h0
  unfold readInt32
  rw [h0, h 1 (by omega), h 2 (by omega), h 3 (by omega)]

/-- Reading back an `int` that was just stored. -/
theorem readInt32_writeAt_same {buf b : List Nat} {off : Nat} {v : Int}
    (h : writeAt buf off (int32Bytes v) = some b) : readInt32 b off = toInt32 v :=
  readInt32_of_bytes fun i hi => writeAt_getD_in h i 0 (by rw [int32Bytes_length]; exact hi)

/-- A store that does not overlap the four bytes at `off` leaves the `int` there alone. -/
theorem readInt32_writeAt_other {buf bytes b : List Nat} {off off' : Nat}
    (h : writeAt buf off' bytes = some b) (hd : off + 4 ≤ off' ∨ off' + bytes.length ≤ off) :
    readInt32 b off = readInt32 buf off := by
  apply readInt32_congr
  intro i hi
  rcases hd with hd | hd
  · exact writeAt_getD_lt h _ _ (by omega)
  · exact writeAt_getD_ge h _ _ (by omega)

/-! ## `prepareTransferData`: the steps of a run that returns -/

theorem addInt_eq_some {a b c : Int} (h : addInt a b = some c) :
    c = a + b ∧ -2147483648 ≤ c ∧ c ≤ 2147483647 := by
  unfold addInt at h
  split at h
  · cases Option.some.inj h
    omega
  · exact absurd h (by simp)

theorem resize_eq_some {buffer b : List Nat} {length : Int} (h : resize buffer length = some b) :
    0 ≤ length ∧ b.length = length.toNat := by
  unfold resize at h
  split at h
  · exact absurd h (by simp)
  · cases Option.some.inj h
    refine ⟨by omega, ?_⟩
    simp only [List.length_append, List.length_take, List.length_replicate]
    omega

theorem readMem_eq_some {mem bytes : List Nat} {n : Nat} (h : readMem mem n = some bytes) :
    n ≤ mem.length ∧ bytes = mem.take n := by
  unfold readMem at h
  split at h
  · exact ⟨by assumption, (Option.some.inj h).symm⟩
  · exact absurd h (by simp)

/-- Lines 432-444: a run that returns has sized the buffer and stored the type byte and the
package id; the rest of the run is one of the two branches. -/
theorem prepareTransferData_steps {ids : PackageIds} {z : Zlib} {mCompress : Bool}
    {lvl : Int} {data buffer : List Nat} {length packageId : Int} {r : PrepareResult}
    (h : prepareTransferData ids z mCompress lvl data buffer length packageId = some r) :
    ∃ b0 b1 b2 : List Nat,
      -2147483648 ≤ frameCapacity z mCompress length ∧
      frameCapacity z mCompress length ≤ 2147483647 ∧
      resize buffer (frameCapacity z mCompress length) = some b0 ∧
      writeAt b0 0 [if mCompress then ids.CompressedDataId else ids.DataId] = some b1 ∧
      writeAt b1 1 (int32Bytes packageId) = some b2 ∧
      (if mCompress then
          prepareCompressed z lvl data b2 (frameCapacity z mCompress length) length
        else preparePlain ids data b2 (frameCapacity z mCompress length) length) = some r := by
  simp only [prepareTransferData, Option.bind_eq_some] at h
  obtain ⟨L, hL, b0, hb0, b1, hb1, b2, hb2, hr⟩ := h
  obtain ⟨rfl, h1, h2⟩ := addInt_eq_some hL
  exact ⟨b0, b1, b2, h1, h2, hb0, hb1, hb2, hr⟩

/-- The compressing branch, step by step. -/
theorem prepareCompressed_steps {z : Zlib} {lvl : Int} {data b : List Nat} {L ml : Int}
    {r : PrepareResult} (h : prepareCompressed z lvl data b L ml = some r) :
    toULong L ≤ data.length ∧
    ∃ b3 : List Nat,
      writeAt b HeaderSize (z.compress2 (toULong (L - HeaderSize)) (data.take (toULong L)) lvl).2
        = some b3 ∧
      (((z.compress2 (toULong (L - HeaderSize)) (data.take (toULong L)) lvl).1 ≠ Z_OK ∧
          r = ⟨false, b3, L⟩) ∨
        ((z.compress2 (toULong (L - HeaderSize)) (data.take (toULong L)) lvl).1 = Z_OK ∧
          ∃ b4 b5 : List Nat, ∃ len : Int,
            writeAt b3 9 (int32Bytes L) = some b4 ∧
            addInt (toInt32 (Int.ofNat
              (z.compress2 (toULong (L - HeaderSize)) (data.take (toULong L)) lvl).2.length))
              HeaderSize = some len ∧
            writeAt b4 5 (int32Bytes ml) = some b5 ∧
            r = ⟨true, b5, len⟩)) := by
  simp only [prepareCompressed, Option.bind_eq_some] at h
  obtain ⟨source, hsrc, b3, hb3, hr⟩ := h
  obtain ⟨hle, rfl⟩ := readMem_eq_some hsrc
  refine ⟨hle, b3, hb3, ?_⟩
  split at hr
  · left
    exact ⟨by assumption, (Option.some.inj hr).symm⟩
  · right
    rename_i hok
    simp only [Option.bind_eq_some] at hr
    obtain ⟨b4, hb4, len, hlen, b5, hb5, hr⟩ := hr
    exact ⟨by simpa using hok, b4, b5, len, hb4, hlen, hb5, (Option.some.inj hr).symm⟩

/-- The copying branch, step by step. -/
theorem preparePlain_steps {ids : PackageIds} {data b : List Nat} {L ml : Int}
    {r : PrepareResult} (h : preparePlain ids data b L ml = some r) :
    toULong (L - HeaderSize) ≤ data.length ∧
    ∃ b3 b4 b5 : List Nat,
      writeAt b 9 (List.replicate 4 ids.DefaultId) = some b3 ∧
      writeAt b3 HeaderSize (data.take (toULong (L - HeaderSize))) = some b4 ∧
      writeAt b4 5 (int32Bytes ml) = some b5 ∧
      r = ⟨true, b5, L⟩ := by
  simp only [preparePlain, Option.bind_eq_some] at h
  obtain ⟨b3, hb3, payload, hp, b4, hb4, b5, hb5, hr⟩ := h
  obtain ⟨hle, rfl⟩ := readMem_eq_some hp
  exact ⟨hle, b3, b4, b5, hb3, hb4, hb5, (Option.some.inj hr).symm⟩

/-- Neither branch touches the first five bytes of the buffer. -/
theorem branch_keeps_first_bytes {ids : PackageIds} {z : Zlib} {mCompress : Bool} {lvl : Int}
    {data b : List Nat} {L ml : Int} {r : PrepareResult}
    (h : (if mCompress then prepareCompressed z lvl data b L ml
          else preparePlain ids data b L ml) = some r) (j d : Nat) (hj : j < 5) :
    r.buffer.getD j d = b.getD j d := by
  cases mCompress
  · simp only [Bool.false_eq_true, if_false] at h
    obtain ⟨_, b3, b4, b5, h3, h4, h5, rfl⟩ := preparePlain_steps h
    show b5.getD j d = b.getD j d
    rw [writeAt_getD_lt h5 j d hj, writeAt_getD_lt h4 j d (by unfold HeaderSize; omega),
      writeAt_getD_lt h3 j d (by omega)]
  · simp only [if_true] at h
    obtain ⟨_, b3, h3, hr⟩ := prepareCompressed_steps h
    rcases hr with ⟨_, rfl⟩ | ⟨_, b4, b5, len, h4, _, h5, rfl⟩
    · exact writeAt_getD_lt h3 j d (by unfold HeaderSize; omega)
    · show b5.getD j d = b.getD j d
      rw [writeAt_getD_lt h5 j d hj, writeAt_getD_lt h4 j d (by omega),
        writeAt_getD_lt h3 j d (by unfold HeaderSize; omega)]

/-- Header bytes 0 to 4 of the buffer after any run that returns. -/
theorem prepareTransferData_first_bytes {ids : PackageIds} {z : Zlib} {mCompress : Bool}
    {lvl : Int} {data buffer : List Nat} {length packageId : Int} {r : PrepareResult}
    (h : prepareTransferData ids z mCompress lvl data buffer length packageId = some r) :
    r.buffer.getD 0 0 = (if mCompress then ids.CompressedDataId else ids.DataId) ∧
    readInt32 r.buffer 1 = toInt32 packageId := by
  obtain ⟨b0, b1, b2, _, _, _, h1, h2, hr⟩ := prepareTransferData_steps h
  constructor
  · rw [branch_keeps_first_bytes hr 0 0 (by omega), writeAt_getD_lt h2 0 0 (by omega)]
    exact writeAt_getD_in h1 0 0 (by simp)
  · have hc : readInt32 r.buffer 1 = readInt32 b2 1 :=
      readInt32_congr fun i hi => branch_keeps_first_bytes hr (1 + i) 0 (by omega)
    rw [hc]
    exact readInt32_writeAt_same h2

/-- A store leaves everything behind its last byte in place. -/
theorem writeAt_drop {buf bytes b : List Nat} {off : Nat}
    (h : writeAt buf off bytes = some b) (k : Nat) (hk : off + bytes.length ≤ k) :
    b.drop k = buf.drop k := by
  obtain ⟨hle, rfl⟩ := writeAt_eq_some h
  have h1 : (buf.take off ++ bytes).length = off + bytes.length := by
    simp only [List.length_append, List.length_take]; omega
  have h2 : k = (buf.take off ++ bytes).length + (k - (off + bytes.length)) := by omega
  rw [h2, List.drop_append, List.drop_drop, h1]

/-- What a store put in the buffer can be read back from its place. -/
theorem writeAt_drop_same {buf bytes b : List Nat} {off : Nat}
    (h : writeAt buf off bytes = some b) :
    b.drop off = bytes ++ buf.drop (off + bytes.length) := by
  obtain ⟨hle, rfl⟩ := writeAt_eq_some h
  have h1 : (buf.take off).length = off := by simp only [List.length_take]; omega
  rw [List.append_assoc]
  exact List.drop_left' h1

/-- The facts about a compressing run that returns `true`: zlib returned `Z_OK` for the call
of line 449, `length` is the size of the compressed stream plus the header, offset 5 holds the
`length` the caller passed in, offset 9 the capacity of the frame, and the stream follows the
header. -/
theorem prepareTransferData_compressed_success {ids : PackageIds} {z : Zlib} {lvl : Int}
    {data buffer : List Nat} {length packageId : Int} {r : PrepareResult}
    (h : prepareTransferData ids z true lvl data buffer length packageId = some r)
    (hs : r.success = true) :
    (compress2Call z lvl data length).1 = Z_OK ∧
    toULong (frameCapacity z true length) ≤ data.length ∧
    r.length = Int.ofNat (compress2Call z lvl data length).2.length + 13 ∧
    readInt32 r.buffer 5 = toInt32 length ∧
    readInt32 r.buffer 9 = frameCapacity z true length ∧
    (frameOf r).drop HeaderSize = (compress2Call z lvl data length).2 := by
  obtain ⟨b0, b1, b2, hlo, hhi, h0, h1, h2, hr⟩ := prepareTransferData_steps h
  simp only [if_true] at hr
  obtain ⟨hsrc, b3, h3, hr⟩ := prepareCompressed_steps hr
  rcases hr with ⟨_, rfl⟩ | ⟨hok, b4, b5, len, h4, hlen, h5, rfl⟩
  · exact absurd hs (by simp)
  · obtain ⟨hcap, hb0⟩ := resize_eq_some h0
    have hl3 : b3.length = (frameCapacity z true length).toNat := by
      rw [writeAt_length h3, writeAt_length h2, writeAt_length h1, hb0]
    have hout := (writeAt_eq_some h3).1
    rw [writeAt_length h2, writeAt_length h1, hb0] at hout
    have hlen' := (addInt_eq_some hlen).1
    have hfit : toInt32 (Int.ofNat
        (z.compress2 (toULong (frameCapacity z true length - HeaderSize))
          (data.take (toULong (frameCapacity z true length))) lvl).2.length)
        = Int.ofNat (z.compress2 (toULong (frameCapacity z true length - HeaderSize))
          (data.take (toULong (frameCapacity z true length))) lvl).2.length := by
      apply toInt32_of_range
      · simp only [Int.ofNat_eq_coe]; omega
      · simp only [Int.ofNat_eq_coe, HeaderSize] at hout ⊢; omega
    rw [hfit] at hlen'
    refine ⟨hok, hsrc, ?_, ?_, ?_, ?_⟩
    · show len = _
      rw [hlen']
      simp only [HeaderSize, Nat.cast_ofNat, compress2Call]
    · exact readInt32_writeAt_same h5
    · show readInt32 b5 9 = _
      rw [readInt32_writeAt_other h5 (Or.inr (by rw [int32Bytes_length])),
        readInt32_writeAt_same h4]
      exact toInt32_of_range _ hlo hhi
    · show (List.take len.toNat b5).drop HeaderSize = _
      rw [hlen', List.drop_take,
        writeAt_drop h5 HeaderSize (by rw [int32Bytes_length]; unfold HeaderSize; omega),
        writeAt_drop h4 HeaderSize (by rw [int32Bytes_length]; unfold HeaderSize; omega),
        writeAt_drop_same h3]
      unfold compress2Call
      apply List.take_left'
      simp only [Int.ofNat_eq_coe, HeaderSize]
      omega

/-! ## `prepareTransferData`: when it returns -/

theorem writeAt_isSome (buf : List Nat) (off : Nat) (bytes : List Nat)
    (h : off + bytes.length ≤ buf.length) :
    ∃ b, writeAt buf off bytes = some b ∧ b.length = buf.length := by
  have hw : writeAt buf off bytes
      = some (buf.take off ++ bytes ++ buf.drop (off + bytes.length)) := by
    unfold writeAt
    rw [if_pos h]
  exact ⟨_, hw, writeAt_length hw⟩

theorem resize_isSome (buffer : List Nat) {length : Int} (h : 0 ≤ length) :
    ∃ b, resize buffer length = some b ∧ b.length = length.toNat := by
  have hr : resize buffer length
      = some (buffer.take length.toNat ++ List.replicate (length.toNat - buffer.length) 0) := by
    unfold resize
    rw [if_neg (by omega)]
  exact ⟨_, hr, (resize_eq_some hr).2⟩

theorem addInt_isSome {a b : Int} (h1 : -2147483648 ≤ a + b) (h2 : a + b ≤ 2147483647) :
    addInt a b = some (a + b) := by
  unfold addInt
  rw [if_pos ⟨h1, h2⟩]

theorem readMem_isSome (mem : List Nat) (n : Nat) (h : n ≤ mem.length) :
    readMem mem n = some (mem.take n) := by
  unfold readMem
  rw [if_pos h]

theorem toULong_of_nonneg (v : Int) (h1 : 0 ≤ v) (h2 : v ≤ 2147483647) :
    toULong v = v.toNat := by
  unfold toULong
  congr 1
  omega

/-- Without compression the function returns `true` for every input of `length ≥ 0` readable
bytes whose frame length `length + 13` is an `int`. -/
theorem prepareTransferData_plain_returns (ids : PackageIds) (z : Zlib) (lvl : Int)
    (data buffer : List Nat) (length packageId : Int)
    (h0 : 0 ≤ length) (h1 : length + 13 ≤ 2147483647) (h2 : length.toNat ≤ data.length) :
    ∃ r, prepareTransferData ids z false lvl data buffer length packageId = some r ∧
      r.success = true := by
  have hL : addInt length HeaderSize = some (length + HeaderSize) :=
    addInt_isSome (by simp only [HeaderSize]; omega) (by simp only [HeaderSize]; omega)
  have hpos : (0 : Int) ≤ length + HeaderSize := by simp only [HeaderSize]; omega
  obtain ⟨b0, e0, l0⟩ := resize_isSome buffer hpos
  have hcap : (length + HeaderSize).toNat = length.toNat + 13 := by
    simp only [HeaderSize]; omega
  obtain ⟨b1, e1, l1⟩ := writeAt_isSome b0 0 [ids.DataId]
    (by simp only [List.length_cons, List.length_nil]; omega)
  obtain ⟨b2, e2, l2⟩ := writeAt_isSome b1 1 (int32Bytes packageId)
    (by rw [int32Bytes_length]; omega)
  obtain ⟨b3, e3, l3⟩ := writeAt_isSome b2 9
    (List.replicate 4 ids.DefaultId) (by rw [List.length_replicate]; omega)
  have hn : toULong (length + HeaderSize - HeaderSize) = length.toNat := by
    rw [Int.add_sub_cancel]
    exact toULong_of_nonneg _ h0 (by omega)
  have e4' := readMem_isSome data length.toNat h2
  obtain ⟨b4, e4, l4⟩ := writeAt_isSome b3 HeaderSize
    (data.take length.toNat)
    (by simp only [HeaderSize, List.length_take]; omega)
  obtain ⟨b5, e5, l5⟩ := writeAt_isSome b4 5 (int32Bytes length)
    (by rw [int32Bytes_length]; omega)
  refine ⟨⟨true, b5, length + HeaderSize⟩, ?_, rfl⟩
  simp only [prepareTransferData, preparePlain, Bool.false_eq_true, if_false, hL, e0, e1, e2,
    e3, hn, e4', e4, e5, Option.some_bind]

/-- With compression the function returns whenever the frame capacity is an `int`, that many
bytes can be read at `data`, and zlib keeps to the destination size it was given; it returns
`true` exactly when zlib returned `Z_OK`. -/
theorem prepareTransferData_compressed_returns (ids : PackageIds) (z : Zlib) (lvl : Int)
    (data buffer : List Nat) (length packageId : Int)
    (hB : Int.ofNat (z.compressBound (toULong length)) + 13 ≤ 2147483647)
    (hmem : z.compressBound (toULong length) + 13 ≤ data.length)
    (hout : (compress2Call z lvl data length).2.length ≤ z.compressBound (toULong length)) :
    ∃ r, prepareTransferData ids z true lvl data buffer length packageId = some r ∧
      (r.success = true ↔ (compress2Call z lvl data length).1 = Z_OK) := by
  have hH : HeaderSize = 13 := rfl
  have hfc : frameCapacity z true length
      = Int.ofNat (z.compressBound (toULong length)) + 13 := by
    unfold frameCapacity
    rw [if_pos rfl, toInt32_of_range _ (by simp only [Int.ofNat_eq_coe]; omega) (by omega), hH]
    rfl
  have hnn : (0 : Int) ≤ Int.ofNat (z.compressBound (toULong length)) := by
    simp only [Int.ofNat_eq_coe]; omega
  have hL : addInt (toInt32 (Int.ofNat (z.compressBound (toULong length)))) HeaderSize
      = some (frameCapacity z true length) := by
    rw [hfc, toInt32_of_range _ (by omega) (by omega)]
    exact addInt_isSome (by omega) (by omega)
  have hcapN : (frameCapacity z true length).toNat = z.compressBound (toULong length) + 13 := by
    rw [hfc]; simp only [Int.ofNat_eq_coe]; omega
  have hcapU : toULong (frameCapacity z true length) = z.compressBound (toULong length) + 13 := by
    rw [toULong_of_nonneg _ (by omega) (by omega), hcapN]
  have hcapD : toULong (frameCapacity z true length - HeaderSize)
      = z.compressBound (toULong length) := by
    rw [toULong_of_nonneg _ (by omega) (by omega)]
    simp only [Int.ofNat_eq_coe] at hfc
    omega
  generalize hr : z.compress2 (toULong (frameCapacity z true length - HeaderSize))
      (data.take (toULong (frameCapacity z true length))) lvl = res
  have hres : compress2Call z lvl data length = res := hr
  rw [hres] at hout
  obtain ⟨b0, e0, l0⟩ := resize_isSome buffer
    (show (0 : Int) ≤ frameCapacity z true length by omega)
  obtain ⟨b1, e1, l1⟩ := writeAt_isSome b0 0 [ids.CompressedDataId]
    (by simp only [List.length_cons, List.length_nil]; omega)
  obtain ⟨b2, e2, l2⟩ := writeAt_isSome b1 1 (int32Bytes packageId)
    (by rw [int32Bytes_length]; omega)
  have e3' := readMem_isSome data (toULong (frameCapacity z true length)) (by omega)
  obtain ⟨b3, e3, l3⟩ := writeAt_isSome b2 HeaderSize res.2 (by omega)
  rw [hres]
  have hstart : prepareTransferData ids z true lvl data buffer length packageId
      = if res.1 ≠ Z_OK then some ⟨false, b3, frameCapacity z true length⟩
        else (writeAt b3 9 (int32Bytes (frameCapacity z true length))).bind fun b4 =>
          (addInt (toInt32 (Int.ofNat res.2.length)) HeaderSize).bind fun len =>
          (writeAt b4 5 (int32Bytes length)).bind fun b5 => some ⟨true, b5, len⟩ := by
    unfold prepareTransferData
    simp only [if_true]
    rw [hL, Option.some_bind, e0, Option.some_bind, e1, Option.some_bind, e2, Option.some_bind]
    unfold prepareCompressed
    simp only [e3', Option.some_bind, hr, e3]
  rw [hstart]
  by_cases hok : res.1 = Z_OK
  · obtain ⟨b4, e4, l4⟩ := writeAt_isSome b3 9 (int32Bytes (frameCapacity z true length))
      (by rw [int32Bytes_length]; omega)
    obtain ⟨b5, e5, l5⟩ := writeAt_isSome b4 5 (int32Bytes length)
      (by rw [int32Bytes_length]; omega)
    have hfit : toInt32 (Int.ofNat res.2.length) = Int.ofNat res.2.length :=
      toInt32_of_range _ (by simp only [Int.ofNat_eq_coe]; omega)
        (by simp only [Int.ofNat_eq_coe]; omega)
    have e6 : addInt (toInt32 (Int.ofNat res.2.length)) HeaderSize
        = some (Int.ofNat res.2.length + HeaderSize) := by
      rw [hfit]
      exact addInt_isSome (by simp only [Int.ofNat_eq_coe]; omega)
        (by simp only [Int.ofNat_eq_coe]; omega)
    refine ⟨⟨true, b5, Int.ofNat res.2.length + HeaderSize⟩, ?_, ?_⟩
    · rw [if_neg (not_not.mpr hok), e4, Option.some_bind, e6, Option.some_bind, e5,
        Option.some_bind]
    · exact ⟨fun _ => hok, fun _ => rfl⟩
  · refine ⟨⟨false, b3, frameCapacity z true length⟩, ?_, ?_⟩
    · rw [if_pos hok]
    · exact ⟨fun h => absurd h (by simp), fun h => absurd h hok⟩

/-- The facts about a run without compression: it returns `true`, the input length is not
negative, `length` grows by the header size, offset 5 holds the input length and the input
bytes follow the header. -/
theorem prepareTransferData_plain_success {ids : PackageIds} {z : Zlib} {lvl : Int}
    {data buffer : List Nat} {length packageId : Int} {r : PrepareResult}
    (h : prepareTransferData ids z false lvl data buffer length packageId = some r) :
    r.success = true ∧ 0 ≤ length ∧ length.toNat ≤ data.length ∧
    r.length = length + 13 ∧
    readInt32 r.buffer 5 = toInt32 length ∧
    (frameOf r).drop HeaderSize = data.take length.toNat := by
  obtain ⟨b0, b1, b2, hlo, hhi, h0, h1, h2, hr⟩ := prepareTransferData_steps h
  simp only [Bool.false_eq_true, if_false] at hr
  obtain ⟨hsrc, b3, b4, b5, h3, h4, h5, rfl⟩ := preparePlain_steps hr
  obtain ⟨hcap, hb0⟩ := resize_eq_some h0
  have hfc : frameCapacity z false length = length + 13 := by
    simp only [frameCapacity, Bool.false_eq_true, if_false, HeaderSize, Nat.cast_ofNat]
  have hl2 : b2.length = (length + 13).toNat := by
    rw [writeAt_length h2, writeAt_length h1, hb0, hfc]
  have h13 := (writeAt_eq_some h3).1
  rw [List.length_replicate, hl2] at h13
  have hnn : 0 ≤ length := by omega
  have hu : toULong (frameCapacity z false length - HeaderSize) = length.toNat := by
    rw [hfc]
    simp only [HeaderSize, Nat.cast_ofNat, Int.add_sub_cancel]
    exact toULong_of_nonneg _ hnn (by rw [hfc] at hhi; omega)
  rw [hu] at hsrc h4
  refine ⟨rfl, hnn, hsrc, hfc, readInt32_writeAt_same h5, ?_⟩
  show (List.take (frameCapacity z false length).toNat b5).drop HeaderSize = _
  rw [hfc, List.drop_take,
    writeAt_drop h5 HeaderSize (by rw [int32Bytes_length]; unfold HeaderSize; omega),
    writeAt_drop_same h4]
  apply List.take_left'
  simp only [List.length_take, HeaderSize]
  omega

/-- After a run that returned `true` the send length covers the header and stays inside the
buffer. -/
theorem prepareTransferData_length_bounds {ids : PackageIds} {z : Zlib} {mCompress : Bool}
    {lvl : Int} {data buffer : List Nat} {length packageId : Int} {r : PrepareResult}
    (h : prepareTransferData ids z mCompress lvl data buffer length packageId = some r)
    (hs : r.success = true) :
    13 ≤ r.length.toNat ∧ r.length.toNat ≤ r.buffer.length := by
  obtain ⟨b0, b1, b2, hlo, hhi, h0, h1, h2, hr⟩ := prepareTransferData_steps h
  obtain ⟨hcap, hb0⟩ := resize_eq_some h0
  have hl2 : b2.length = (frameCapacity z mCompress length).toNat := by
    rw [writeAt_length h2, writeAt_length h1, hb0]
  cases mCompress
  · simp only [Bool.false_eq_true, if_false] at hr
    obtain ⟨_, b3, b4, b5, h3, h4, h5, rfl⟩ := preparePlain_steps hr
    have h13 := (writeAt_eq_some h3).1
    rw [List.length_replicate, hl2] at h13
    show 13 ≤ (frameCapacity z false length).toNat ∧
      (frameCapacity z false length).toNat ≤ b5.length
    rw [writeAt_length h5, writeAt_length h4, writeAt_length h3, hl2]
    omega
  · have hc := prepareTransferData_compressed_success h hs
    simp only [if_true] at hr
    obtain ⟨_, b3, h3, hr⟩ := prepareCompressed_steps hr
    rcases hr with ⟨_, rfl⟩ | ⟨_, b4, b5, len, h4, _, h5, rfl⟩
    · exact absurd hs (by simp)
    · have hout := (writeAt_eq_some h3).1
      have hlen : len = Int.ofNat (compress2Call z lvl data length).2.length + 13 := hc.2.2.1
      show 13 ≤ len.toNat ∧ len.toNat ≤ b5.length
      rw [writeAt_length h5, writeAt_length h4, writeAt_length h3, hlen]
      simp only [HeaderSize] at hout
      simp only [compress2Call, Int.ofNat_eq_coe, HeaderSize]
      omega

/-- The frame on the wire starts with the bytes of the buffer. -/
theorem frameOf_getD (r : PrepareResult) (j d : Nat) (hj : j < r.length.toNat) :
    (frameOf r).getD j d = r.buffer.getD j d := by
  unfold frameOf
  simp only [List.getD_eq_getElem?_getD]
  rw [List.getElem?_take_of_lt hj]

/-! ## Claims about `prepareTransferData` -/

theorem prepareTransferData_overread :
    prepareTransferData specIds rleZlib true 1 overreadMemory [] 4 7 = some overreadResult := by
  decide

theorem prepareTransferData_incompressible :
    prepareTransferData specIds rleZlib true 1 incompressibleMemory [] 4 7
      = some incompressibleResult := by
  decide

theorem prepareTransferData_plain_example :
    prepareTransferData specIds rleZlib false 1 overreadMemory [] 4 7 = some plainResult := by
  decide

/-- Claim C1, evaluated where it fails: compression is on, the input is the four bytes
1, 2, 3, 4 (with further readable memory behind them) and the package id is 7. The function
returns `true`, but decoding the frame it produced gives thirty bytes, the four input bytes
followed by 26 bytes that were never part of the input. -/
theorem roundtrip_compressed_yields_overread :
    prepareTransferData specIds rleZlib true 1 overreadMemory [] 4 7 = some overreadResult ∧
    overreadResult.success = true ∧
    decode specIds rleZlib (frameOf overreadResult)
      = some ([1, 2, 3, 4] ++ List.replicate 26 9) ∧
    decode specIds rleZlib (frameOf overreadResult) ≠ some (overreadMemory.take 4) := by
  refine ⟨by decide, rfl, by decide, by decide⟩

/-- Claim C2, evaluated where it fails: with compression on and the four input bytes
1, 2, 3, 4, the function returns `true` with send length 23, so ten payload bytes follow the
header, while the `int32` at offset 5 is 4, the length of the input. -/
theorem payload_size_field_holds_input_length :
    prepareTransferData specIds rleZlib true 1 overreadMemory [] 4 7 = some overreadResult ∧
    overreadResult.success = true ∧
    readInt32 overreadResult.buffer 5 = 4 ∧
    overreadResult.length - 13 = 10 ∧
    ((frameOf overreadResult).drop HeaderSize).length = 10 := by
  refine ⟨by decide, rfl, by decide, by decide, by decide⟩

/-- Claim C3, evaluated where it fails: with compression on and the four input bytes
1, 2, 3, 4, the `int32` at offset 9 is 30 (`compressBound(4) + 13`), not 4, and the stream
behind the header is what the compressor makes of thirty bytes read at `data`, not of the
four input bytes. -/
theorem uncompressed_size_field_holds_capacity :
    prepareTransferData specIds rleZlib true 1 overreadMemory [] 4 7 = some overreadResult ∧
    overreadResult.success = true ∧
    readInt32 overreadResult.buffer 9 = 30 ∧
    (frameOf overreadResult).drop HeaderSize
      = (rleZlib.compress2 17 (overreadMemory.take 30) 1).2 ∧
    (frameOf overreadResult).drop HeaderSize
      ≠ (rleZlib.compress2 17 (overreadMemory.take 4) 1).2 := by
  refine ⟨by decide, rfl, by decide, by decide, by decide⟩

/-- Claim C4: whenever `prepareTransferData` returns (with `true` or with `false`), byte 0 of
the buffer is `DataId` when compression is off and `CompressedDataId` when it is on, and the
`int32` at offset 1 is the `packageId` argument; when it returned `true` the same holds of the
frame that is sent. -/
theorem prepareTransferData_type_and_packageId (ids : PackageIds) (z : Zlib)
    (mCompress : Bool) (lvl : Int) (data buffer : List Nat) (length packageId : Int)
    (r : PrepareResult)
    (hlo : -2147483648 ≤ packageId) (hhi : packageId ≤ 2147483647)
    (h : prepareTransferData ids z mCompress lvl data buffer length packageId = some r) :
    r.buffer.getD 0 0 = (if mCompress then ids.CompressedDataId else ids.DataId) ∧
    readInt32 r.buffer 1 = packageId ∧
    (r.success = true →
      (frameOf r).getD 0 0 = (if mCompress then ids.CompressedDataId else ids.DataId) ∧
      readInt32 (frameOf r) 1 = packageId) := by
  obtain ⟨hb, hp⟩ := prepareTransferData_first_bytes h
  rw [toInt32_of_range _ hlo hhi] at hp
  refine ⟨hb, hp, fun hs => ?_⟩
  obtain ⟨h13, _⟩ := prepareTransferData_length_bounds h hs
  constructor
  · rw [frameOf_getD r 0 0 (by omega)]
    exact hb
  · rw [← hp]
    exact readInt32_congr fun i hi => frameOf_getD r (1 + i) 0 (by omega)

theorem prepareTransferData_type_and_packageId_witness :
    prepareTransferData specIds rleZlib true 1 overreadMemory [] 4 7 = some overreadResult ∧
    overreadResult.buffer.getD 0 0 = specIds.CompressedDataId ∧
    readInt32 overreadResult.buffer 1 = 7 ∧
    (overreadResult.success = true →
      (frameOf overreadResult).getD 0 0 = specIds.CompressedDataId ∧
      readInt32 (frameOf overreadResult) 1 = 7) :=
  ⟨by decide,
    prepareTransferData_type_and_packageId specIds rleZlib true 1 overreadMemory [] 4 7
      overreadResult (by decide) (by decide) (by decide)⟩

/-- Claim C5: a run of `prepareTransferData` that returns, returns `false` exactly when
compression is on and the `compress2` call reported something other than `Z_OK`. It does
return: without compression with `true` for every input of `length ≥ 0` readable bytes whose
frame length is an `int`; with compression whenever the frame capacity is an `int`, that many
bytes are readable at `data` and zlib keeps to the destination size. -/
theorem prepareTransferData_false_iff (ids : PackageIds) (z : Zlib) (mCompress : Bool)
    (lvl : Int) (data buffer : List Nat) (length packageId : Int) :
    (∀ r, prepareTransferData ids z mCompress lvl data buffer length packageId = some r →
      (r.success = false ↔ (mCompress = true ∧ (compress2Call z lvl data length).1 ≠ Z_OK))) ∧
    (mCompress = false → 0 ≤ length → length + 13 ≤ 2147483647 →
      length.toNat ≤ data.length →
      ∃ r, prepareTransferData ids z mCompress lvl data buffer length packageId = some r ∧
        r.success = true) ∧
    (mCompress = true →
      Int.ofNat (z.compressBound (toULong length)) + 13 ≤ 2147483647 →
      z.compressBound (toULong length) + 13 ≤ data.length →
      (compress2Call z lvl data length).2.length ≤ z.compressBound (toULong length) →
      ∃ r, prepareTransferData ids z mCompress lvl data buffer length packageId = some r ∧
        (r.success = false ↔ (compress2Call z lvl data length).1 ≠ Z_OK)) := by
  refine ⟨fun r h => ?_, fun hc h0 h1 h2 => ?_, fun hc hB hmem hout => ?_⟩
  · cases mCompress
    · have hs := (prepareTransferData_plain_success h).1
      simp [hs]
    · cases hs : r.success
      · simp only [true_and, true_iff]
        obtain ⟨b0, b1, b2, _, _, _, _, _, hr⟩ := prepareTransferData_steps h
        simp only [if_true] at hr
        obtain ⟨_, b3, _, hr⟩ := prepareCompressed_steps hr
        rcases hr with ⟨hne, _⟩ | ⟨_, b4, b5, len, _, _, _, rfl⟩
        · exact hne
        · exact absurd hs (by simp)
      · have hok := (prepareTransferData_compressed_success h hs).1
        simp [hok]
  · subst hc
    exact prepareTransferData_plain_returns ids z lvl data buffer length packageId h0 h1 h2
  · subst hc
    obtain ⟨r, hr, hiff⟩ :=
      prepareTransferData_compressed_returns ids z lvl data buffer length packageId hB hmem hout
    refine ⟨r, hr, ?_⟩
    rw [Ne, ← hiff]
    cases r.success <;> simp

theorem prepareTransferData_false_iff_witness :
    (incompressibleResult.success = false ↔
      ((true = true) ∧ (compress2Call rleZlib 1 incompressibleMemory 4).1 ≠ Z_OK)) ∧
    (∃ r, prepareTransferData specIds rleZlib false 1 overreadMemory [] 4 7 = some r ∧
      r.success = true) ∧
    (∃ r, prepareTransferData specIds rleZlib true 1 overreadMemory [] 4 7 = some r ∧
      (r.success = false ↔ (compress2Call rleZlib 1 overreadMemory 4).1 ≠ Z_OK)) :=
  ⟨(prepareTransferData_false_iff specIds rleZlib true 1 incompressibleMemory [] 4 7).1
      incompressibleResult (by decide),
    (prepareTransferData_false_iff specIds rleZlib false 1 overreadMemory [] 4 7).2.1
      rfl (by decide) (by decide) (by decide),
    (prepareTransferData_false_iff specIds rleZlib true 1 overreadMemory [] 4 7).2.2
      rfl (by decide) (by decide) (by decide)⟩

/-! ## Claims about `transferData` -/

/-- Claim C6: when `prepareTransferData` returns `false`, each of the three `transferData`
overloads (broadcast, by node index, by connection) leaves the manager as it found it: no
connection has a new entry in its record of `sendData` calls. -/
theorem transferData_failure_sends_nothing (ids : PackageIds) (z : Zlib) (m : NetworkManager)
    (data : List Nat) (length packageId : Int) (nodeIndex connection : Nat)
    (r : PrepareResult)
    (h : prepareTransferData ids z m.mCompress m.mCompressionLevel data [] length packageId
      = some r)
    (hf : r.success = false) :
    transferData ids z m data length packageId = some m ∧
    transferDataToNode ids z m data length packageId nodeIndex = some m ∧
    transferDataToConnection ids z m data length packageId connection = some m := by
  refine ⟨?_, ?_, ?_⟩
  · simp only [transferData, h, Option.some_bind, hf, Bool.false_eq_true, if_false]
  · unfold transferDataToNode
    split
    · rfl
    · simp only [h, Option.some_bind, hf, Bool.false_eq_true, if_false]
  · unfold transferDataToConnection
    split
    · simp only [h, Option.some_bind, hf, Bool.false_eq_true, if_false]
    · rfl

theorem transferData_failure_sends_nothing_witness :
    prepareTransferData specIds rleZlib compressingManager.mCompress
      compressingManager.mCompressionLevel incompressibleMemory [] 4 7
      = some incompressibleResult ∧
    incompressibleResult.success = false ∧
    transferData specIds rleZlib compressingManager incompressibleMemory 4 7
      = some compressingManager ∧
    transferDataToNode specIds rleZlib compressingManager incompressibleMemory 4 7 0
      = some compressingManager ∧
    transferDataToConnection specIds rleZlib compressingManager incompressibleMemory 4 7 0
      = some compressingManager :=
  ⟨by decide, rfl,
    transferData_failure_sends_nothing specIds rleZlib compressingManager incompressibleMemory
      4 7 0 0 incompressibleResult (by decide) rfl⟩

/-- When `prepareTransferData` returns `true`, the overload for one connection hands the
whole frame, header and payload, to `sendData` of that connection if it is connected. -/
theorem transferDataToConnection_sends_whole_frame (ids : PackageIds) (z : Zlib)
    (m : NetworkManager) (data : List Nat) (length packageId : Int) (connection : Nat)
    (r : PrepareResult)
    (h : prepareTransferData ids z m.mCompress m.mCompressionLevel data [] length packageId
      = some r)
    (hs : r.success = true) (hc : (m.deref connection).isConnected = true) :
    transferDataToConnection ids z m data length packageId connection
      = some (m.store connection
          { m.deref connection with sent := (m.deref connection).sent ++ [frameOf r] }) := by
  obtain ⟨_, hle⟩ := prepareTransferData_length_bounds h hs
  unfold transferDataToConnection
  rw [if_pos hc]
  simp only [h, Option.some_bind, hs, if_true, Network.sendData, readMem_isSome _ _ hle,
    Option.map_some', frameOf]

/-! ## Claims about the registry -/

theorem foldl_classify_connections (ps : List Nat) (m : NetworkManager) :
    (ps.foldl classify m).mNetworkConnections = m.mNetworkConnections := by
  induction ps generalizing m with
  | nil => rfl
  | cons p ps ih =>
    rw [List.foldl_cons, ih]
    unfold classify
    split <;> rfl

/-- Rebuilding the shortcuts does not touch the owning vector. -/
theorem updateShortcuts_connections (m : NetworkManager) :
    (updateShortcuts m).mNetworkConnections = m.mNetworkConnections := by
  unfold updateShortcuts
  rw [foldl_classify_connections]

/-- Claim C7: for every manager and every connection type, `addConnection` with an empty port
or an empty address returns `false` and returns the manager unchanged, so the owning list, the
Sync and DataTransfer shortcut lists, the external-control pointer and
`getConnectionsCount()` are what they were. -/
theorem addConnection_empty_port_or_address (m : NetworkManager) (port address : String)
    (connectionType : ConnectionType) (init : InitOutcome)
    (h : port = "" ∨ address = "") :
    (addConnection m port address connectionType init).1 = false ∧
    (addConnection m port address connectionType init).2 = m ∧
    (addConnection m port address connectionType init).2.mNetworkConnections
      = m.mNetworkConnections ∧
    (addConnection m port address connectionType init).2.mSyncConnections
      = m.mSyncConnections ∧
    (addConnection m port address connectionType init).2.mDataTransferConnections
      = m.mDataTransferConnections ∧
    getExternalControlPtr (addConnection m port address connectionType init).2
      = getExternalControlPtr m ∧
    getConnectionsCount (addConnection m port address connectionType init).2
      = getConnectionsCount m := by
  have key : addConnection m port address connectionType init = (false, m) := by
    unfold addConnection
    rcases h with h | h
    · subst h
      rfl
    · subst h
      split
      · rfl
      · rfl
  rw [key]
  exact ⟨rfl, rfl, rfl, rfl, rfl, rfl, rfl⟩

theorem addConnection_empty_port_or_address_witness :
    ("20400" = "" ∨ "" = "") ∧
    (addConnection syncedManager "20400" "" ConnectionType.SyncConnection
      (InitOutcome.ok 2)).1 = false ∧
    (addConnection syncedManager "20400" "" ConnectionType.SyncConnection
      (InitOutcome.ok 2)).2 = syncedManager :=
  ⟨Or.inr rfl,
    (addConnection_empty_port_or_address syncedManager "20400" ""
      ConnectionType.SyncConnection (InitOutcome.ok 2) (Or.inr rfl)).1,
    (addConnection_empty_port_or_address syncedManager "20400" ""
      ConnectionType.SyncConnection (InitOutcome.ok 2) (Or.inr rfl)).2.1⟩

/-- Claim C8: when `Network::init` throws (a `std::runtime_error` or a `const char*`),
`addConnection` returns `false` and returns the manager unchanged: the owning list, both
shortcut lists and the external-control pointer are exactly as before the call. -/
theorem addConnection_init_throws (m : NetworkManager) (port address : String)
    (connectionType : ConnectionType) (msg : String) :
    addConnection m port address connectionType (InitOutcome.runtimeError msg) = (false, m) ∧
    addConnection m port address connectionType (InitOutcome.cString msg) = (false, m) := by
  unfold addConnection
  constructor
  · split
    · rfl
    · split <;> rfl
  · split
    · rfl
    · split <;> rfl

/-- A call of `addConnection` returns `true` exactly when it makes the owning vector one
connection longer, and otherwise leaves its length alone. -/
theorem addConnection_count (m : NetworkManager) (port address : String)
    (connectionType : ConnectionType) (init : InitOutcome) :
    (addConnection m port address connectionType init).2.mNetworkConnections.length
      = m.mNetworkConnections.length
        + (if (addConnection m port address connectionType init).1 then 1 else 0) := by
  unfold addConnection
  split
  · rfl
  · split
    · rfl
    · cases init with
      | ok mId =>
        simp only [updateShortcuts_connections, List.length_append, List.length_cons,
          List.length_nil, if_true]
      | runtimeError msg => rfl
      | cString msg => rfl

theorem addConnections_count (calls : List AddCall) (m : NetworkManager) :
    (addConnections m calls).2.mNetworkConnections.length
      = m.mNetworkConnections.length + (addConnections m calls).1.count true := by
  induction calls generalizing m with
  | nil => rfl
  | cons c cs ih =>
    simp only [addConnections]
    rw [ih, addConnection_count]
    cases (addConnection m c.port c.address c.connectionType c.init).1
    · simp
    · simp only [if_true, List.count_cons_self]
      omega

/-- Claim C9: starting from a manager that owns no connection, after any finite sequence of
`addConnection` calls `getConnectionsCount()` is the number of those calls that returned
`true`. -/
theorem getConnectionsCount_after_addConnections (m : NetworkManager) (calls : List AddCall)
    (h : m.mNetworkConnections = []) :
    getConnectionsCount (addConnections m calls).2
      = Int.ofNat ((addConnections m calls).1.count true) := by
  unfold getConnectionsCount
  rw [addConnections_count, h]
  simp

theorem getConnectionsCount_after_addConnections_witness :
    (emptyManager true).mNetworkConnections = [] ∧
    getConnectionsCount (addConnections (emptyManager true)
      [⟨"20400", "127.0.0.1", ConnectionType.SyncConnection, InitOutcome.ok 0⟩,
       ⟨"", "127.0.0.1", ConnectionType.DataTransfer, InitOutcome.ok 1⟩,
       ⟨"20500", "127.0.0.1", ConnectionType.DataTransfer, InitOutcome.runtimeError "bind"⟩,
       ⟨"20600", "127.0.0.1", ConnectionType.ExternalRawConnection, InitOutcome.ok 2⟩]).2
      = Int.ofNat ((addConnections (emptyManager true)
      [⟨"20400", "127.0.0.1", ConnectionType.SyncConnection, InitOutcome.ok 0⟩,
       ⟨"", "127.0.0.1", ConnectionType.DataTransfer, InitOutcome.ok 1⟩,
       ⟨"20500", "127.0.0.1", ConnectionType.DataTransfer, InitOutcome.runtimeError "bind"⟩,
       ⟨"20600", "127.0.0.1", ConnectionType.ExternalRawConnection, InitOutcome.ok 2⟩]).1.count
        true) :=
  ⟨rfl, getConnectionsCount_after_addConnections (emptyManager true) _ rfl⟩

/-- Claim C10: `isSyncComplete()` returns `true` if and only if the number of connections in
the Sync shortcut list whose `isUpdated()` is `true` equals
`getActiveSyncConnectionsCount()`, the stored count of connected Sync connections. -/
theorem isSyncComplete_iff (m : NetworkManager) :
    isSyncComplete m = true ↔
      (m.mSyncConnections.filter fun p => (m.deref p).isUpdated).length
        = getActiveSyncConnectionsCount m := by
  unfold isSyncComplete
  simp only [beq_iff_eq, List.countP_eq_length_filter]

/-! ## `updateConnectionStatus`: the counters -/

/-- The loop of lines 584-596 counts what it is meant to count. -/
theorem countConnections_eq (conns : List Network) :
    countConnections conns =
      (conns.countP fun n => n.isConnected,
       conns.countP fun n => n.isConnected && decide (n.getType = ConnectionType.SyncConnection),
       conns.countP fun n => n.isConnected && decide (n.getType = ConnectionType.DataTransfer))
    := by
  induction conns with
  | nil => rfl
  | cons conn rest ih =>
    unfold countConnections
    simp only [ih, List.countP_cons]
    cases hc : conn.isConnected
    · simp
    · by_cases h1 : conn.getType = ConnectionType.SyncConnection
      · simp [h1]
      · by_cases h2 : conn.getType = ConnectionType.DataTransfer
        · simp [h2]
        · simp [h1, h2]

/-! ## Pointers into the owning vector -/

theorem length_store (m : NetworkManager) (p : Nat) (n : Network) :
    (m.store p n).mNetworkConnections.length = m.mNetworkConnections.length := by
  simp only [NetworkManager.store, List.length_set]

theorem deref_store (m : NetworkManager) (p q : Nat) (n : Network) :
    (m.store p n).deref q
      = if q = p ∧ p < m.mNetworkConnections.length then n else m.deref q := by
  simp only [NetworkManager.deref, NetworkManager.store, List.getD_eq_getElem?_getD,
    List.getElem?_set]
  by_cases hqp : p = q
  · subst hqp
    by_cases hlt : p < m.mNetworkConnections.length
    · simp [hlt]
    · have hnone : m.mNetworkConnections[p]? = none := List.getElem?_eq_none (by omega)
      simp [hlt, hnone]
  · have hne : ¬ q = p := fun h => hqp h.symm
    simp [hqp, hne]

/-- A pointer outside the owning vector reads as a connection that is not connected. -/
theorem deref_of_connected (m : NetworkManager) (p : Nat)
    (h : (m.deref p).isConnected = true) : p < m.mNetworkConnections.length := by
  by_contra hlt
  have hnone : m.mNetworkConnections[p]? = none := List.getElem?_eq_none (by omega)
  simp only [NetworkManager.deref, List.getD_eq_getElem?_getD, hnone, Option.getD_none] at h
  exact absurd h (by decide)

/-- Storing a connection that differs from the stored one only in its record of `sendData`
calls changes nothing else in the owning vector. -/
theorem map_withoutLog_set (conns : List Network) (p : Nat) (bytes : List Nat) :
    (conns.set p ((conns.getD p default).sendBytes bytes)).map Network.withoutLog
      = conns.map Network.withoutLog := by
  induction conns generalizing p with
  | nil => rfl
  | cons c cs ih =>
    cases p with
    | zero => rfl
    | succ p =>
      simp only [List.set_cons_succ, List.map_cons, List.getD_cons_succ, ih]

theorem sendConnected_fields (ids : PackageIds) (ps : List Nat) (m : NetworkManager) :
    sendConnected ids m ps
      = m.withConnections (sendConnected ids m ps).mNetworkConnections ∧
    (sendConnected ids m ps).mNetworkConnections.map Network.withoutLog
      = m.mNetworkConnections.map Network.withoutLog := by
  induction ps generalizing m with
  | nil => exact ⟨rfl, rfl⟩
  | cons p ps ih =>
    unfold sendConnected
    split
    · obtain ⟨h1, h2⟩ := ih (m.store p ((m.deref p).sendBytes (connectedFrame ids)))
      refine ⟨?_, ?_⟩
      · rw [h1]
        rfl
      · rw [h2]
        exact map_withoutLog_set m.mNetworkConnections p (connectedFrame ids)
    · exact ih m

theorem sendConnectedToAll_fields (ids : PackageIds) (m : NetworkManager) :
    sendConnectedToAll ids m
      = m.withConnections (sendConnectedToAll ids m).mNetworkConnections ∧
    (sendConnectedToAll ids m).mNetworkConnections.map Network.withoutLog
      = m.mNetworkConnections.map Network.withoutLog := by
  unfold sendConnectedToAll
  obtain ⟨f1, g1⟩ := sendConnected_fields ids m.mSyncConnections m
  obtain ⟨f2, g2⟩ := sendConnected_fields ids m.mDataTransferConnections
    (sendConnected ids m m.mSyncConnections)
  refine ⟨?_, by rw [g2, g1]⟩
  rw [f2]
  generalize (sendConnected ids (sendConnected ids m m.mSyncConnections)
    m.mDataTransferConnections).mNetworkConnections = conns
  rw [f1]
  rfl

theorem notifyExternal_fields (m : NetworkManager) (connection : Nat) :
    (notifyExternal m connection).1
      = m.withConnections (notifyExternal m connection).1.mNetworkConnections ∧
    (notifyExternal m connection).1.mNetworkConnections.map Network.withoutLog
      = m.mNetworkConnections.map Network.withoutLog := by
  unfold notifyExternal
  split
  · exact ⟨rfl, map_withoutLog_set m.mNetworkConnections connection connectedMessage⟩
  · exact ⟨rfl, rfl⟩
  · exact ⟨rfl, rfl⟩

theorem updateServer_fields (ids : PackageIds) (m : NetworkManager) (connection : Nat)
    (sync dataTransfer : Nat) :
    (updateServer ids m connection sync dataTransfer).1
      = ({ m with mAllNodesConnected :=
            (sync == m.mSyncConnections.length)
              && (dataTransfer == m.mDataTransferConnections.length) }).withConnections
          (updateServer ids m connection sync dataTransfer).1.mNetworkConnections ∧
    (updateServer ids m connection sync dataTransfer).1.mNetworkConnections.map
        Network.withoutLog
      = m.mNetworkConnections.map Network.withoutLog := by
  unfold updateServer
  simp only
  generalize hm1 : ({ m with mAllNodesConnected :=
    (sync == m.mSyncConnections.length)
      && (dataTransfer == m.mDataTransferConnections.length) } : NetworkManager) = m1
  have hc1 : m1.mNetworkConnections = m.mNetworkConnections := by rw [← hm1]
  generalize (sync == m.mSyncConnections.length
    && dataTransfer == m.mDataTransferConnections.length) = all
  cases all
  · simp only [Bool.false_eq_true, if_false]
    obtain ⟨f, g⟩ := notifyExternal_fields m1 connection
    exact ⟨f, by rw [g, hc1]⟩
  · simp only [if_true]
    obtain ⟨f, g⟩ := notifyExternal_fields (sendConnectedToAll ids m1) connection
    obtain ⟨f', g'⟩ := sendConnectedToAll_fields ids m1
    refine ⟨?_, by rw [g, g', hc1]⟩
    rw [f]
    generalize (notifyExternal (sendConnectedToAll ids m1) connection).1.mNetworkConnections
      = conns
    rw [f']
    rfl

/-- What `updateConnectionStatus` does to the manager: the members are those of
`statusAfterUpdate`, and in the owning vector only records of `sendData` calls change. -/
theorem updateConnectionStatus_fields (ids : PackageIds) (m : NetworkManager)
    (connection : Nat) :
    (updateConnectionStatus ids m connection).1
      = (statusAfterUpdate m).withConnections
          (updateConnectionStatus ids m connection).1.mNetworkConnections ∧
    (updateConnectionStatus ids m connection).1.mNetworkConnections.map Network.withoutLog
      = m.mNetworkConnections.map Network.withoutLog := by
  have key : ∀ r : NetworkManager × List EngineCall,
      r.1 = (statusAfterUpdate m).withConnections r.1.mNetworkConnections ∧
        r.1.mNetworkConnections.map Network.withoutLog
          = m.mNetworkConnections.map Network.withoutLog →
      (if (r.1.deref connection).getType = ConnectionType.DataTransfer then
          (r.1, r.2 ++ [EngineCall.updateCallbackForDataTransfer
            (r.1.deref connection).isConnected (r.1.deref connection).mId])
        else r).1
        = (statusAfterUpdate m).withConnections
          (if (r.1.deref connection).getType = ConnectionType.DataTransfer then
            (r.1, r.2 ++ [EngineCall.updateCallbackForDataTransfer
              (r.1.deref connection).isConnected (r.1.deref connection).mId])
          else r).1.mNetworkConnections ∧
      (if (r.1.deref connection).getType = ConnectionType.DataTransfer then
          (r.1, r.2 ++ [EngineCall.updateCallbackForDataTransfer
            (r.1.deref connection).isConnected (r.1.deref connection).mId])
        else r).1.mNetworkConnections.map Network.withoutLog
        = m.mNetworkConnections.map Network.withoutLog := by
    intro r hr
    split
    · exact hr
    · exact hr
  unfold updateConnectionStatus
  simp only
  apply key
  by_cases hsrv : m.mIsServer = true
  · rw [if_pos hsrv]
    obtain ⟨f, g⟩ := updateServer_fields ids
      { m with
        mNumberOfActiveConnections := (countConnections m.mNetworkConnections).1
        mNumberOfActiveSyncConnections := (countConnections m.mNetworkConnections).2.1
        mNumberOfActiveDataTransferConnections := (countConnections m.mNetworkConnections).2.2
        mIsRunning :=
          if (countConnections m.mNetworkConnections).2.1 = 0 ∧ ¬ m.mIsServer then false
          else m.mIsRunning }
      connection (countConnections m.mNetworkConnections).2.1
      (countConnections m.mNetworkConnections).2.2
    refine ⟨?_, g⟩
    rw [f]
    simp only [statusAfterUpdate, NetworkManager.withConnections, hsrv, if_true]
  · rw [if_neg hsrv]
    refine ⟨?_, rfl⟩
    simp only [statusAfterUpdate, NetworkManager.withConnections, hsrv, if_false,
      Bool.false_eq_true]

/-! ## The shortcut lists and the owning vector -/

theorem map_getD_range (conns : List Network) :
    (List.range conns.length).map (fun p => conns.getD p default) = conns := by
  apply List.ext_getElem
  · simp only [List.length_map, List.length_range]
  · intro i h1 h2
    simp only [List.getElem_map, List.getElem_range, List.getD_eq_getElem?_getD,
      List.getElem?_eq_getElem h2, Option.getD_some]

/-- The shortcut list of a type has one entry for each registered connection of the type. -/
theorem shortcutsOf_length (conns : List Network) (t : ConnectionType) :
    (shortcutsOf conns t).length = conns.countP fun n => decide (n.mType = t) := by
  unfold shortcutsOf
  rw [← List.countP_eq_length_filter]
  conv_rhs => rw [← map_getD_range conns]
  rw [List.countP_map]
  rfl

theorem shortcutsOf_nodup (conns : List Network) (t : ConnectionType) :
    (shortcutsOf conns t).Nodup :=
  (List.nodup_range conns.length).filter _

theorem mem_shortcutsOf (conns : List Network) (t : ConnectionType) (p : Nat) :
    p ∈ shortcutsOf conns t ↔ p < conns.length ∧ (conns.getD p default).mType = t := by
  simp only [shortcutsOf, List.mem_filter, List.mem_range, decide_eq_true_eq]

/-- As many connected connections of a kind as connections of the kind: all of them are
connected. -/
theorem countP_connected_eq_iff (conns : List Network) (t : ConnectionType) :
    (conns.countP fun n => n.isConnected && decide (n.getType = t))
        = (conns.countP fun n => decide (n.mType = t)) ↔
      ∀ n ∈ conns, n.getType = t → n.isConnected = true := by
  have hle : ∀ l : List Network,
      (l.countP fun n => n.isConnected && decide (n.getType = t))
        ≤ l.countP fun n => decide (n.mType = t) := by
    intro l
    apply List.countP_mono_left
    intro n _ hn
    simp only [Bool.and_eq_true, decide_eq_true_eq] at hn
    simpa using hn.2
  induction conns with
  | nil => simp
  | cons c cs ih =>
    have hcs := hle cs
    simp only [List.countP_cons, List.mem_cons, forall_eq_or_imp]
    by_cases ht : c.getType = t
    · have ht' : c.mType = t := ht
      cases hc : c.isConnected
      · simp only [ht, ht', hc, Bool.false_and, Bool.false_eq_true, if_false, decide_True,
          if_true, true_implies, false_and, iff_false]
        omega
      · simp only [ht, ht', hc, decide_True, Bool.and_self, if_true, true_implies, true_and]
        exact ⟨fun h => ih.mp (by omega), fun h => by have := ih.mpr h; omega⟩
    · have ht' : ¬ c.mType = t := ht
      simp only [ht, ht', decide_False, Bool.and_false, Bool.false_eq_true, if_false,
        Nat.add_zero, false_implies, true_and]
      exact ih

/-! ## Claims about `updateConnectionStatus` -/

theorem countP_of_map_withoutLog (p : Network → Bool) (hp : ∀ n, p n.withoutLog = p n)
    {l l' : List Network} (h : l.map Network.withoutLog = l'.map Network.withoutLog) :
    l.countP p = l'.countP p := by
  have e : ∀ k : List Network, k.countP p = (k.map Network.withoutLog).countP p := by
    intro k
    rw [List.countP_map]
    congr 1
    funext n
    exact (hp n).symm
  rw [e l, e l', h]

/-- The counters `updateConnectionStatus` stores are the numbers of connected connections of
each kind. -/
theorem countersOf_updateConnectionStatus (ids : PackageIds) (m : NetworkManager)
    (connection : Nat) :
    getActiveConnectionsCount (updateConnectionStatus ids m connection).1
      = ((updateConnectionStatus ids m connection).1.mNetworkConnections.filter
          fun n => n.isConnected).length ∧
    getActiveSyncConnectionsCount (updateConnectionStatus ids m connection).1
      = ((updateConnectionStatus ids m connection).1.mNetworkConnections.filter
          fun n => n.isConnected && decide (n.getType = ConnectionType.SyncConnection)).length ∧
    getActiveDataTransferConnectionsCount (updateConnectionStatus ids m connection).1
      = ((updateConnectionStatus ids m connection).1.mNetworkConnections.filter
          fun n => n.isConnected && decide (n.getType = ConnectionType.DataTransfer)).length := by
  obtain ⟨f, g⟩ := updateConnectionStatus_fields ids m connection
  have e1 := countP_of_map_withoutLog (fun n => n.isConnected) (fun _ => rfl) g
  have e2 := countP_of_map_withoutLog
    (fun n => n.isConnected && decide (n.getType = ConnectionType.SyncConnection))
    (fun _ => rfl) g
  have e3 := countP_of_map_withoutLog
    (fun n => n.isConnected && decide (n.getType = ConnectionType.DataTransfer))
    (fun _ => rfl) g
  simp only [← List.countP_eq_length_filter]
  rw [e1, e2, e3, f]
  simp only [getActiveConnectionsCount, getActiveSyncConnectionsCount,
    getActiveDataTransferConnectionsCount, NetworkManager.withConnections, statusAfterUpdate,
    countConnections_eq, and_self]

/-- Claim C12: after `updateConnectionStatus` returns, `getActiveConnectionsCount()` is the
number of registered connections whose `isConnected()` is `true`,
`getActiveSyncConnectionsCount()` the number of those of type `SyncConnection` and
`getActiveDataTransferConnectionsCount()` the number of those of type `DataTransfer`, whatever
the three counters held before. -/
theorem updateConnectionStatus_counters (ids : PackageIds) (m : NetworkManager)
    (connection : Nat) :
    getActiveConnectionsCount (updateConnectionStatus ids m connection).1
      = ((updateConnectionStatus ids m connection).1.mNetworkConnections.filter
          fun n => n.isConnected).length ∧
    getActiveSyncConnectionsCount (updateConnectionStatus ids m connection).1
      = ((updateConnectionStatus ids m connection).1.mNetworkConnections.filter
          fun n => n.isConnected && decide (n.getType = ConnectionType.SyncConnection)).length ∧
    getActiveDataTransferConnectionsCount (updateConnectionStatus ids m connection).1
      = ((updateConnectionStatus ids m connection).1.mNetworkConnections.filter
          fun n => n.isConnected && decide (n.getType = ConnectionType.DataTransfer)).length :=
  countersOf_updateConnectionStatus ids m connection

/-- Claim C15: `updateConnectionStatus` sets `isRunning` to `false` when the process is a
client and no registered Sync connection is connected, and in every other case (a server, or
a client with a connected Sync connection) leaves `isRunning` as it was. -/
theorem updateConnectionStatus_isRunning (ids : PackageIds) (m : NetworkManager)
    (connection : Nat) :
    ((m.mIsServer = false ∧
        ∀ n ∈ m.mNetworkConnections, n.getType = ConnectionType.SyncConnection →
          n.isConnected = false) →
      isRunning (updateConnectionStatus ids m connection).1 = false) ∧
    (¬ (m.mIsServer = false ∧
        ∀ n ∈ m.mNetworkConnections, n.getType = ConnectionType.SyncConnection →
          n.isConnected = false) →
      isRunning (updateConnectionStatus ids m connection).1 = isRunning m) := by
  obtain ⟨f, _⟩ := updateConnectionStatus_fields ids m connection
  have hz : (countConnections m.mNetworkConnections).2.1 = 0 ↔
      ∀ n ∈ m.mNetworkConnections, n.getType = ConnectionType.SyncConnection →
        n.isConnected = false := by
    rw [countConnections_eq]
    simp only [List.countP_eq_zero, Bool.and_eq_true, decide_eq_true_eq, not_and]
    constructor
    · intro h n hn ht
      cases hc : n.isConnected
      · rfl
      · exact absurd ht (h n hn hc)
    · intro h n hn hc ht
      rw [h n hn ht] at hc
      exact absurd hc (by decide)
  have hr : isRunning (updateConnectionStatus ids m connection).1
      = if (countConnections m.mNetworkConnections).2.1 = 0 ∧ ¬ m.mIsServer = true then false
        else m.mIsRunning := by
    rw [f]
    rfl
  rw [hr]
  constructor
  · rintro ⟨hs, hn⟩
    rw [if_pos ⟨hz.mpr hn, by simp [hs]⟩]
  · intro hnot
    rw [if_neg]
    · rfl
    · rintro ⟨h0, hs⟩
      exact hnot ⟨by simpa using hs, hz.mp h0⟩

/-- Claim C30: on a client `updateConnectionStatus` does not write the all-nodes-connected
flag: `areAllNodesConnected()` after the call is its value before the call, whatever the
state of the connections. -/
theorem updateConnectionStatus_client_keeps_allNodesConnected (ids : PackageIds)
    (m : NetworkManager) (connection : Nat) (h : m.mIsServer = false) :
    areAllNodesConnected (updateConnectionStatus ids m connection).1
      = areAllNodesConnected m := by
  obtain ⟨f, _⟩ := updateConnectionStatus_fields ids m connection
  rw [f]
  simp only [areAllNodesConnected, NetworkManager.withConnections, statusAfterUpdate, h,
    Bool.false_eq_true, if_false]

theorem updateConnectionStatus_client_keeps_allNodesConnected_witness :
    droppedClient.mIsServer = false ∧
    areAllNodesConnected droppedClient = true ∧
    (droppedClient.deref 0).isConnected = false ∧
    areAllNodesConnected (updateConnectionStatus specIds droppedClient 0).1
      = areAllNodesConnected droppedClient :=
  ⟨rfl, rfl, rfl,
    updateConnectionStatus_client_keeps_allNodesConnected specIds droppedClient 0 rfl⟩

/-- Claim C13: on a server whose shortcut lists are the ones `addConnection` builds, after
`updateConnectionStatus` the flag `areAllNodesConnected()` is `true` if and only if every
registered connection of type `SyncConnection` or `DataTransfer` is connected. -/
theorem updateConnectionStatus_allNodesConnected_iff (ids : PackageIds) (m : NetworkManager)
    (connection : Nat) (hs : m.mIsServer = true) (hb : ShortcutsBuilt m) :
    areAllNodesConnected (updateConnectionStatus ids m connection).1 = true ↔
      ∀ n ∈ m.mNetworkConnections,
        n.getType = ConnectionType.SyncConnection ∨ n.getType = ConnectionType.DataTransfer →
          n.isConnected = true := by
  obtain ⟨f, _⟩ := updateConnectionStatus_fields ids m connection
  rw [f]
  simp only [areAllNodesConnected, NetworkManager.withConnections, statusAfterUpdate, hs,
    if_true, Bool.and_eq_true, beq_iff_eq, countConnections_eq, hb.1, hb.2,
    shortcutsOf_length, countP_connected_eq_iff]
  constructor
  · rintro ⟨h1, h2⟩ n hn (ht | ht)
    · exact h1 n hn ht
    · exact h2 n hn ht
  · intro h
    exact ⟨fun n hn ht => h n hn (Or.inl ht), fun n hn ht => h n hn (Or.inr ht)⟩

theorem updateConnectionStatus_allNodesConnected_iff_witness :
    syncedManager.mIsServer = true ∧ ShortcutsBuilt syncedManager ∧
    (areAllNodesConnected (updateConnectionStatus specIds syncedManager 0).1 = true ↔
      ∀ n ∈ syncedManager.mNetworkConnections,
        n.getType = ConnectionType.SyncConnection ∨ n.getType = ConnectionType.DataTransfer →
          n.isConnected = true) :=
  ⟨rfl, ⟨by decide, by decide⟩,
    updateConnectionStatus_allNodesConnected_iff specIds syncedManager 0 rfl
      ⟨by decide, by decide⟩⟩

/-! ## `updateConnectionStatus`: the Connected frames -/

/-- The connections a loop of Connected frames reaches: each connected connection of the list
has the frame appended to its record, every other connection is untouched. -/
theorem sendConnected_deref (ids : PackageIds) (ps : List Nat) (hnd : ps.Nodup)
    (m : NetworkManager) (q : Nat) :
    (sendConnected ids m ps).deref q
      = if q ∈ ps ∧ (m.deref q).isConnected = true then
          (m.deref q).sendBytes (connectedFrame ids)
        else m.deref q := by
  induction ps generalizing m with
  | nil => simp [sendConnected]
  | cons p ps ih =>
    obtain ⟨hp, hps⟩ := List.nodup_cons.mp hnd
    unfold sendConnected
    by_cases hc : (m.deref p).isConnected = true
    · rw [if_pos hc, ih hps, deref_store]
      have hlt := deref_of_connected m p hc
      by_cases hqp : q = p
      · subst hqp
        simp [hp, hlt, hc]
      · simp [hqp]
    · rw [if_neg hc, ih hps]
      by_cases hqp : q = p
      · subst hqp
        simp [hp, hc]
      · simp [hqp]

theorem sendConnectedToAll_deref (ids : PackageIds) (m : NetworkManager) (q : Nat)
    (hs : m.mSyncConnections.Nodup) (hd : m.mDataTransferConnections.Nodup)
    (hdisj : ∀ p, p ∈ m.mSyncConnections → p ∉ m.mDataTransferConnections) :
    (sendConnectedToAll ids m).deref q
      = if (q ∈ m.mSyncConnections ∨ q ∈ m.mDataTransferConnections)
            ∧ (m.deref q).isConnected = true then
          (m.deref q).sendBytes (connectedFrame ids)
        else m.deref q := by
  unfold sendConnectedToAll
  rw [sendConnected_deref ids _ hd, sendConnected_deref ids _ hs]
  by_cases h1 : q ∈ m.mSyncConnections
  · have h2 := hdisj q h1
    by_cases hc : (m.deref q).isConnected = true
    · simp [h1, h2, hc]
    · simp [h1, h2, hc]
  · by_cases h2 : q ∈ m.mDataTransferConnections
    · by_cases hc : (m.deref q).isConnected = true
      · simp [h1, h2, hc]
      · simp [h1, h2, hc]
    · simp [h1, h2]

theorem notifyExternal_deref (m : NetworkManager) (connection q : Nat) :
    (notifyExternal m connection).1.deref q
      = if q = connection
            ∧ (m.deref connection).getType = ConnectionType.ExternalASCIIConnection then
          (m.deref connection).sendBytes connectedMessage
        else m.deref q := by
  unfold notifyExternal
  split
  · rename_i ht
    rw [deref_store]
    have hlt : connection < m.mNetworkConnections.length := by
      by_contra hlt
      have hnone : m.mNetworkConnections[connection]? = none :=
        List.getElem?_eq_none (by omega)
      simp only [NetworkManager.deref, List.getD_eq_getElem?_getD, hnone,
        Option.getD_none] at ht
      exact absurd ht (by decide)
    simp [ht, hlt]
  · rename_i ht
    simp [ht]
  · rename_i h1 h2
    have : ¬ (m.deref connection).getType = ConnectionType.ExternalASCIIConnection := h1
    simp [this]

/-- On a server the manager after `updateConnectionStatus` is the one after the counters are
stored, the Connected frames are sent if all nodes are connected, and an external control
connection is notified. -/
theorem updateConnectionStatus_server (ids : PackageIds) (m : NetworkManager)
    (connection : Nat) (hs : m.mIsServer = true) :
    (updateConnectionStatus ids m connection).1
      = (notifyExternal
          (if (statusAfterUpdate m).mAllNodesConnected = true then
            sendConnectedToAll ids (statusAfterUpdate m)
          else statusAfterUpdate m) connection).1 := by
  have hst : statusAfterUpdate m = { m with
      mNumberOfActiveConnections := (countConnections m.mNetworkConnections).1
      mNumberOfActiveSyncConnections := (countConnections m.mNetworkConnections).2.1
      mNumberOfActiveDataTransferConnections := (countConnections m.mNetworkConnections).2.2
      mIsRunning :=
        if (countConnections m.mNetworkConnections).2.1 = 0 ∧ ¬ m.mIsServer then false
        else m.mIsRunning
      mAllNodesConnected :=
        ((countConnections m.mNetworkConnections).2.1 == m.mSyncConnections.length)
          && ((countConnections m.mNetworkConnections).2.2
              == m.mDataTransferConnections.length) } := by
    simp only [statusAfterUpdate, hs, if_true]
  have key : ∀ (r : NetworkManager × List EngineCall) (c : Prop) [Decidable c]
      (x : List EngineCall), (if c then (r.1, x) else r).1 = r.1 := by
    intro r c _ x
    split <;> rfl
  rw [hst]
  unfold updateConnectionStatus
  simp only
  rw [if_pos hs, key]
  rfl

theorem statusAfterUpdate_all_iff (m : NetworkManager) (hs : m.mIsServer = true)
    (hb : ShortcutsBuilt m) :
    (statusAfterUpdate m).mAllNodesConnected = true ↔
      ∀ n ∈ m.mNetworkConnections,
        n.getType = ConnectionType.SyncConnection ∨ n.getType = ConnectionType.DataTransfer →
          n.isConnected = true := by
  simp only [statusAfterUpdate, hs, if_true, Bool.and_eq_true, beq_iff_eq, countConnections_eq,
    hb.1, hb.2, shortcutsOf_length, countP_connected_eq_iff]
  constructor
  · rintro ⟨h1, h2⟩ n hn (ht | ht)
    · exact h1 n hn ht
    · exact h2 n hn ht
  · intro h
    exact ⟨fun n hn ht => h n hn (Or.inl ht), fun n hn ht => h n hn (Or.inr ht)⟩

theorem deref_mem (m : NetworkManager) (q : Nat) (h : q < m.mNetworkConnections.length) :
    m.deref q ∈ m.mNetworkConnections := by
  simp only [NetworkManager.deref, List.getD_eq_getElem?_getD, List.getElem?_eq_getElem h,
    Option.getD_some]
  exact List.getElem_mem h

/-- Claim C14: on a server whose shortcut lists are the ones `addConnection` builds,
`updateConnectionStatus` appends the Connected frame (13 bytes: `ConnectedId`, then twelve
times `DefaultId`) once to the record of every Sync and every DataTransfer connection when all
of them are connected; when one of them is not connected no record receives a Connected
frame: every record is unchanged, except that an ASCII external control connection whose
status is updated receives the greeting text, which is not a Connected frame. -/
theorem updateConnectionStatus_connected_frames (ids : PackageIds) (m : NetworkManager)
    (connection : Nat) (hs : m.mIsServer = true) (hb : ShortcutsBuilt m) :
    connectedFrame ids = ids.ConnectedId :: List.replicate 12 ids.DefaultId ∧
    connectedMessage ≠ connectedFrame ids ∧
    ((∀ n ∈ m.mNetworkConnections,
        n.getType = ConnectionType.SyncConnection ∨ n.getType = ConnectionType.DataTransfer →
          n.isConnected = true) →
      ∀ q, q < m.mNetworkConnections.length →
        ((m.deref q).getType = ConnectionType.SyncConnection
            ∨ (m.deref q).getType = ConnectionType.DataTransfer →
          ((updateConnectionStatus ids m connection).1.deref q).sent
            = (m.deref q).sent ++ [connectedFrame ids]) ∧
        (¬ ((m.deref q).getType = ConnectionType.SyncConnection
            ∨ (m.deref q).getType = ConnectionType.DataTransfer) →
          ((updateConnectionStatus ids m connection).1.deref q).sent = (m.deref q).sent ∨
          ((updateConnectionStatus ids m connection).1.deref q).sent
            = (m.deref q).sent ++ [connectedMessage])) ∧
    (¬ (∀ n ∈ m.mNetworkConnections,
        n.getType = ConnectionType.SyncConnection ∨ n.getType = ConnectionType.DataTransfer →
          n.isConnected = true) →
      ∀ q, ((updateConnectionStatus ids m connection).1.deref q).sent = (m.deref q).sent ∨
        (q = connection ∧
          (m.deref q).getType = ConnectionType.ExternalASCIIConnection ∧
          ((updateConnectionStatus ids m connection).1.deref q).sent
            = (m.deref q).sent ++ [connectedMessage])) := by
  have hmsg : connectedMessage ≠ connectedFrame ids := by
    intro h
    have := congrArg List.length h
    simp [connectedMessage, connectedFrame, HeaderSize] at this
  have hall := statusAfterUpdate_all_iff m hs hb
  have hsd : ∀ q, (statusAfterUpdate m).deref q = m.deref q := fun _ => rfl
  refine ⟨rfl, hmsg, fun hconn q hq => ?_, fun hnot q => ?_⟩
  · rw [updateConnectionStatus_server ids m connection hs, if_pos (hall.mpr hconn),
      notifyExternal_deref]
    have hnd1 : (statusAfterUpdate m).mSyncConnections.Nodup := by
      show m.mSyncConnections.Nodup
      rw [hb.1]; exact shortcutsOf_nodup _ _
    have hnd2 : (statusAfterUpdate m).mDataTransferConnections.Nodup := by
      show m.mDataTransferConnections.Nodup
      rw [hb.2]; exact shortcutsOf_nodup _ _
    have hdisj : ∀ p, p ∈ (statusAfterUpdate m).mSyncConnections →
        p ∉ (statusAfterUpdate m).mDataTransferConnections := by
      intro p h1 h2
      have h1' : p ∈ m.mSyncConnections := h1
      have h2' : p ∈ m.mDataTransferConnections := h2
      rw [hb.1, mem_shortcutsOf] at h1'
      rw [hb.2, mem_shortcutsOf] at h2'
      rw [h1'.2] at h2'
      exact absurd h2'.2 (by decide)
    have hS : ∀ p, (sendConnectedToAll ids (statusAfterUpdate m)).deref p
        = if (p ∈ m.mSyncConnections ∨ p ∈ m.mDataTransferConnections)
              ∧ (m.deref p).isConnected = true then
            (m.deref p).sendBytes (connectedFrame ids)
          else m.deref p :=
      fun p => sendConnectedToAll_deref ids (statusAfterUpdate m) p hnd1 hnd2 hdisj
    have hmemS : q ∈ m.mSyncConnections ↔
        (m.deref q).getType = ConnectionType.SyncConnection := by
      rw [hb.1, mem_shortcutsOf]
      exact ⟨fun h => h.2, fun h => ⟨hq, h⟩⟩
    have hmemD : q ∈ m.mDataTransferConnections ↔
        (m.deref q).getType = ConnectionType.DataTransfer := by
      rw [hb.2, mem_shortcutsOf]
      exact ⟨fun h => h.2, fun h => ⟨hq, h⟩⟩
    have htype : ∀ p, ((sendConnectedToAll ids (statusAfterUpdate m)).deref p).getType
        = (m.deref p).getType := by
      intro p
      rw [hS p]
      split <;> rfl
    constructor
    · intro ht
      have hc : (m.deref q).isConnected = true := hconn _ (deref_mem m q hq) ht
      have hne : ¬ (q = connection ∧
          ((sendConnectedToAll ids (statusAfterUpdate m)).deref connection).getType
            = ConnectionType.ExternalASCIIConnection) := by
        rintro ⟨rfl, h⟩
        rw [htype] at h
        rcases ht with ht | ht <;> rw [ht] at h <;> exact absurd h (by decide)
      rw [if_neg hne, hS q, if_pos ⟨by rw [hmemS, hmemD]; exact ht, hc⟩]
      rfl
    · intro ht
      have hq' : ¬ ((q ∈ m.mSyncConnections ∨ q ∈ m.mDataTransferConnections)
          ∧ (m.deref q).isConnected = true) := by
        rw [hmemS, hmemD]
        exact fun h => ht h.1
      split
      · rename_i h
        obtain ⟨rfl, _⟩ := h
        right
        rw [hS q, if_neg hq']
        rfl
      · left
        rw [hS q, if_neg hq']
  · rw [updateConnectionStatus_server ids m connection hs,
      if_neg (fun h => hnot (hall.mp h)), notifyExternal_deref]
    split
    · rename_i h
      obtain ⟨rfl, ht⟩ := h
      exact Or.inr ⟨rfl, ht, rfl⟩
    · exact Or.inl rfl

theorem updateConnectionStatus_connected_frames_witness :
    syncedManager.mIsServer = true ∧ ShortcutsBuilt syncedManager ∧
    ((updateConnectionStatus specIds syncedManager 0).1.deref 0).sent
      = [[3, 0, 0, 0, 0, 0, 0, 0, 0, 0, 0, 0, 0]] ∧
    ((updateConnectionStatus specIds syncedManager 0).1.deref 1).sent
      = (syncedManager.deref 1).sent ++ [connectedFrame specIds] :=
  ⟨rfl, ⟨by decide, by decide⟩, by decide,
    ((updateConnectionStatus_connected_frames specIds syncedManager 0 rfl
      ⟨by decide, by decide⟩).2.2.1 (by decide) 1 (by decide)).1 (Or.inr rfl)⟩

/-! ## `sync`: what the broadcast loop does -/

theorem toInt32_idem (v : Int) : toInt32 (toInt32 v) = toInt32 v := by
  unfold toInt32
  omega

theorem sendData_whole (n : Network) (data : List Nat) (h : data.length ≤ 2147483647) :
    n.sendData data (toInt32 (Int.ofNat data.length))
      = some { n with sent := n.sent ++ [data] } := by
  have hfit : toInt32 (Int.ofNat data.length) = Int.ofNat data.length :=
    toInt32_of_range _ (by simp only [Int.ofNat_eq_coe]; omega)
      (by simp only [Int.ofNat_eq_coe]; omega)
  rw [hfit]
  simp only [Network.sendData, Int.ofNat_eq_coe, Int.toNat_ofNat, readMem, le_refl, if_true,
    Option.map_some', List.take_length]

/-- One pass of the loop on a served connection, when the data block has room for the two
header fields. -/
theorem syncSend_cons_served (s : SyncState) (p : Nat) (ps : List Nat)
    (hsv : (s.manager.deref p).served = true)
    (h9 : 9 ≤ s.dataBlock.length) (hmax : s.dataBlock.length ≤ 2147483647) :
    ∃ frame : List Nat,
      syncSend s (p :: ps)
        = syncSend { s with
            manager := s.manager.store p ((s.manager.deref p).afterBroadcast frame)
            dataBlock := frame } ps ∧
      frame.length = s.dataBlock.length ∧
      readInt32 frame 1 = toInt32 ((s.manager.deref p).mSendFrame + 1) ∧
      readInt32 frame 5 = toInt32 (toInt32 (Int.ofNat s.dataBlock.length) - 13) ∧
      ∀ j, (j = 0 ∨ 9 ≤ j) → frame.getD j 0 = s.dataBlock.getD j 0 := by
  simp only [Network.served, Bool.and_eq_true] at hsv
  obtain ⟨b1, e1, l1⟩ := writeAt_isSome s.dataBlock 1
    (int32Bytes (toInt32 ((s.manager.deref p).mSendFrame + 1)))
    (by rw [int32Bytes_length]; omega)
  obtain ⟨b2, e2, l2⟩ := writeAt_isSome b1 5
    (int32Bytes (toInt32 (toInt32 (Int.ofNat s.dataBlock.length) - HeaderSize)))
    (by rw [int32Bytes_length]; omega)
  have e3 := sendData_whole (s.manager.deref p).iterateFrameCounter.2 b2 (by omega)
  refine ⟨b2, ?_, by omega, ?_, ?_, ?_⟩
  · rw [syncSend]
    simp only [hsv.1, hsv.2, not_true_eq_false, or_self, if_false]
    have e1' : writeAt s.dataBlock 1 (int32Bytes (s.manager.deref p).iterateFrameCounter.1)
        = some b1 := e1
    rw [e1', Option.some_bind, e2, Option.some_bind, e3, Option.some_bind]
    rfl
  · rw [readInt32_writeAt_other e2 (Or.inl (by omega)), readInt32_writeAt_same e1,
      toInt32_idem]
  · rw [readInt32_writeAt_same e2, toInt32_idem]
    rfl
  · intro j hj
    rcases hj with hj | hj
    · subst hj
      rw [writeAt_getD_lt e2 0 0 (by omega), writeAt_getD_lt e1 0 0 (by omega)]
    · rw [writeAt_getD_ge e2 j 0 (by rw [int32Bytes_length]; omega),
        writeAt_getD_ge e1 j 0 (by rw [int32Bytes_length]; omega)]

theorem syncSend_cons_skipped (s : SyncState) (p : Nat) (ps : List Nat)
    (hsv : (s.manager.deref p).served = false) :
    syncSend s (p :: ps) = syncSend s ps := by
  rw [syncSend]
  have : ¬ (s.manager.deref p).isServer = true ∨ ¬ (s.manager.deref p).isConnected = true := by
    simp only [Network.served, Bool.and_eq_false_iff] at hsv
    rcases hsv with h | h
    · exact Or.inl (by simp [h])
    · exact Or.inr (by simp [h])
  simp only [this, if_true]

theorem BroadcastFrame.of_block {block block' frame : List Nat} {counter : Int}
    (h : BroadcastFrame block' counter frame) (hl : block'.length = block.length)
    (hb : ∀ j, (j = 0 ∨ 9 ≤ j) → block'.getD j 0 = block.getD j 0) :
    BroadcastFrame block counter frame := by
  obtain ⟨h1, h2, h3, h4⟩ := h
  refine ⟨by rw [h1, hl], h2, by rw [h3, hl], fun j hj => by rw [h4 j hj, hb j hj]⟩

/-- The broadcast loop over a list of distinct connections, with a data block that has room
for the header fields: it returns, leaves everything but the owning vector and bytes 1 to 8
of the data block alone, advances and sends on every served connection of the list, and
touches no other connection. -/
theorem syncSend_spec (ps : List Nat) (hnd : ps.Nodup) (s : SyncState)
    (h9 : 9 ≤ s.dataBlock.length) (hmax : s.dataBlock.length ≤ 2147483647) :
    ∃ s', syncSend s ps = some s' ∧
      s'.dataBlock.length = s.dataBlock.length ∧
      (∀ j, (j = 0 ∨ 9 ≤ j) → s'.dataBlock.getD j 0 = s.dataBlock.getD j 0) ∧
      s'.pushed = s.pushed ∧
      s'.manager = s.manager.withConnections s'.manager.mNetworkConnections ∧
      ∀ q,
        (q ∈ ps ∧ (s.manager.deref q).served = true →
          ∃ frame, s'.manager.deref q = (s.manager.deref q).afterBroadcast frame ∧
            BroadcastFrame s.dataBlock ((s.manager.deref q).mSendFrame + 1) frame) ∧
        (¬ (q ∈ ps ∧ (s.manager.deref q).served = true) →
          s'.manager.deref q = s.manager.deref q) := by
  induction ps generalizing s with
  | nil =>
    exact ⟨s, rfl, rfl, fun _ _ => rfl, rfl, rfl, fun q =>
      ⟨fun h => absurd h.1 (List.not_mem_nil q), fun _ => rfl⟩⟩
  | cons p ps ih =>
    obtain ⟨hp, hps⟩ := List.nodup_cons.mp hnd
    cases hsv : (s.manager.deref p).served
    · rw [syncSend_cons_skipped s p ps hsv]
      obtain ⟨s', e, hl, hb, hpu, hm, hq⟩ := ih hps s h9 hmax
      refine ⟨s', e, hl, hb, hpu, hm, fun q => ⟨fun h => ?_, fun h => ?_⟩⟩
      · rcases List.mem_cons.mp h.1 with hqp | hqp
        · subst hqp
          rw [hsv] at h
          exact absurd h.2 (by decide)
        · exact (hq q).1 ⟨hqp, h.2⟩
      · exact (hq q).2 fun h' => h ⟨List.mem_cons_of_mem p h'.1, h'.2⟩
    · obtain ⟨frame, e, hf⟩ := syncSend_cons_served s p ps hsv h9 hmax
      rw [e]
      have hlt : p < s.manager.mNetworkConnections.length := by
        apply deref_of_connected
        simp only [Network.served, Bool.and_eq_true] at hsv
        exact hsv.2
      obtain ⟨s', e', hl, hb, hpu, hm, hq⟩ := ih hps
        { s with
          manager := s.manager.store p ((s.manager.deref p).afterBroadcast frame)
          dataBlock := frame } (by show 9 ≤ frame.length; rw [hf.1]; exact h9)
        (by show frame.length ≤ 2147483647; rw [hf.1]; exact hmax)
      have hfl : frame.length = s.dataBlock.length := hf.1
      have hfb : ∀ j, (j = 0 ∨ 9 ≤ j) → frame.getD j 0 = s.dataBlock.getD j 0 := hf.2.2.2
      refine ⟨s', e', by rw [hl]; exact hfl, fun j hj => by rw [hb j hj]; exact hfb j hj, hpu,
        ?_, fun q => ?_⟩
      · rw [hm]
        rfl
      · have hd : (s.manager.store p ((s.manager.deref p).afterBroadcast frame)).deref q
            = if q = p then (s.manager.deref p).afterBroadcast frame else s.manager.deref q := by
          rw [deref_store]
          by_cases hqp : q = p
          · simp [hqp, hlt]
          · simp [hqp]
        by_cases hqp : q = p
        · subst hqp
          have hnot : ¬ (q ∈ ps ∧
              ((s.manager.store q ((s.manager.deref q).afterBroadcast frame)).deref q).served
                = true) := fun h => hp h.1
          have hres := (hq q).2 hnot
          rw [hd, if_pos rfl] at hres
          exact ⟨fun _ => ⟨frame, hres, hf⟩, fun h => absurd ⟨List.mem_cons_self q ps, hsv⟩ h⟩
        · have hd' := hd
          rw [if_neg hqp] at hd'
          have hq1 := (hq q).1
          have hq2 := (hq q).2
          rw [hd'] at hq1 hq2
          constructor
          · intro h
            have hmem : q ∈ ps := by
              rcases List.mem_cons.mp h.1 with h' | h'
              · exact absurd h' hqp
              · exact h'
            obtain ⟨fr, efr, hfr⟩ := hq1 ⟨hmem, h.2⟩
            exact ⟨fr, efr, hfr.of_block hfl hfb⟩
          · intro h
            exact hq2 fun h' => h ⟨List.mem_cons_of_mem p h'.1, h'.2⟩

/-! ## Claims about `sync` -/

theorem syncAcknowledge_spec (ps : List Nat) (s : SyncState) :
    syncAcknowledge s ps
      = { s with pushed := s.pushed ++ ps.filter fun p =>
            !(s.manager.deref p).isServer && (s.manager.deref p).isConnected } := by
  induction ps generalizing s with
  | nil => simp [syncAcknowledge]
  | cons p ps ih =>
    rw [syncAcknowledge]
    cases h1 : (s.manager.deref p).isServer <;> cases h2 : (s.manager.deref p).isConnected <;>
      simp [h1, h2, ih, List.filter_cons]

/-- Claim C17: in `sync(SendDataToClients)` every connected server-role connection of the
Sync list is sent exactly one frame, as long as the data block (`getDataSize()` bytes): the
`int32` at offset 1 is the connection's newly incremented frame counter, the `int32` at
offset 5 is `getDataSize() - 13`, and byte 0 and the bytes from offset 9 on are those of the
data block; a connection that is not connected (or not server-role) is sent nothing. -/
theorem sync_sends_data_block (s : SyncState) (hnd : s.manager.mSyncConnections.Nodup)
    (h9 : 9 ≤ s.dataBlock.length) (hmax : s.dataBlock.length ≤ 2147483647) :
    ∃ s', sync SyncMode.SendDataToClients s = some s' ∧
      ∀ q,
        (q ∈ s.manager.mSyncConnections ∧ (s.manager.deref q).isServer = true
            ∧ (s.manager.deref q).isConnected = true →
          ∃ frame, (s'.manager.deref q).sent = (s.manager.deref q).sent ++ [frame] ∧
            frame.length = s.dataBlock.length ∧
            readInt32 frame 1 = toInt32 (s'.manager.deref q).mSendFrame ∧
            ((s'.manager.deref q).mSendFrame ≤ 2147483647 →
              -2147483648 ≤ (s'.manager.deref q).mSendFrame →
              readInt32 frame 1 = (s'.manager.deref q).mSendFrame) ∧
            readInt32 frame 5 = Int.ofNat s.dataBlock.length - 13 ∧
            ∀ j, (j = 0 ∨ 9 ≤ j) → frame.getD j 0 = s.dataBlock.getD j 0) ∧
        (¬ (q ∈ s.manager.mSyncConnections ∧ (s.manager.deref q).isServer = true
            ∧ (s.manager.deref q).isConnected = true) →
          (s'.manager.deref q).sent = (s.manager.deref q).sent) := by
  obtain ⟨s', e, _, _, _, _, hq⟩ := syncSend_spec _ hnd s h9 hmax
  refine ⟨s', e, fun q => ⟨fun h => ?_, fun h => ?_⟩⟩
  · obtain ⟨frame, ef, h1, h2, h3, h4⟩ :=
      (hq q).1 ⟨h.1, by simp only [Network.served, h.2.1, h.2.2, Bool.and_self]⟩
    have hc : (s'.manager.deref q).mSendFrame
        = toInt32 ((s.manager.deref q).mSendFrame + 1) := by
      rw [ef]; rfl
    refine ⟨frame, by rw [ef]; rfl, h1, by rw [hc, toInt32_idem]; exact h2,
      fun _ _ => ?_, ?_, h4⟩
    · rw [h2, hc]
    · rw [h3, toInt32_of_range (Int.ofNat s.dataBlock.length)
        (by simp only [Int.ofNat_eq_coe]; omega) (by simp only [Int.ofNat_eq_coe]; omega)]
      exact toInt32_of_range _ (by simp only [Int.ofNat_eq_coe]; omega)
        (by simp only [Int.ofNat_eq_coe]; omega)
  · rw [(hq q).2 fun h' => h ⟨h'.1, by
      have := h'.2
      simp only [Network.served, Bool.and_eq_true] at this
      exact this⟩]

theorem sync_sends_data_block_witness :
    syncedState.manager.mSyncConnections.Nodup ∧
    9 ≤ syncedState.dataBlock.length ∧ syncedState.dataBlock.length ≤ 2147483647 ∧
    sync SyncMode.SendDataToClients syncedState
      = some ⟨(syncedManager.store 0
          ((syncedManager.deref 0).afterBroadcast
            [0, 4, 0, 0, 0, 7, 0, 0, 0, 0, 0, 0, 0, 0, 0, 0, 0, 0, 0, 0])),
          [0, 4, 0, 0, 0, 7, 0, 0, 0, 0, 0, 0, 0, 0, 0, 0, 0, 0, 0, 0], []⟩ ∧
    ∃ s', sync SyncMode.SendDataToClients syncedState = some s' ∧
      ∃ frame, (s'.manager.deref 0).sent = (syncedState.manager.deref 0).sent ++ [frame] ∧
        frame.length = syncedState.dataBlock.length :=
  ⟨by decide, by decide, by decide, by decide,
    (sync_sends_data_block syncedState (by decide) (by decide) (by decide)).imp
      fun _ h => ⟨h.1, ((h.2 0).1 (by decide)).imp fun _ hf => ⟨hf.1, hf.2.1⟩⟩⟩

/-- Claim C25: `sync(AcknowledgeData)` calls `pushClientMessage` once on every connection of
the Sync list that is client-role and connected and on no other connection, and changes
neither the manager (no `sendData`, no frame counter) nor the data block. -/
theorem sync_acknowledge (s : SyncState) (hnd : s.manager.mSyncConnections.Nodup) :
    ∃ s', sync SyncMode.AcknowledgeData s = some s' ∧
      s'.manager = s.manager ∧ s'.dataBlock = s.dataBlock ∧
      ∃ calls, s'.pushed = s.pushed ++ calls ∧
        ∀ q, calls.count q =
          if q ∈ s.manager.mSyncConnections ∧ (s.manager.deref q).isServer = false
              ∧ (s.manager.deref q).isConnected = true then 1 else 0 := by
  refine ⟨syncAcknowledge s s.manager.mSyncConnections, rfl, by rw [syncAcknowledge_spec],
    by rw [syncAcknowledge_spec], _, by rw [syncAcknowledge_spec], fun q => ?_⟩
  have hnd' := hnd.filter (fun p =>
    !(s.manager.deref p).isServer && (s.manager.deref p).isConnected)
  by_cases h : q ∈ s.manager.mSyncConnections ∧ (s.manager.deref q).isServer = false
      ∧ (s.manager.deref q).isConnected = true
  · rw [if_pos h]
    apply List.count_eq_one_of_mem hnd'
    simp only [List.mem_filter, h.1, h.2.1, h.2.2, Bool.not_false, Bool.and_self, and_self]
  · rw [if_neg h]
    apply List.count_eq_zero_of_not_mem
    intro hm
    simp only [List.mem_filter, Bool.and_eq_true, Bool.not_eq_true'] at hm
    exact h hm

theorem sync_acknowledge_witness :
    clientState.manager.mSyncConnections.Nodup ∧
    sync SyncMode.AcknowledgeData clientState = some { clientState with pushed := [0] } ∧
    ∃ s', sync SyncMode.AcknowledgeData clientState = some s' ∧
      s'.manager = clientState.manager :=
  ⟨by decide, by decide,
    (sync_acknowledge clientState (by decide)).imp fun _ h => ⟨h.1, h.2.1⟩⟩

theorem matchAddress_iff (m : NetworkManager) (a : String) :
    matchAddress m a = true ↔ a ∈ m.mLocalAddresses := by
  simp [matchAddress]

theorem getHostInfo_loopback {env : HostEnv} {m m' : NetworkManager}
    (h : getHostInfo env m = some m') :
    "127.0.0.1" ∈ m'.mLocalAddresses ∧ "localhost" ∈ m'.mLocalAddresses := by
  unfold getHostInfo at h
  split at h
  · exact absurd h (by simp)
  · simp only at h
    split at h
    · exact absurd h (by simp)
    · cases Option.some.inj h
      simp only [List.mem_append, List.mem_cons, List.mem_singleton, true_or, or_true,
        and_self]

theorem construct_eq_some {env : HostEnv} {masterAddress : String} {nm : NetworkMode}
    {m : NetworkManager} (h : construct env masterAddress nm = some m) :
    ∃ m0, getHostInfo env { emptyManager false with mMode := nm } = some m0 ∧
      m.mLocalAddresses = m0.mLocalAddresses ∧
      (nm = NetworkMode.Remote → m.mIsServer = matchAddress m0 masterAddress) ∧
      (nm = NetworkMode.LocalServer → m.mIsServer = true) ∧
      (nm = NetworkMode.LocalClient → m.mIsServer = false) := by
  unfold construct at h
  split at h
  · exact absurd h (by simp)
  · simp only [Option.map_eq_some'] at h
    obtain ⟨m0, e, rfl⟩ := h
    refine ⟨m0, e, rfl, ?_, ?_, ?_⟩ <;> intro hn <;> subst hn <;> rfl

/-- Claim C18: `matchAddress(a)` returns `true` if and only if `a` is an entry of the local
address list (equality of strings); after every construction that succeeds the list contains
"127.0.0.1" and "localhost", so both match. -/
theorem matchAddress_iff_and_loopback (m : NetworkManager) (a : String) :
    (matchAddress m a = true ↔ a ∈ m.mLocalAddresses) ∧
    ∀ (env : HostEnv) (masterAddress : String) (nm : NetworkMode) (m' : NetworkManager),
      construct env masterAddress nm = some m' →
        "127.0.0.1" ∈ m'.mLocalAddresses ∧ "localhost" ∈ m'.mLocalAddresses ∧
        matchAddress m' "127.0.0.1" = true ∧ matchAddress m' "localhost" = true := by
  have hiff : ∀ (k : NetworkManager) (b : String),
      matchAddress k b = true ↔ b ∈ k.mLocalAddresses := matchAddress_iff
  refine ⟨hiff m a, fun env masterAddress nm m' h => ?_⟩
  obtain ⟨m0, e, hl, _⟩ := construct_eq_some h
  obtain ⟨h1, h2⟩ := getHostInfo_loopback e
  rw [← hl] at h1 h2
  exact ⟨h1, h2, (hiff _ _).mpr h1, (hiff _ _).mpr h2⟩

theorem matchAddress_iff_and_loopback_witness :
    (construct render1Env "192.168.0.11" NetworkMode.Remote).isSome = true ∧
    (construct render1Env "192.168.0.11" NetworkMode.Remote).map
        (fun m => m.mLocalAddresses)
      = some ["render1", "192.168.0.11", "render1.lab.example", "127.0.0.1", "localhost"] ∧
    ∀ m', construct render1Env "192.168.0.11" NetworkMode.Remote = some m' →
      "127.0.0.1" ∈ m'.mLocalAddresses ∧ "localhost" ∈ m'.mLocalAddresses ∧
      matchAddress m' "127.0.0.1" = true ∧ matchAddress m' "localhost" = true :=
  ⟨by decide, by decide,
    fun m' => (matchAddress_iff_and_loopback m' "localhost").2 render1Env "192.168.0.11"
      NetworkMode.Remote m'⟩

/-- Claim C19: the role fixed at construction: in `Remote` mode the process is the server if
and only if the master address is an entry of the local address list; in `LocalServer` mode it
is the server; in every other mode it is not. -/
theorem construct_role (env : HostEnv) (masterAddress : String) (nm : NetworkMode)
    (m : NetworkManager) (h : construct env masterAddress nm = some m) :
    (nm = NetworkMode.Remote →
      (isComputerServer m = true ↔ masterAddress ∈ m.mLocalAddresses)) ∧
    (nm = NetworkMode.LocalServer → isComputerServer m = true) ∧
    (nm ≠ NetworkMode.Remote → nm ≠ NetworkMode.LocalServer → isComputerServer m = false) := by
  obtain ⟨m0, _, hl, hr, hls, hlc⟩ := construct_eq_some h
  unfold isComputerServer
  refine ⟨fun hn => ?_, hls, fun h1 h2 => ?_⟩
  · rw [hr hn, hl]
    exact matchAddress_iff m0 masterAddress
  · cases nm
    · exact absurd rfl h1
    · exact absurd rfl h2
    · exact hlc rfl

theorem construct_role_witness :
    (construct render1Env "192.168.0.11" NetworkMode.Remote).map isComputerServer = some true ∧
    (construct render1Env "192.168.0.12" NetworkMode.Remote).map isComputerServer
      = some false ∧
    (construct render1Env "192.168.0.12" NetworkMode.LocalServer).map isComputerServer
      = some true ∧
    (construct render1Env "192.168.0.11" NetworkMode.LocalClient).map isComputerServer
      = some false ∧
    ∀ m, construct render1Env "192.168.0.11" NetworkMode.Remote = some m →
      (isComputerServer m = true ↔ "192.168.0.11" ∈ m.mLocalAddresses) :=
  ⟨by decide, by decide, by decide, by decide,
    fun m h => (construct_role render1Env "192.168.0.11" NetworkMode.Remote m h).1 rfl⟩

/-! ## Claims about `retrieveNodeId` -/

theorem retrieveNodeIdFrom_first (m : NetworkManager) (nodes : List Node) (i : Nat) (id : Int)
    (k : Nat) (hk : k < nodes.length)
    (hm : matchAddress m (nodes.getD k ⟨"", "", ""⟩).address = true)
    (hfirst : ∀ j, j < k → matchAddress m (nodes.getD j ⟨"", "", ""⟩).address = false) :
    retrieveNodeIdFrom m nodes i id = Int.ofNat (i + k) := by
  induction nodes generalizing i k with
  | nil => exact absurd hk (by simp)
  | cons node rest ih =>
    rw [retrieveNodeIdFrom]
    cases k with
    | zero =>
      have : matchAddress m node.address = true := hm
      rw [if_pos this]
      rfl
    | succ k =>
      have h0 : matchAddress m node.address = false := hfirst 0 (by omega)
      rw [if_neg (by simp [h0]), ih (i + 1) k (by simpa using hk) hm
        (fun j hj => hfirst (j + 1) (by omega))]
      congr 1
      omega

theorem retrieveNodeIdFrom_none (m : NetworkManager) (nodes : List Node) (i : Nat) (id : Int)
    (h : ∀ node ∈ nodes, matchAddress m node.address = false) :
    retrieveNodeIdFrom m nodes i id = id := by
  induction nodes generalizing i with
  | nil => rfl
  | cons node rest ih =>
    rw [retrieveNodeIdFrom, if_neg (by simp [h node (List.mem_cons_self _ _)])]
    exact ih (i + 1) fun n hn => h n (List.mem_cons_of_mem _ hn)

/-- Claim C26: `retrieveNodeId` sets the id of this node to the smallest index `k` such that
the address of configured node `k` matches a local address, and leaves the id as it was when
no configured node matches. -/
theorem retrieveNodeId_smallest_match (m : NetworkManager) (cm : ClusterManager)
    (thisNodeId : Int) :
    (∀ k, k < cm.nodes.length →
      matchAddress m (cm.nodes.getD k ⟨"", "", ""⟩).address = true →
      (∀ j, j < k → matchAddress m (cm.nodes.getD j ⟨"", "", ""⟩).address = false) →
      retrieveNodeId m cm thisNodeId = Int.ofNat k) ∧
    ((∀ node ∈ cm.nodes, matchAddress m node.address = false) →
      retrieveNodeId m cm thisNodeId = thisNodeId) := by
  constructor
  · intro k hk hm hfirst
    unfold retrieveNodeId
    rw [retrieveNodeIdFrom_first m cm.nodes 0 thisNodeId k hk hm hfirst, Nat.zero_add]
  · exact retrieveNodeIdFrom_none m cm.nodes 0 thisNodeId

theorem retrieveNodeId_smallest_match_witness :
    retrieveNodeId { emptyManager false with mLocalAddresses := ["192.168.0.12", "localhost"] }
      twoNodeCluster (-1) = 1 ∧
    retrieveNodeId (emptyManager false) twoNodeCluster (-1) = -1 :=
  ⟨(retrieveNodeId_smallest_match
      { emptyManager false with mLocalAddresses := ["192.168.0.12", "localhost"] }
      twoNodeCluster (-1)).1 1 (by decide) (by decide) (by decide),
    (retrieveNodeId_smallest_match (emptyManager false) twoNodeCluster (-1)).2 (by decide)⟩

/-! ## Claims about the shortcut lists -/

theorem getLast?_or_cons (l : List Nat) (p : Nat) (o : Option Nat) :
    l.getLast?.or (some p) = ((p :: l).getLast?).or o := by
  cases l with
  | nil => rfl
  | cons q qs =>
    rw [List.getLast?_cons_cons]
    cases h : (q :: qs).getLast? with
    | none => exact absurd (List.getLast?_eq_none_iff.mp h) (by simp)
    | some x => rfl

/-- The loop of lines 802-814 over any list of positions: the positions of Sync connections
are appended to the Sync list, those of DataTransfer connections to the DataTransfer list,
and the external control pointer is the last position of another type, if any. -/
theorem foldl_classify_spec (ps : List Nat) (m : NetworkManager) :
    (ps.foldl classify m).mSyncConnections
      = m.mSyncConnections ++ ps.filter (fun p =>
          decide ((m.mNetworkConnections.getD p default).mType
            = ConnectionType.SyncConnection)) ∧
    (ps.foldl classify m).mDataTransferConnections
      = m.mDataTransferConnections ++ ps.filter (fun p =>
          decide ((m.mNetworkConnections.getD p default).mType
            = ConnectionType.DataTransfer)) ∧
    (ps.foldl classify m).mExternalControlConnection
      = ((ps.filter fun p =>
          decide ((m.mNetworkConnections.getD p default).mType
              ≠ ConnectionType.SyncConnection ∧
            (m.mNetworkConnections.getD p default).mType
              ≠ ConnectionType.DataTransfer)).getLast?).or m.mExternalControlConnection := by
  induction ps generalizing m with
  | nil => simp
  | cons p ps ih =>
    rw [List.foldl_cons]
    obtain ⟨h1, h2, h3⟩ := ih (classify m p)
    have hc : (classify m p).mNetworkConnections = m.mNetworkConnections := by
      unfold classify
      split <;> rfl
    rw [h1, h2, h3, hc]
    cases ht : (m.mNetworkConnections.getD p default).mType
    all_goals
      have ht' : (m.deref p).getType = _ := ht
      simp only [classify, ht', List.filter_cons, ht, decide_True, decide_False, if_true,
        if_false, List.append_assoc, List.singleton_append, ne_eq, not_true_eq_false,
        not_false_eq_true, and_self, and_false, false_and, reduceCtorEq, true_and]
    all_goals exact getLast?_or_cons _ _ _

theorem updateShortcuts_spec (m : NetworkManager) :
    (updateShortcuts m).mNetworkConnections = m.mNetworkConnections ∧
    (updateShortcuts m).mSyncConnections
      = shortcutsOf m.mNetworkConnections ConnectionType.SyncConnection ∧
    (updateShortcuts m).mDataTransferConnections
      = shortcutsOf m.mNetworkConnections ConnectionType.DataTransfer ∧
    (updateShortcuts m).mExternalControlConnection = lastExternal m.mNetworkConnections := by
  refine ⟨updateShortcuts_connections m, ?_, ?_, ?_⟩
  · unfold updateShortcuts
    rw [(foldl_classify_spec _ _).1]
    rfl
  · unfold updateShortcuts
    rw [(foldl_classify_spec _ _).2.1]
    rfl
  · unfold updateShortcuts
    rw [(foldl_classify_spec _ _).2.2, Option.or_none]
    rfl

theorem addConnection_true {m m' : NetworkManager} {port address : String}
    {connectionType : ConnectionType} {init : InitOutcome}
    (h : addConnection m port address connectionType init = (true, m')) :
    ∃ mId, init = InitOutcome.ok mId ∧
      m' = updateShortcuts { m with mNetworkConnections :=
        m.mNetworkConnections ++ [Network.init mId port address m.mIsServer connectionType] }
    := by
  unfold addConnection at h
  split at h
  · exact absurd (congrArg Prod.fst h) (by simp)
  · split at h
    · exact absurd (congrArg Prod.fst h) (by simp)
    · cases init with
      | ok mId => exact ⟨mId, rfl, (congrArg Prod.snd h).symm⟩
      | runtimeError msg => exact absurd (congrArg Prod.fst h) (by simp)
      | cString msg => exact absurd (congrArg Prod.fst h) (by simp)

/-- After a successful `addConnection` the shortcut lists are the ones built from the owning
vector. -/
theorem addConnection_shortcutsBuilt {m m' : NetworkManager} {port address : String}
    {connectionType : ConnectionType} {init : InitOutcome}
    (h : addConnection m port address connectionType init = (true, m')) :
    ShortcutsBuilt m' := by
  obtain ⟨mId, _, rfl⟩ := addConnection_true h
  obtain ⟨hc, hs, hd, _⟩ := updateShortcuts_spec { m with mNetworkConnections :=
    m.mNetworkConnections ++ [Network.init mId port address m.mIsServer connectionType] }
  exact ⟨by rw [hs, hc], by rw [hd, hc]⟩

theorem map_deref_shortcutsOf (m : NetworkManager) (t : ConnectionType) :
    (shortcutsOf m.mNetworkConnections t).map m.deref
      = m.mNetworkConnections.filter fun n => decide (n.mType = t) := by
  have h := map_getD_range m.mNetworkConnections
  conv_rhs => rw [← h]
  rw [List.filter_map]
  rfl

theorem countP_sync_add_dataTransfer_le (conns : List Network) :
    (conns.countP fun n => decide (n.mType = ConnectionType.SyncConnection))
      + (conns.countP fun n => decide (n.mType = ConnectionType.DataTransfer))
      ≤ conns.length := by
  induction conns with
  | nil => simp
  | cons c cs ih =>
    simp only [List.countP_cons, List.length_cons]
    cases c.mType <;> simp <;> omega

/-- Claim C28: after a successful `addConnection` the Sync shortcut list holds, in
registration order, exactly the registered connections of type `SyncConnection`, the
DataTransfer shortcut list exactly those of type `DataTransfer`, and the external-control
pointer is the last registered connection of another type (null if there is none); so
`getSyncConnectionsCount() + getDataTransferConnectionsCount() <= getConnectionsCount()`. -/
theorem addConnection_shortcuts (m m' : NetworkManager) (port address : String)
    (connectionType : ConnectionType) (init : InitOutcome)
    (h : addConnection m port address connectionType init = (true, m')) :
    m'.mSyncConnections = shortcutsOf m'.mNetworkConnections ConnectionType.SyncConnection ∧
    m'.mSyncConnections.map m'.deref
      = (m'.mNetworkConnections.filter fun n =>
          decide (n.mType = ConnectionType.SyncConnection)) ∧
    m'.mDataTransferConnections
      = shortcutsOf m'.mNetworkConnections ConnectionType.DataTransfer ∧
    m'.mDataTransferConnections.map m'.deref
      = (m'.mNetworkConnections.filter fun n =>
          decide (n.mType = ConnectionType.DataTransfer)) ∧
    getExternalControlPtr m' = lastExternal m'.mNetworkConnections ∧
    getSyncConnectionsCount m' + getDataTransferConnectionsCount m'
      ≤ getConnectionsCount m' := by
  have hb := addConnection_shortcutsBuilt h
  have hext : getExternalControlPtr m' = lastExternal m'.mNetworkConnections := by
    obtain ⟨mId, _, rfl⟩ := addConnection_true h
    obtain ⟨hc, _, _, he⟩ := updateShortcuts_spec { m with mNetworkConnections :=
      m.mNetworkConnections ++ [Network.init mId port address m.mIsServer connectionType] }
    unfold getExternalControlPtr
    rw [he, hc]
  refine ⟨hb.1, ?_, hb.2, ?_, hext, ?_⟩
  · rw [hb.1]
    exact map_deref_shortcutsOf m' _
  · rw [hb.2]
    exact map_deref_shortcutsOf m' _
  · unfold getSyncConnectionsCount getDataTransferConnectionsCount getConnectionsCount
    rw [hb.1, hb.2, shortcutsOf_length, shortcutsOf_length]
    have := countP_sync_add_dataTransfer_le m'.mNetworkConnections
    simp only [Int.ofNat_eq_coe]
    omega

theorem addConnection_shortcuts_witness :
    addConnection syncedManager "20600" "127.0.0.1" ConnectionType.ExternalRawConnection
      (InitOutcome.ok 2)
      = (true, { syncedManager with
          mNetworkConnections := syncedManager.mNetworkConnections ++
            [Network.init 2 "20600" "127.0.0.1" true ConnectionType.ExternalRawConnection]
          mExternalControlConnection := some 2 }) ∧
    getExternalControlPtr { syncedManager with
        mNetworkConnections := syncedManager.mNetworkConnections ++
          [Network.init 2 "20600" "127.0.0.1" true ConnectionType.ExternalRawConnection]
        mExternalControlConnection := some 2 }
      = lastExternal (syncedManager.mNetworkConnections ++
          [Network.init 2 "20600" "127.0.0.1" true ConnectionType.ExternalRawConnection]) :=
  ⟨by decide,
    (addConnection_shortcuts syncedManager _ "20600" "127.0.0.1"
      ConnectionType.ExternalRawConnection (InitOutcome.ok 2) (by decide)).2.2.2.2.1⟩

/-! ## Claims about `setAllNodesConnected` and `close` -/

/-- Claim C29: on a client `setAllNodesConnected` makes `areAllNodesConnected()` `true` if and
only if the stored number of active Sync connections is 1 and the stored number of active
DataTransfer connections is the number of DataTransfer connections, and it writes nothing
else; on a server it changes no state at all. -/
theorem setAllNodesConnected_spec (m : NetworkManager) :
    (m.mIsServer = false →
      (areAllNodesConnected (setAllNodesConnected m) = true ↔
        getActiveSyncConnectionsCount m = 1 ∧
        Int.ofNat (getActiveDataTransferConnectionsCount m)
          = getDataTransferConnectionsCount m) ∧
      setAllNodesConnected m
        = { m with mAllNodesConnected := areAllNodesConnected (setAllNodesConnected m) }) ∧
    (m.mIsServer = true → setAllNodesConnected m = m) := by
  constructor
  · intro h
    simp only [setAllNodesConnected, h, Bool.false_eq_true, not_false_eq_true, if_true,
      areAllNodesConnected, Bool.and_eq_true, beq_iff_eq, getActiveSyncConnectionsCount,
      getActiveDataTransferConnectionsCount, getDataTransferConnectionsCount,
      Int.ofNat_eq_coe, Nat.cast_inj, and_self]
  · intro h
    simp only [setAllNodesConnected, h, not_true_eq_false, if_false]

/-- Claim C22: `close()` calls `initShutdown` on every registered connection and only then
`closeNetwork(false)` on every one of them; when it returns `isRunning()` is `false` and the
registry owns no connection: `getConnectionsCount()`, `getSyncConnectionsCount()` and
`getDataTransferConnectionsCount()` are 0. -/
theorem close_spec (m : NetworkManager) :
    (close m).2
      = (List.range m.mNetworkConnections.length).map CloseCall.initShutdown
        ++ (List.range m.mNetworkConnections.length).map
            (fun p => CloseCall.closeNetwork p false) ∧
    (∀ i j p q f, (close m).2.get? i = some (CloseCall.initShutdown p) →
      (close m).2.get? j = some (CloseCall.closeNetwork q f) → i < j) ∧
    (∀ p, p < m.mNetworkConnections.length →
      CloseCall.initShutdown p ∈ (close m).2 ∧ CloseCall.closeNetwork p false ∈ (close m).2) ∧
    isRunning (close m).1 = false ∧
    getConnectionsCount (close m).1 = 0 ∧
    getSyncConnectionsCount (close m).1 = 0 ∧
    getDataTransferConnectionsCount (close m).1 = 0 := by
  refine ⟨rfl, ?_, ?_, rfl, rfl, rfl, rfl⟩
  · intro i j p q f hi hj
    simp only [close, List.get?_eq_getElem?] at hi hj
    by_contra hle
    have hlen : ((List.range m.mNetworkConnections.length).map CloseCall.initShutdown).length
        = m.mNetworkConnections.length := by simp
    by_cases hjl : j < m.mNetworkConnections.length
    · rw [List.getElem?_append_left (by rw [hlen]; exact hjl)] at hj
      simp only [List.getElem?_map, Option.map_eq_some'] at hj
      obtain ⟨_, _, h⟩ := hj
      exact absurd h (by simp)
    · rw [List.getElem?_append_right (by rw [hlen]; omega)] at hi
      simp only [List.getElem?_map, Option.map_eq_some'] at hi
      obtain ⟨_, _, h⟩ := hi
      exact absurd h (by simp)
  · intro p hp
    simp only [close, List.mem_append, List.mem_map, List.mem_range]
    exact ⟨Or.inl ⟨p, hp, rfl⟩, Or.inr ⟨p, hp, rfl⟩⟩

theorem setAllNodesConnected_spec_witness :
    droppedClient.mIsServer = false ∧
    (areAllNodesConnected (setAllNodesConnected droppedClient) = true ↔
      getActiveSyncConnectionsCount droppedClient = 1 ∧
      Int.ofNat (getActiveDataTransferConnectionsCount droppedClient)
        = getDataTransferConnectionsCount droppedClient) ∧
    syncedManager.mIsServer = true ∧ setAllNodesConnected syncedManager = syncedManager :=
  ⟨rfl, ((setAllNodesConnected_spec droppedClient).1 rfl).1, rfl,
    (setAllNodesConnected_spec syncedManager).2 rfl⟩

/-! ## What a registry operation leaves alone -/

theorem foldl_classify_frame (ps : List Nat) (m : NetworkManager) :
    ps.foldl classify m = m.withRegistry (ps.foldl classify m) := by
  induction ps generalizing m with
  | nil => rfl
  | cons p ps ih =>
    rw [List.foldl_cons, ih (classify m p)]
    unfold classify
    split <;> rfl

/-- `addConnection` writes the owning vector and the three shortcuts and nothing else. -/
theorem addConnection_frame (m : NetworkManager) (port address : String)
    (connectionType : ConnectionType) (init : InitOutcome) :
    (addConnection m port address connectionType init).2
      = m.withRegistry (addConnection m port address connectionType init).2 := by
  unfold addConnection
  split
  · rfl
  · split
    · rfl
    · cases init with
      | ok mId =>
        simp only [updateShortcuts]
        rw [foldl_classify_frame]
        rfl
      | runtimeError msg => rfl
      | cString msg => rfl

/-- What `addConnection` does to the owning vector: a call that returns `true` appends the new
connection, which is not connected; a call that returns `false` leaves the vector alone. -/
theorem addConnection_connections (m : NetworkManager) (port address : String)
    (connectionType : ConnectionType) (init : InitOutcome) :
    ((addConnection m port address connectionType init).1 = true ∧
      ∃ mId, (addConnection m port address connectionType init).2.mNetworkConnections
        = m.mNetworkConnections
          ++ [Network.init mId port address m.mIsServer connectionType]) ∨
    ((addConnection m port address connectionType init).1 = false ∧
      (addConnection m port address connectionType init).2 = m) := by
  unfold addConnection
  split
  · exact Or.inr ⟨rfl, rfl⟩
  · split
    · exact Or.inr ⟨rfl, rfl⟩
    · cases init with
      | ok mId => exact Or.inl ⟨rfl, mId, updateShortcuts_connections _⟩
      | runtimeError msg => exact Or.inr ⟨rfl, rfl⟩
      | cString msg => exact Or.inr ⟨rfl, rfl⟩

/-! ## Claims about the counters across operations -/

theorem countersAgree_syncedManager : CountersAgree syncedManager := by
  unfold CountersAgree
  decide

/-- The counters and the operations of the registry: `updateConnectionStatus` makes the three
counters agree with the connection states; `addConnection` and `setAllNodesConnected` keep
them in agreement when they agreed before; the body of `close()` empties the registry and
writes no counter (what the update callbacks of the connections do while they shut down is
not part of `close`). -/
theorem counters_agree_after_operations (ids : PackageIds) (m : NetworkManager) :
    (∀ connection, CountersAgree (updateConnectionStatus ids m connection).1) ∧
    (CountersAgree m → ∀ port address connectionType init,
      CountersAgree (addConnection m port address connectionType init).2) ∧
    (CountersAgree m → CountersAgree (setAllNodesConnected m)) ∧
    ((close m).1.mNetworkConnections = [] ∧
      getActiveConnectionsCount (close m).1 = getActiveConnectionsCount m ∧
      getActiveSyncConnectionsCount (close m).1 = getActiveSyncConnectionsCount m ∧
      getActiveDataTransferConnectionsCount (close m).1
        = getActiveDataTransferConnectionsCount m) := by
  refine ⟨fun connection => countersOf_updateConnectionStatus ids m connection,
    fun h port address connectionType init => ?_, fun h => ?_, rfl, rfl, rfl, rfl⟩
  · have hf := addConnection_frame m port address connectionType init
    have hcnt : getActiveConnectionsCount (addConnection m port address connectionType init).2
          = getActiveConnectionsCount m ∧
        getActiveSyncConnectionsCount (addConnection m port address connectionType init).2
          = getActiveSyncConnectionsCount m ∧
        getActiveDataTransferConnectionsCount
            (addConnection m port address connectionType init).2
          = getActiveDataTransferConnectionsCount m := by
      rw [hf]
      exact ⟨rfl, rfl, rfl⟩
    rcases addConnection_connections m port address connectionType init with
      ⟨_, mId, hc⟩ | ⟨_, he⟩
    · unfold CountersAgree
      rw [hcnt.1, hcnt.2.1, hcnt.2.2, hc]
      simp only [List.filter_append, List.filter_cons, List.filter_nil, Network.init,
        Network.isConnected, Bool.false_and, Bool.false_eq_true, if_false, List.append_nil]
      exact h
    · rw [he]
      exact h
  · unfold setAllNodesConnected
    split
    · exact h
    · exact h

theorem counters_agree_after_operations_witness :
    CountersAgree syncedManager ∧
    CountersAgree (addConnection syncedManager "20600" "127.0.0.1"
      ConnectionType.ExternalRawConnection (InitOutcome.ok 2)).2 ∧
    CountersAgree (setAllNodesConnected syncedManager) ∧
    CountersAgree (updateConnectionStatus specIds droppedClient 0).1 :=
  ⟨countersAgree_syncedManager,
    (counters_agree_after_operations specIds syncedManager).2.1
      countersAgree_syncedManager _ _ _ _,
    (counters_agree_after_operations specIds syncedManager).2.2.1
      countersAgree_syncedManager,
    (counters_agree_after_operations specIds droppedClient).1 0⟩

/-! ## Claims about the run flag -/

theorem initNodes_frame (outcome : Nat → InitOutcome) (remoteAddress : String)
    (nodes : List Node) (m : NetworkManager) (k : Nat) :
    (initNodes outcome remoteAddress m k nodes).2.1
      = m.withRegistry (initNodes outcome remoteAddress m k nodes).2.1 := by
  induction nodes generalizing m k with
  | nil => rfl
  | cons node rest ih =>
    rw [initNodes]
    split
    · simp only
      split
      · exact addConnection_frame _ _ _ _ _
      · rw [ih]
        generalize (initNodes outcome remoteAddress _ (k + 2) rest).2.1 = r
        rw [addConnection_frame, addConnection_frame m]
        rfl
    · exact ih m k

theorem initClient_frame (cm : ClusterManager) (outcome : Nat → InitOutcome)
    (remoteAddress : String) (m : NetworkManager) :
    (initClient cm outcome remoteAddress m).2.1
      = m.withRegistry (initClient cm outcome remoteAddress m).2.1 := by
  unfold initClient
  split
  · simp only
    split
    · simp only
      rw [addConnection_frame, addConnection_frame m]
      rfl
    · exact addConnection_frame _ _ _ _ _
  · rfl

theorem initCluster_frame (cm : ClusterManager) (outcome : Nat → InitOutcome)
    (remoteAddress : String) (m : NetworkManager) :
    (initCluster cm outcome remoteAddress m).2.1
      = m.withRegistry (initCluster cm outcome remoteAddress m).2.1 := by
  unfold initCluster
  split
  · rfl
  · simp only
    split
    · exact initClient_frame cm outcome remoteAddress m
    · rw [initNodes_frame]
      generalize (initNodes outcome remoteAddress _ _ cm.nodes).2.1 = r
      rw [initClient_frame]
      rfl

theorem init_isRunning (cm : ClusterManager) (outcome : Nat → InitOutcome)
    (m : NetworkManager) : (init cm outcome m).2.mIsRunning = m.mIsRunning := by
  unfold init
  split
  · rfl
  · split
    · rfl
    · simp only
      generalize hm1 : (if m.mMode ≠ NetworkMode.Remote then
          { m with mLocalAddresses := m.mLocalAddresses ++ [cm.thisNode.address] }
        else m) = m1
      have h1 : m1.mIsRunning = m.mIsRunning := by
        rw [← hm1]
        split <;> rfl
      generalize hr : (if cm.nodes.length > 1 then
          initCluster cm outcome
            (if m.mMode = NetworkMode.Remote then cm.masterAddress else "127.0.0.1") m1
        else (true, m1, 0)) = r
      have h2 : r.2.1.mIsRunning = m.mIsRunning := by
        rw [← hr, ← h1]
        split
        · rw [initCluster_frame]; rfl
        · rfl
      split
      · exact h2
      · split
        · rw [addConnection_frame]
          exact h2
        · exact h2

theorem sendToAll_isRunning (buffer : List Nat) (length : Int) :
    ∀ (ps : List Nat) (m m' : NetworkManager),
      sendToAll buffer length m ps = some m' → m'.mIsRunning = m.mIsRunning := by
  intro ps
  induction ps with
  | nil =>
    intro m m' h
    simp only [sendToAll, Option.some.injEq] at h
    rw [← h]
  | cons p ps ih =>
    intro m m' h
    rw [sendToAll] at h
    split at h
    · obtain ⟨n, _, hn⟩ := Option.bind_eq_some.mp h
      have hk := ih _ _ hn
      exact hk
    · exact ih _ _ h

theorem transferData_isRunning (ids : PackageIds) (z : Zlib) (m m' : NetworkManager)
    (data : List Nat) (length packageId : Int)
    (h : transferData ids z m data length packageId = some m') :
    m'.mIsRunning = m.mIsRunning := by
  unfold transferData at h
  obtain ⟨r, _, hr⟩ := Option.bind_eq_some.mp h
  split at hr
  · exact sendToAll_isRunning _ _ _ _ _ hr
  · simp only [Option.some.injEq] at hr
    rw [← hr]

theorem transferDataToNode_isRunning (ids : PackageIds) (z : Zlib) (m m' : NetworkManager)
    (data : List Nat) (length packageId : Int) (nodeIndex : Nat)
    (h : transferDataToNode ids z m data length packageId nodeIndex = some m') :
    m'.mIsRunning = m.mIsRunning := by
  unfold transferDataToNode at h
  split at h
  · simp only [Option.some.injEq] at h
    rw [← h]
  · obtain ⟨r, _, hr⟩ := Option.bind_eq_some.mp h
    split at hr
    · obtain ⟨n, _, hn⟩ := Option.map_eq_some'.mp hr
      rw [← hn]
      rfl
    · simp only [Option.some.injEq] at hr
      rw [← hr]

theorem transferDataToConnection_isRunning (ids : PackageIds) (z : Zlib)
    (m m' : NetworkManager) (data : List Nat) (length packageId : Int) (connection : Nat)
    (h : transferDataToConnection ids z m data length packageId connection = some m') :
    m'.mIsRunning = m.mIsRunning := by
  unfold transferDataToConnection at h
  split at h
  · obtain ⟨r, _, hr⟩ := Option.bind_eq_some.mp h
    split at hr
    · obtain ⟨n, _, hn⟩ := Option.map_eq_some'.mp hr
      rw [← hn]
      rfl
    · simp only [Option.some.injEq] at hr
      rw [← hr]
  · simp only [Option.some.injEq] at h
    rw [← h]

theorem syncSend_isRunning :
    ∀ (ps : List Nat) (s s' : SyncState),
      syncSend s ps = some s' → s'.manager.mIsRunning = s.manager.mIsRunning := by
  intro ps
  induction ps with
  | nil =>
    intro s s' h
    simp only [syncSend, Option.some.injEq] at h
    rw [← h]
  | cons p ps ih =>
    intro s s' h
    rw [syncSend] at h
    simp only at h
    split at h
    · exact ih _ _ h
    · obtain ⟨b1, _, h1⟩ := Option.bind_eq_some.mp h
      obtain ⟨b2, _, h2⟩ := Option.bind_eq_some.mp h1
      obtain ⟨n, _, h3⟩ := Option.bind_eq_some.mp h2
      have hk := ih _ _ h3
      exact hk

theorem syncAcknowledge_manager :
    ∀ (ps : List Nat) (s : SyncState), (syncAcknowledge s ps).manager = s.manager := by
  intro ps
  induction ps with
  | nil => intro s; rfl
  | cons p ps ih =>
    intro s
    rw [syncAcknowledge]
    split
    · rw [ih]
    · rw [ih]

theorem sync_isRunning (sm : SyncMode) (s s' : SyncState) (h : sync sm s = some s') :
    s'.manager.mIsRunning = s.manager.mIsRunning := by
  cases sm with
  | SendDataToClients => exact syncSend_isRunning _ _ _ h
  | AcknowledgeData =>
    simp only [sync, Option.some.injEq] at h
    rw [← h, syncAcknowledge_manager]

theorem updateConnectionStatus_keeps_stopped (ids : PackageIds) (m : NetworkManager)
    (connection : Nat) (h : m.mIsRunning = false) :
    (updateConnectionStatus ids m connection).1.mIsRunning = false := by
  rw [(updateConnectionStatus_fields ids m connection).1]
  simp only [NetworkManager.withConnections, statusAfterUpdate, h, ite_self]

theorem applyOp_keeps_stopped (ids : PackageIds) (z : Zlib) (op : RegistryOp)
    (m m' : NetworkManager) (h : m.mIsRunning = false) (hop : applyOp ids z m op = some m') :
    m'.mIsRunning = false := by
  cases op with
  | doInit cm outcome =>
    simp only [applyOp, Option.some.injEq] at hop
    rw [← hop, init_isRunning, h]
  | doAddConnection port address connectionType outcome =>
    simp only [applyOp, Option.some.injEq] at hop
    rw [← hop, addConnection_frame]
    exact h
  | doUpdateConnectionStatus connection =>
    simp only [applyOp, Option.some.injEq] at hop
    rw [← hop]
    exact updateConnectionStatus_keeps_stopped ids m connection h
  | doSetAllNodesConnected =>
    simp only [applyOp, Option.some.injEq] at hop
    rw [← hop, setAllNodesConnected]
    split
    · exact h
    · exact h
  | doSync sm dataBlock =>
    simp only [applyOp] at hop
    obtain ⟨s, hs, hm⟩ := Option.map_eq_some'.mp hop
    rw [← hm, sync_isRunning sm _ s hs]
    exact h
  | doTransferData data length packageId =>
    simp only [applyOp] at hop
    rw [transferData_isRunning ids z m m' data length packageId hop, h]
  | doTransferDataToNode data length packageId nodeIndex =>
    simp only [applyOp] at hop
    rw [transferDataToNode_isRunning ids z m m' data length packageId nodeIndex hop, h]
  | doTransferDataToConnection data length packageId connection =>
    simp only [applyOp] at hop
    rw [transferDataToConnection_isRunning ids z m m' data length packageId connection hop, h]
  | doClose =>
    simp only [applyOp, Option.some.injEq] at hop
    rw [← hop]
    rfl
  | connectionChange conns =>
    simp only [applyOp, Option.some.injEq] at hop
    rw [← hop]
    exact h

/-- C27: losing the run state is terminal. Once `isRunning` is false, it is false after every
sequence of operations of the manager (`init`, `addConnection`, `updateConnectionStatus`,
`setAllNodesConnected`, `sync`, the three `transferData`, `close`), interleaved with any
changes of the connections, a Sync connection that reconnects included. -/
theorem isRunning_false_is_terminal (ids : PackageIds) (z : Zlib) (ops : List RegistryOp)
    (m m' : NetworkManager) (h : isRunning m = false) (hrun : runOps ids z ops m = some m') :
    isRunning m' = false := by
  induction ops generalizing m with
  | nil =>
    simp only [runOps, Option.some.injEq] at hrun
    rw [← hrun]
    exact h
  | cons op rest ih =>
    rw [runOps] at hrun
    obtain ⟨m1, h1, h2⟩ := Option.bind_eq_some.mp hrun
    exact ih m1 (applyOp_keeps_stopped ids z op m m1 h h1) h2

theorem isRunning_false_is_terminal_witness :
    isRunning (updateConnectionStatus specIds droppedClient 0).1 = false ∧
    ∃ m', runOps specIds rleZlib reconnectOps (updateConnectionStatus specIds droppedClient 0).1
        = some m' ∧
      (m'.deref 0).isConnected = true ∧ isRunning m' = false :=
  ⟨by decide, _, rfl, by decide,
    isRunning_false_is_terminal specIds rleZlib reconnectOps
      (updateConnectionStatus specIds droppedClient 0).1 _ (by decide) rfl⟩

/-! ## The frame of an uncompressed transfer -/

/-- Without compression the buffer is resized to the frame and bytes 9 to 12 hold
`DefaultId`. -/
theorem prepareTransferData_plain_layout {ids : PackageIds} {z : Zlib} {lvl : Int}
    {data buffer : List Nat} {length packageId : Int} {r : PrepareResult}
    (h : prepareTransferData ids z false lvl data buffer length packageId = some r) :
    r.buffer.length = (length + 13).toNat ∧
    ∀ j, 9 ≤ j → j < 13 → r.buffer.getD j 0 = ids.DefaultId := by
  obtain ⟨b0, b1, b2, hlo, hhi, h0, h1, h2, hr⟩ := prepareTransferData_steps h
  simp only [Bool.false_eq_true, if_false] at hr
  obtain ⟨hsrc, b3, b4, b5, h3, h4, h5, hr5⟩ := preparePlain_steps hr
  obtain ⟨hcap, hb0⟩ := resize_eq_some h0
  have hfc : frameCapacity z false length = length + 13 := by
    simp only [frameCapacity, Bool.false_eq_true, if_false, HeaderSize, Nat.cast_ofNat]
  have hbuf : r.buffer = b5 := by rw [hr5]
  have hH : HeaderSize = 13 := rfl
  refine ⟨?_, ?_⟩
  · rw [hbuf, writeAt_length h5, writeAt_length h4, writeAt_length h3, writeAt_length h2,
      writeAt_length h1, hb0, hfc]
  · intro j h9 h13
    rw [hbuf, writeAt_getD_ge h5 j 0 (by rw [int32Bytes_length]; omega),
      writeAt_getD_lt h4 j 0 (by omega)]
    have hj : j = 9 + (j - 9) := by omega
    rw [hj, writeAt_getD_in h3 (j - 9) 0 (by rw [List.length_replicate]; omega)]
    simp only [List.getD_eq_getElem?_getD]
    rw [List.getElem?_replicate]
    have hlt : j - 9 < 4 := by omega
    simp only [hlt, if_true, Option.getD_some]

/-- C24: with compression disabled, for every input of `n` bytes (`n + 13` an `int`) and
every package id, `prepareTransferData` returns `true` with a buffer of exactly `n + 13`
bytes and the send length `n + 13`; byte 0 is `DataId`, offsets 1 to 4 hold the package id,
offsets 5 to 8 hold `n`, each of the bytes 9 to 12 is `DefaultId`, and the bytes from offset
13 on are the input. -/
theorem prepareTransferData_uncompressed_frame (ids : PackageIds) (z : Zlib) (lvl : Int)
    (data buffer : List Nat) (n packageId : Int)
    (h0 : 0 ≤ n) (h1 : n + 13 ≤ 2147483647) (h2 : n.toNat = data.length) :
    ∃ r, prepareTransferData ids z false lvl data buffer n packageId = some r ∧
      r.success = true ∧
      r.buffer.length = n.toNat + 13 ∧
      r.length = n + 13 ∧
      r.buffer.getD 0 0 = ids.DataId ∧
      readInt32 r.buffer 1 = toInt32 packageId ∧
      readInt32 r.buffer 5 = n ∧
      (∀ j, 9 ≤ j → j < 13 → r.buffer.getD j 0 = ids.DefaultId) ∧
      r.buffer.drop 13 = data := by
  obtain ⟨r, hr, hs⟩ := prepareTransferData_plain_returns ids z lvl data buffer n packageId
    h0 h1 (by omega)
  obtain ⟨_, _, _, hlen, h5, hpay⟩ := prepareTransferData_plain_success hr
  obtain ⟨hbl, hdef⟩ := prepareTransferData_plain_layout hr
  obtain ⟨hty, hid⟩ := prepareTransferData_first_bytes hr
  have hbl2 : r.buffer.length = n.toNat + 13 := by rw [hbl]; omega
  refine ⟨r, hr, hs, hbl2, hlen, ?_, hid, ?_, hdef, ?_⟩
  · simpa only [Bool.false_eq_true, if_false] using hty
  · rw [h5]
    exact toInt32_of_range n (by omega) (by omega)
  · have hf : frameOf r = r.buffer := by
      unfold frameOf
      rw [hlen]
      exact List.take_of_length_le (le_of_eq hbl)
    have hH : HeaderSize = 13 := rfl
    rw [hf, hH, h2, List.take_length] at hpay
    exact hpay

theorem prepareTransferData_uncompressed_frame_witness :
    ∃ r, prepareTransferData specIds rleZlib false 1 (List.range 100) [] 100 7 = some r ∧
      r.success = true ∧
      r.buffer.length = (100 : Int).toNat + 13 ∧
      r.length = 100 + 13 ∧
      r.buffer.getD 0 0 = specIds.DataId ∧
      readInt32 r.buffer 1 = toInt32 7 ∧
      readInt32 r.buffer 5 = 100 ∧
      (∀ j, 9 ≤ j → j < 13 → r.buffer.getD j 0 = specIds.DefaultId) ∧
      r.buffer.drop 13 = List.range 100 :=
  prepareTransferData_uncompressed_frame specIds rleZlib 1 (List.range 100) [] 100 7
    (by decide) (by decide) (by simp)

/-! ## Claims about `init` -/

theorem portsOf_append (a b : List Network) (t : ConnectionType) :
    portsOf (a ++ b) t = portsOf a t ++ portsOf b t := by
  simp only [portsOf, List.filter_append, List.map_append]

theorem portsOf_init (mId : Int) (port address : String) (isServer : Bool)
    (t t' : ConnectionType) :
    portsOf [Network.init mId port address isServer t] t' = if t = t' then [port] else [] := by
  by_cases h : t = t'
  · simp [portsOf, Network.init, Network.getType, h]
  · simp [portsOf, Network.init, Network.getType, h]

theorem externalConnections_append (a b : List Network) :
    externalConnections (a ++ b) = externalConnections a ++ externalConnections b := by
  simp only [externalConnections, List.filter_append]

theorem matchAddress_addConnection (m : NetworkManager) (port address : String)
    (t : ConnectionType) (o : InitOutcome) (a : String) :
    matchAddress (addConnection m port address t o).2 a = matchAddress m a := by
  rw [addConnection_frame]
  rfl

theorem isServer_addConnection (m : NetworkManager) (port address : String)
    (t : ConnectionType) (o : InitOutcome) :
    (addConnection m port address t o).2.mIsServer = m.mIsServer := by
  rw [addConnection_frame]
  rfl

theorem addConnection_ok (m : NetworkManager) (port address : String) (t : ConnectionType)
    (mId : Int) (hp : port.isEmpty = false) (ha : address.isEmpty = false) :
    (addConnection m port address t (InitOutcome.ok mId)).1 = true := by
  simp only [addConnection, hp, ha, Bool.false_eq_true, if_false]

theorem initNodes_cons_local (outcome : Nat → InitOutcome) (ra : String) (m : NetworkManager)
    (k : Nat) (node : Node) (rest : List Node)
    (h : ¬ (m.mIsServer ∧ ¬ matchAddress m node.address)) :
    initNodes outcome ra m k (node :: rest) = initNodes outcome ra m k rest := by
  rw [initNodes, if_neg h]

theorem initNodes_cons_failed (outcome : Nat → InitOutcome) (ra : String) (m : NetworkManager)
    (k : Nat) (node : Node) (rest : List Node)
    (h : m.mIsServer ∧ ¬ matchAddress m node.address)
    (hs : (addConnection m node.syncPort ra ConnectionType.SyncConnection (outcome k)).1
      = false) :
    (initNodes outcome ra m k (node :: rest)).1 = false := by
  rw [initNodes, if_pos h]
  simp only [hs, Bool.false_eq_true, not_false_eq_true, if_true]

theorem initNodes_cons_remote (outcome : Nat → InitOutcome) (ra : String) (m : NetworkManager)
    (k : Nat) (node : Node) (rest : List Node)
    (h : m.mIsServer ∧ ¬ matchAddress m node.address)
    (hs : (addConnection m node.syncPort ra ConnectionType.SyncConnection (outcome k)).1
      = true) :
    initNodes outcome ra m k (node :: rest)
      = initNodes outcome ra
          (addConnection
            (addConnection m node.syncPort ra ConnectionType.SyncConnection (outcome k)).2
            node.dataTransferPort ra ConnectionType.DataTransfer (outcome (k + 1))).2
          (k + 2) rest := by
  rw [initNodes, if_pos h]
  simp only [hs, not_true_eq_false, if_false]

/-- The loop over the configured nodes, when it runs to its end on a server: the connections
it appends are one Sync connection per node that is not local, in order, and for each such
node at most one DataTransfer connection (exactly one when every data transfer port and the
remote address are set and no `Network::init` throws). -/
theorem initNodes_registry (outcome : Nat → InitOutcome) (ra : String) :
    ∀ (nodes : List Node) (m : NetworkManager) (k : Nat),
      m.mIsServer = true →
      (initNodes outcome ra m k nodes).1 = true →
      ∃ added : List Network,
        (initNodes outcome ra m k nodes).2.1.mNetworkConnections
          = m.mNetworkConnections ++ added ∧
        portsOf added ConnectionType.SyncConnection
          = (nodes.filter fun n => ¬ matchAddress m n.address).map Node.syncPort ∧
        List.Sublist (portsOf added ConnectionType.DataTransfer)
          ((nodes.filter fun n => ¬ matchAddress m n.address).map Node.dataTransferPort) ∧
        externalConnections added = [] ∧
        ((∀ n ∈ nodes, n.dataTransferPort.isEmpty = false) → ra.isEmpty = false →
          (∀ j, ∃ mId, outcome j = InitOutcome.ok mId) →
          portsOf added ConnectionType.DataTransfer
            = (nodes.filter fun n => ¬ matchAddress m n.address).map
                Node.dataTransferPort) := by
  intro nodes
  induction nodes with
  | nil =>
    intro m k _ _
    refine ⟨[], ?_, rfl, ?_, rfl, fun _ _ _ => rfl⟩
    · simp only [initNodes, List.append_nil]
    · exact List.Sublist.refl _
  | cons node rest ih =>
    intro m k hsrv h
    by_cases hc : m.mIsServer ∧ ¬ matchAddress m node.address
    · have hrem : (decide (¬ matchAddress m node.address = true)) = true :=
        decide_eq_true hc.2
      cases hs : (addConnection m node.syncPort ra ConnectionType.SyncConnection
          (outcome k)).1 with
      | false =>
        rw [initNodes_cons_failed outcome ra m k node rest hc hs] at h
        exact absurd h (by simp)
      | true =>
        rw [initNodes_cons_remote outcome ra m k node rest hc hs] at h ⊢
        generalize hm1 : (addConnection m node.syncPort ra ConnectionType.SyncConnection
          (outcome k)).2 = m1 at h ⊢
        have hsrv1 : m1.mIsServer = true := by
          rw [← hm1, isServer_addConnection]; exact hsrv
        have hma1 : ∀ a, matchAddress m1 a = matchAddress m a := by
          intro a; rw [← hm1, matchAddress_addConnection]
        have hc1 : ∃ mId, m1.mNetworkConnections = m.mNetworkConnections
            ++ [Network.init mId node.syncPort ra m.mIsServer
              ConnectionType.SyncConnection] := by
          rcases addConnection_connections m node.syncPort ra ConnectionType.SyncConnection
            (outcome k) with ⟨_, mId, hq⟩ | ⟨hf, _⟩
          · exact ⟨mId, by rw [← hm1]; exact hq⟩
          · rw [hs] at hf
            exact absurd hf (by simp)
        obtain ⟨sId, hconn1⟩ := hc1
        generalize hm2 : (addConnection m1 node.dataTransferPort ra
          ConnectionType.DataTransfer (outcome (k + 1))).2 = m2 at h ⊢
        have hsrv2 : m2.mIsServer = true := by
          rw [← hm2, isServer_addConnection]; exact hsrv1
        have hma2 : ∀ a, matchAddress m2 a = matchAddress m a := by
          intro a; rw [← hm2, matchAddress_addConnection]; exact hma1 a
        obtain ⟨added, hadd, hsync, hdt, hext, hexact⟩ := ih m2 (k + 2) hsrv2 h
        simp only [hma2] at hsync hdt hexact
        rcases addConnection_connections m1 node.dataTransferPort ra
          ConnectionType.DataTransfer (outcome (k + 1)) with ⟨_, dId, hq⟩ | ⟨hf, hq⟩
        · rw [hm2] at hq
          refine ⟨[Network.init sId node.syncPort ra m.mIsServer
              ConnectionType.SyncConnection]
            ++ ([Network.init dId node.dataTransferPort ra m1.mIsServer
              ConnectionType.DataTransfer] ++ added), ?_, ?_, ?_, ?_, ?_⟩
          · rw [hadd, hq, hconn1]
            simp only [List.append_assoc]
          · rw [portsOf_append, portsOf_append, portsOf_init, portsOf_init, hsync,
              List.filter_cons, if_pos hrem]
            simp
          · rw [portsOf_append, portsOf_append, portsOf_init, portsOf_init,
              List.filter_cons, if_pos hrem]
            simp only [reduceCtorEq, if_false, if_true, List.nil_append, List.map_cons,
              List.singleton_append]
            exact List.Sublist.cons₂ _ hdt
          · rw [externalConnections_append, externalConnections_append, hext]
            simp [externalConnections, Network.init, Network.getType]
          · intro hports hra hok
            rw [portsOf_append, portsOf_append, portsOf_init, portsOf_init,
              List.filter_cons, if_pos hrem,
              hexact (fun n hn => hports n (List.mem_cons_of_mem _ hn)) hra hok]
            simp
        · rw [hm2] at hq
          refine ⟨[Network.init sId node.syncPort ra m.mIsServer
              ConnectionType.SyncConnection] ++ added, ?_, ?_, ?_, ?_, ?_⟩
          · rw [hadd, hq, hconn1]
            simp only [List.append_assoc]
          · rw [portsOf_append, portsOf_init, hsync, List.filter_cons, if_pos hrem]
            simp
          · rw [portsOf_append, portsOf_init, List.filter_cons, if_pos hrem]
            simp only [reduceCtorEq, if_false, List.nil_append, List.map_cons]
            exact List.Sublist.cons _ hdt
          · rw [externalConnections_append, hext]
            simp [externalConnections, Network.init, Network.getType]
          · intro hports hra hok
            obtain ⟨mId, hmId⟩ := hok (k + 1)
            have ht := addConnection_ok m1 node.dataTransferPort ra
              ConnectionType.DataTransfer mId (hports node (List.mem_cons_self _ _)) hra
            rw [← hmId, hf] at ht
            exact absurd ht (by simp)
    · have hloc : (decide (¬ matchAddress m node.address = true)) = false := by
        apply decide_eq_false
        intro hn
        exact hc ⟨hsrv, hn⟩
      rw [initNodes_cons_local outcome ra m k node rest hc] at h ⊢
      obtain ⟨added, hadd, hsync, hdt, hext, hexact⟩ := ih m k hsrv h
      refine ⟨added, hadd, ?_, ?_, hext, ?_⟩
      · rw [hsync, List.filter_cons, hloc]
        simp
      · rw [List.filter_cons, hloc]
        simpa using hdt
      · intro hports hra hok
        rw [hexact (fun n hn => hports n (List.mem_cons_of_mem _ hn)) hra hok,
          List.filter_cons, hloc]
        simp

theorem addConnection_keeps_shortcutsBuilt (m : NetworkManager) (port address : String)
    (t : ConnectionType) (o : InitOutcome) (h : ShortcutsBuilt m) :
    ShortcutsBuilt (addConnection m port address t o).2 := by
  rcases addConnection_connections m port address t o with ⟨hs, _⟩ | ⟨_, hq⟩
  · exact addConnection_shortcutsBuilt (Prod.ext hs rfl)
  · rw [hq]
    exact h

theorem initNodes_keeps_shortcutsBuilt (outcome : Nat → InitOutcome) (ra : String) :
    ∀ (nodes : List Node) (m : NetworkManager) (k : Nat),
      ShortcutsBuilt m → ShortcutsBuilt (initNodes outcome ra m k nodes).2.1 := by
  intro nodes
  induction nodes with
  | nil => intro m k h; exact h
  | cons node rest ih =>
    intro m k h
    rw [initNodes]
    split
    · simp only
      split
      · exact addConnection_keeps_shortcutsBuilt _ _ _ _ _ h
      · exact ih _ _ (addConnection_keeps_shortcutsBuilt _ _ _ _ _
          (addConnection_keeps_shortcutsBuilt _ _ _ _ _ h))
    · exact ih _ _ h

theorem initCluster_server (cm : ClusterManager) (outcome : Nat → InitOutcome) (ra : String)
    (m : NetworkManager) (hsrv : m.mIsServer = true) (he : m.mNetworkConnections = []) :
    initCluster cm outcome ra m = initNodes outcome ra m 0 cm.nodes := by
  simp [initCluster, initClient, hsrv, he]

theorem init_server_steps (cm : ClusterManager) (outcome : Nat → InitOutcome)
    (m : NetworkManager) (hsrv : m.mIsServer = true) (hn : cm.nodes.length > 1)
    (hempty : m.mNetworkConnections = []) (h : (init cm outcome m).1 = true) :
    ∃ (m1 : NetworkManager) (ra : String),
      m1.mIsServer = true ∧ m1.mNetworkConnections = [] ∧
      m1.mSyncConnections = m.mSyncConnections ∧
      m1.mDataTransferConnections = m.mDataTransferConnections ∧
      ra.isEmpty = false ∧
      (init cm outcome m).2.mLocalAddresses = m1.mLocalAddresses ∧
      (initNodes outcome ra m1 0 cm.nodes).1 = true ∧
      (init cm outcome m).2
        = (addConnection (initNodes outcome ra m1 0 cm.nodes).2.1 cm.externalControlPort
            "127.0.0.1"
            (if cm.useASCIIForExternalControl then ConnectionType.ExternalASCIIConnection
              else ConnectionType.ExternalRawConnection)
            (outcome (initNodes outcome ra m1 0 cm.nodes).2.2)).2 := by
  by_cases h1 : cm.thisNode.address.isEmpty = true
  · rw [init, if_pos h1] at h
    exact absurd h (by simp)
  by_cases h2 : m.mMode = NetworkMode.Remote ∧ cm.masterAddress.isEmpty = true
  · rw [init, if_neg h1, if_pos h2] at h
    exact absurd h (by simp)
  rw [init, if_neg h1, if_neg h2] at h ⊢
  simp only [hn, if_true] at h ⊢
  generalize hra : (if m.mMode = NetworkMode.Remote then cm.masterAddress else "127.0.0.1")
    = ra at h ⊢
  generalize hm1 : (if m.mMode ≠ NetworkMode.Remote then
      { m with mLocalAddresses := m.mLocalAddresses ++ [cm.thisNode.address] }
    else m) = m1 at h ⊢
  have hsrv1 : m1.mIsServer = true := by
    rw [← hm1]; split <;> exact hsrv
  have he1 : m1.mNetworkConnections = [] := by
    rw [← hm1]; split <;> exact hempty
  have hs1 : m1.mSyncConnections = m.mSyncConnections := by
    rw [← hm1]; split <;> rfl
  have hd1 : m1.mDataTransferConnections = m.mDataTransferConnections := by
    rw [← hm1]; split <;> rfl
  have hra1 : ra.isEmpty = false := by
    rw [← hra]
    split
    · rename_i hmode
      cases hemp : cm.masterAddress.isEmpty with
      | false => rfl
      | true => exact absurd ⟨hmode, hemp⟩ h2
    · decide
  rw [initCluster_server cm outcome ra m1 hsrv1 he1] at h ⊢
  have hsrvr : (initNodes outcome ra m1 0 cm.nodes).2.1.mIsServer = true := by
    rw [initNodes_frame]; exact hsrv1
  have hlocr : (initNodes outcome ra m1 0 cm.nodes).2.1.mLocalAddresses
      = m1.mLocalAddresses := by
    rw [initNodes_frame]; rfl
  by_cases hr : (initNodes outcome ra m1 0 cm.nodes).1 = true
  · rw [if_neg (not_not.mpr hr), if_pos hsrvr]
    refine ⟨m1, ra, hsrv1, he1, hs1, hd1, hra1, ?_, hr, rfl⟩
    show (addConnection _ _ _ _ _).2.mLocalAddresses = _
    rw [addConnection_frame]
    exact hlocr
  · rw [if_pos hr] at h
    exact absurd h (by simp)

theorem length_shortcutsOf_eq_portsOf (m : NetworkManager) (t : ConnectionType) :
    (shortcutsOf m.mNetworkConnections t).length = (portsOf m.mNetworkConnections t).length := by
  have h := congrArg List.length (map_deref_shortcutsOf m t)
  rw [List.length_map] at h
  rw [h]
  simp only [portsOf, List.length_map]
  rfl

/-- The external control connection `init` adds last, if it adds one. -/
theorem init_external_step (m : NetworkManager) (port : String) (t : ConnectionType)
    (o : InitOutcome) (ht1 : t ≠ ConnectionType.SyncConnection)
    (ht2 : t ≠ ConnectionType.DataTransfer) :
    ∃ ext : List Network,
      (addConnection m port "127.0.0.1" t o).2.mNetworkConnections
        = m.mNetworkConnections ++ ext ∧
      portsOf ext ConnectionType.SyncConnection = [] ∧
      portsOf ext ConnectionType.DataTransfer = [] ∧
      (ext = [] ∨ externalConnections ext = ext ∧ ext.map (fun n => n.mPort) = [port]) ∧
      (port.isEmpty = false → (∃ mId, o = InitOutcome.ok mId) → ext ≠ []) := by
  rcases addConnection_connections m port "127.0.0.1" t o with ⟨hs, mId, hq⟩ | ⟨hf, hq⟩
  · refine ⟨[Network.init mId port "127.0.0.1" m.mIsServer t], hq, ?_, ?_, Or.inr ⟨?_, rfl⟩,
      fun _ _ => by simp⟩
    · rw [portsOf_init, if_neg ht1]
    · rw [portsOf_init, if_neg ht2]
    · simp [externalConnections, Network.init, Network.getType, ht1, ht2]
  · refine ⟨[], by rw [hq, List.append_nil], rfl, rfl, Or.inl rfl, ?_⟩
    intro hp hok
    obtain ⟨mId, hmId⟩ := hok
    have ht := addConnection_ok m port "127.0.0.1" t mId hp (by decide)
    rw [← hmId, hf] at ht
    exact absurd ht (by simp)

/-- Claim C20, evaluated where it fails. The master of `twoNodeCluster`, a cluster of two
nodes whose second node has no data transfer port and which has no external control port,
runs `init` with every `Network::init` returning: `init` returns `true` and the registry
holds the Sync connection of the one remote node and nothing else. In `fullCluster` every
port is set and the `Network::init` of the data transfer connection throws: `init` returns
`true` as well, with the Sync and the external control connection and no DataTransfer
connection. -/
theorem init_true_without_dataTransfer :
    isComputerServer masterManager = true ∧ twoNodeCluster.nodes.length > 1 ∧
    (init twoNodeCluster (fun _ => InitOutcome.ok 0) masterManager).1 = true ∧
    (remoteNodes (init twoNodeCluster (fun _ => InitOutcome.ok 0) masterManager).2
      twoNodeCluster).length = 1 ∧
    getSyncConnectionsCount (init twoNodeCluster (fun _ => InitOutcome.ok 0) masterManager).2
      = 1 ∧
    getDataTransferConnectionsCount
      (init twoNodeCluster (fun _ => InitOutcome.ok 0) masterManager).2 = 0 ∧
    getExternalControlPtr (init twoNodeCluster (fun _ => InitOutcome.ok 0) masterManager).2
      = none ∧
    getConnectionsCount (init twoNodeCluster (fun _ => InitOutcome.ok 0) masterManager).2
      = 1 ∧
    (init fullCluster secondInitThrows masterManager).1 = true ∧
    (remoteNodes (init fullCluster secondInitThrows masterManager).2 fullCluster).length
      = 1 ∧
    getSyncConnectionsCount (init fullCluster secondInitThrows masterManager).2 = 1 ∧
    getDataTransferConnectionsCount (init fullCluster secondInitThrows masterManager).2
      = 0 ∧
    getConnectionsCount (init fullCluster secondInitThrows masterManager).2 = 2 := by
  decide

/-- C20, amended: when `init` returns `true` on a server of a cluster with more than one
node that owned no connection before, the registry holds exactly one Sync connection for
each configured node whose address does not match a local address (with that node's sync
port, in the order of the configuration), at most one DataTransfer connection for each such
node and at most one external control connection. When in addition every data transfer port
and the external control port are set and no `Network::init` throws, it holds exactly one
DataTransfer connection for each such node and exactly one external control connection. -/
theorem init_server_registry (cm : ClusterManager) (outcome : Nat → InitOutcome)
    (m : NetworkManager) (hsrv : isComputerServer m = true) (hn : cm.nodes.length > 1)
    (hempty : m.mNetworkConnections = []) (hsb : ShortcutsBuilt m)
    (h : (init cm outcome m).1 = true) :
    portsOf (init cm outcome m).2.mNetworkConnections ConnectionType.SyncConnection
      = (remoteNodes (init cm outcome m).2 cm).map Node.syncPort ∧
    getSyncConnectionsCount (init cm outcome m).2
      = Int.ofNat (remoteNodes (init cm outcome m).2 cm).length ∧
    List.Sublist
      (portsOf (init cm outcome m).2.mNetworkConnections ConnectionType.DataTransfer)
      ((remoteNodes (init cm outcome m).2 cm).map Node.dataTransferPort) ∧
    getDataTransferConnectionsCount (init cm outcome m).2
      ≤ Int.ofNat (remoteNodes (init cm outcome m).2 cm).length ∧
    (externalConnections (init cm outcome m).2.mNetworkConnections).length ≤ 1 ∧
    ((∀ n ∈ cm.nodes, n.dataTransferPort.isEmpty = false) →
      cm.externalControlPort.isEmpty = false →
      (∀ j, ∃ mId, outcome j = InitOutcome.ok mId) →
      portsOf (init cm outcome m).2.mNetworkConnections ConnectionType.DataTransfer
        = (remoteNodes (init cm outcome m).2 cm).map Node.dataTransferPort ∧
      getDataTransferConnectionsCount (init cm outcome m).2
        = Int.ofNat (remoteNodes (init cm outcome m).2 cm).length ∧
      (externalConnections (init cm outcome m).2.mNetworkConnections).map (fun n => n.mPort)
        = [cm.externalControlPort]) := by
  obtain ⟨m1, ra, hsrv1, he1, hs1, hd1, hra, hloc, hr, heq⟩ :=
    init_server_steps cm outcome m hsrv hn hempty h
  have hrem : remoteNodes (init cm outcome m).2 cm
      = cm.nodes.filter fun n => ¬ matchAddress m1 n.address := by
    simp only [remoteNodes, matchAddress, hloc]
  have hsb1 : ShortcutsBuilt m1 :=
    ⟨by rw [hs1, he1, hsb.1, hempty], by rw [hd1, he1, hsb.2, hempty]⟩
  have hsb2 : ShortcutsBuilt (init cm outcome m).2 := by
    rw [heq]
    exact addConnection_keeps_shortcutsBuilt _ _ _ _ _
      (initNodes_keeps_shortcutsBuilt outcome ra cm.nodes m1 0 hsb1)
  obtain ⟨added, hadd, hsync, hdt, hext, hexact⟩ :=
    initNodes_registry outcome ra cm.nodes m1 0 hsrv1 hr
  rw [he1, List.nil_append] at hadd
  have het1 : (if cm.useASCIIForExternalControl then ConnectionType.ExternalASCIIConnection
      else ConnectionType.ExternalRawConnection) ≠ ConnectionType.SyncConnection := by
    split <;> simp
  have het2 : (if cm.useASCIIForExternalControl then ConnectionType.ExternalASCIIConnection
      else ConnectionType.ExternalRawConnection) ≠ ConnectionType.DataTransfer := by
    split <;> simp
  obtain ⟨ext, hconn, hes, hed, hcase, hne⟩ :=
    init_external_step (initNodes outcome ra m1 0 cm.nodes).2.1 cm.externalControlPort _
      (outcome (initNodes outcome ra m1 0 cm.nodes).2.2) het1 het2
  rw [← heq, hadd] at hconn
  have hcs : getSyncConnectionsCount (init cm outcome m).2
      = Int.ofNat (portsOf (init cm outcome m).2.mNetworkConnections
          ConnectionType.SyncConnection).length := by
    unfold getSyncConnectionsCount
    rw [hsb2.1, length_shortcutsOf_eq_portsOf]
  have hcd : getDataTransferConnectionsCount (init cm outcome m).2
      = Int.ofNat (portsOf (init cm outcome m).2.mNetworkConnections
          ConnectionType.DataTransfer).length := by
    unfold getDataTransferConnectionsCount
    rw [hsb2.2, length_shortcutsOf_eq_portsOf]
  rw [hcs, hcd, hrem, hconn]
  simp only [portsOf_append, externalConnections_append, hes, hed, hext, List.append_nil,
    List.nil_append]
  refine ⟨hsync, ?_, hdt, ?_, ?_, ?_⟩
  · rw [hsync, List.length_map]
  · have hle := hdt.length_le
    rw [List.length_map] at hle
    simp only [Int.ofNat_eq_coe, Nat.cast_le]
    exact hle
  · rcases hcase with he | ⟨he, hp⟩
    · rw [he]
      exact Nat.zero_le 1
    · rw [he]
      have hl := congrArg List.length hp
      rw [List.length_map] at hl
      rw [hl]
      exact Nat.le_refl 1
  · intro hports hport hok
    have hx := hexact hports hra hok
    refine ⟨hx, ?_, ?_⟩
    · rw [hx, List.length_map]
    · rcases hcase with he | ⟨he, hp⟩
      · exact absurd he (hne hport (hok _))
      · rw [he]
        exact hp

theorem init_server_registry_witness :
    portsOf (init fullCluster (fun k => InitOutcome.ok (Int.ofNat k))
        masterManager).2.mNetworkConnections ConnectionType.SyncConnection
      = (remoteNodes (init fullCluster (fun k => InitOutcome.ok (Int.ofNat k))
          masterManager).2 fullCluster).map Node.syncPort ∧
    getSyncConnectionsCount
        (init fullCluster (fun k => InitOutcome.ok (Int.ofNat k)) masterManager).2 = 1 ∧
    getDataTransferConnectionsCount
        (init fullCluster (fun k => InitOutcome.ok (Int.ofNat k)) masterManager).2 = 1 :=
  have hw := init_server_registry fullCluster (fun k => InitOutcome.ok (Int.ofNat k))
    masterManager (by decide) (by decide) (by decide) ⟨by decide, by decide⟩ (by decide)
  ⟨hw.1, by decide, by decide⟩

/-! ## Claims about the data-sync mutex -/

/-- Claim C23, evaluated where it fails: `close` writes `mIsRunning` (line 713) without
holding the data-sync mutex, while the accessors, `setAllNodesConnected` and
`updateConnectionStatus` make every access with the mutex held. On a server
`updateConnectionStatus` releases the mutex between the writes of the counters and the write
of `mAllNodesConnected`. -/
theorem close_writes_isRunning_without_mutex :
    guarded closeAccesses = false ∧
    (∀ a, guarded (getterAccesses a) = true) ∧
    (∀ m, guarded (setAllNodesConnectedAccesses m) = true) ∧
    (∀ m, guarded (updateConnectionStatusAccesses m) = true) ∧
    updateConnectionStatusAccesses syncedManager
      = [Access.lock, Access.unlock,
          Access.lock,
          Access.write Aggregate.mNumberOfActiveConnections,
          Access.write Aggregate.mNumberOfActiveSyncConnections,
          Access.write Aggregate.mNumberOfActiveDataTransferConnections,
          Access.read Aggregate.mNumberOfActiveSyncConnections,
          Access.unlock,
          Access.lock, Access.write Aggregate.mAllNodesConnected, Access.unlock] := by
  refine ⟨by decide, fun a => rfl, ?_, ?_, by decide⟩
  · intro m
    unfold setAllNodesConnectedAccesses
    split
    · split <;> rfl
    · rfl
  · intro m
    unfold updateConnectionStatusAccesses
    split
    · split <;> rfl
    · split <;> rfl

end sgct.core
